import Mathlib

/-!
Verification of the aoc22 repository: shallow embeddings of the day 7
directory-tree aggregation, the day 11 cyclic simulation and the day 12
grid breadth-first search, together with theorems settling the frozen
claims about the natural-language specification.

Machine integers of the source (`u64`) are modelled as `Nat`, with an
explicit `% 2 ^ 64` wherever the wrap-around of release-profile Rust
arithmetic can influence a claim (day 11).  Fallible operations return
`Except`/`Option`; an `Option.none` models an abort (panic) of the
source, a typed `Except.error` models its `Err` values.
-/

namespace Day11

/-- The `u64` modulus (`2 ^ 64`): release-profile Rust wraps on overflow. -/
def U64 : Nat := 18446744073709551616

/-- From `day11.rs` `enum Var { Old, Num(u64) }`. -/
inductive Var where
  | Old : Var
  | Num : Nat → Var
deriving DecidableEq

/-- From `day11.rs` `Var::apply`. -/
def Var.apply : Var → Nat → Nat
  | .Old, old => old
  | .Num n, _ => n

/-- From `day11.rs` `enum Operation { Add(Var, Var), Mul(Var, Var) }`. -/
inductive Operation where
  | Add : Var → Var → Operation
  | Mul : Var → Var → Operation
deriving DecidableEq

/-- From `day11.rs` `Operation::apply`; `u64` addition and multiplication
wrap modulo `2 ^ 64` in release builds. -/
def Operation.apply : Operation → Nat → Nat
  | .Add l r, old => Nat.mod (Nat.add (l.apply old) (r.apply old)) U64
  | .Mul l r, old => Nat.mod (Nat.mul (l.apply old) (r.apply old)) U64

/-- From `day11.rs` `struct Test`. -/
structure Test where
  divisible_by : Nat
  if_true_send_to : Nat
  if_false_send_to : Nat
deriving DecidableEq

/-- From `day11.rs` `struct Monkey`. -/
structure Monkey where
  inspected : Nat
  index : Nat
  items : List Nat
  operation : Operation
  test : Test
deriving DecidableEq

/-- The routing decision of `run_loop` (day11.rs lines 195-199): the item
goes to `if_true_send_to` exactly when the inspected value is divisible by
the actor's test modulus, else to `if_false_send_to`. -/
def route (test : Test) (item : Nat) : Nat :=
  cond (Nat.beq (Nat.mod item test.divisible_by) 0) test.if_true_send_to test.if_false_send_to

/-- From `day11.rs` line 181: `monkeys.iter().map(|m| m.test.divisible_by).product::<u64>()`.
The `u64` product wraps modulo `2 ^ 64` (wrapping at every fold step equals
one final wrap). -/
def divisorProduct (monkeys : List Monkey) : Nat :=
  (monkeys.map (fun m => m.test.divisible_by)).prod % U64

/-- `monkeys[target].items.push(item)` of day11.rs lines 196-198: walk to the
receiving index and append; `none` models the index-out-of-range panic. -/
def pushTo : List Monkey → Nat → Nat → Option (List Monkey)
  | [], _, _ => none
  | mk :: rest, 0, v => some ({ mk with items := mk.items ++ [v] } :: rest)
  | mk :: rest, t+1, v =>
    match pushTo rest t v with
    | none => none
    | some rest1 => some (mk :: rest1)

/-- Processing of one dequeued item in `run_loop` (day11.rs lines 190-200):
reduce modulo the divisor product, apply the operation, divide by the worry
divider, then push onto the receiving actor's queue.  `none` models the
panics of the source: `item %= 0`, `item /= 0`, or an out-of-range index. -/
def processItem (dp wd : Nat) (op : Operation) (test : Test) (item : Nat)
    (monkeys : List Monkey) : Option (List Monkey) :=
  cond (Nat.beq dp 0) none (
  cond (Nat.beq wd 0) none (
  let item3 := Nat.div (Operation.apply op (Nat.mod item dp)) wd
  pushTo monkeys (route test item3) item3))

/-- The inner `for item in items` loop of `run_loop`. -/
def processItems (dp wd : Nat) (op : Operation) (test : Test) :
    List Nat → List Monkey → Option (List Monkey)
  | [], monkeys => some monkeys
  | item :: rest, monkeys =>
    match processItem dp wd op test item monkeys with
    | none => none
    | some monkeys1 => processItems dp wd op test rest monkeys1

/-- Lines 185-188 of day11.rs: snapshot the actor at index `m`, add its
queue length to its inspection counter and clear its queue.  Returns the
snapshot together with the updated list; `none` models the out-of-range
index panic (unreachable from `runRound`, whose indices come from
`0..monkeys.len()`). -/
def drainAt : List Monkey → Nat → Option (Monkey × List Monkey)
  | [], _ => none
  | mk :: rest, 0 =>
    some (mk, { mk with inspected := Nat.mod (Nat.add mk.inspected mk.items.length) U64,
                        items := [] } :: rest)
  | mk :: rest, t+1 =>
    match drainAt rest t with
    | none => none
    | some (found, rest1) => some (found, mk :: rest1)

/-- One actor's turn in `run_loop` (day11.rs lines 184-200): drain the
queue, then process the snapshot with the snapshot's operation and test.
Items an actor routes to itself land in the cleared queue and are not
reprocessed this turn. -/
def monkeyTurn (dp wd : Nat) (monkeys : List Monkey) (m : Nat) : Option (List Monkey) :=
  match drainAt monkeys m with
  | none => none
  | some (mk, monkeys1) => processItems dp wd mk.operation mk.test mk.items monkeys1

/-- The `for m in 0..monkeys.len()` loop of one round. -/
def turnsLoop (dp wd : Nat) : List Nat → List Monkey → Option (List Monkey)
  | [], monkeys => some monkeys
  | m :: rest, monkeys =>
    match monkeyTurn dp wd monkeys m with
    | none => none
    | some monkeys1 => turnsLoop dp wd rest monkeys1

/-- One full round: every actor takes a turn in index order. -/
def runRound (dp wd : Nat) (monkeys : List Monkey) : Option (List Monkey) :=
  turnsLoop dp wd (List.range monkeys.length) monkeys

/-- The `for _ in 0..iterations` loop of `run_loop`. -/
def runIters (dp wd : Nat) : Nat → List Monkey → Option (List Monkey)
  | 0, monkeys => some monkeys
  | n + 1, monkeys =>
    match runRound dp wd monkeys with
    | none => none
    | some monkeys1 => runIters dp wd n monkeys1

/-- From `day11.rs` `run_loop`: the divisor product is computed once from
the initial actors, then `iterations` rounds are run. -/
def run_loop (iterations wd : Nat) (monkeys : List Monkey) : Option (List Monkey) :=
  runIters (divisorProduct monkeys) wd iterations monkeys

/-- The reporting step shared by both challenges (day11.rs lines 213-216):
sort the inspection counters ascending, take the two largest, multiply
(`u64` multiplication wraps).  `Vec::sort` is modelled by insertion sort:
on a list of naturals every correct ascending sort produces the same
list. -/
def topTwoProduct (monkeys : List Monkey) : Nat :=
  let inspected := monkeys.map (fun m => m.inspected)
  let sorted := inspected.insertionSort (fun a b => a ≤ b)
  (sorted.reverse.take 2).prod % U64

/-- From `day11.rs` `run_challenge1`, applied to the parsed, index-sorted
actor list (file reading and the `nom` grammar are the external input
phase; `read_input` sorts by index, which leaves an already ordered list
unchanged). -/
def run_challenge1 (monkeys : List Monkey) : Option Nat :=
  (run_loop 20 3 monkeys).map topTwoProduct

/-- From `day11.rs` `run_challenge2`: 10000 rounds with worry divider 1. -/
def run_challenge2 (monkeys : List Monkey) : Option Nat :=
  (run_loop 10000 1 monkeys).map topTwoProduct

/-- Modelled from the spec: the documented 4-actor cyclic-simulation input
(`data/day11_example.txt` is not under `src/`); the four actors hold the
starting queues, transforms and divisibility routing rules of the
documented example, already in index order 0..3. -/
def day11Example : List Monkey :=
  [ ⟨0, 0, [79, 98], .Mul .Old (.Num 19), ⟨23, 2, 3⟩⟩,
    ⟨0, 1, [54, 65, 75, 74], .Add .Old (.Num 6), ⟨19, 2, 0⟩⟩,
    ⟨0, 2, [79, 60, 97], .Mul .Old .Old, ⟨13, 1, 3⟩⟩,
    ⟨0, 3, [74], .Add .Old (.Num 3), ⟨17, 0, 1⟩⟩ ]


/-- Builder for intermediate simulation states of the documented example:
the four actors' transforms and tests never change, only the inspection
counters and queues do. -/
def exampleState (ins : List Nat) (qs : List (List Nat)) : List Monkey :=
  [ ⟨ins.getD 0 0, 0, qs.getD 0 [], .Mul .Old (.Num 19), ⟨23, 2, 3⟩⟩,
    ⟨ins.getD 1 0, 1, qs.getD 1 [], .Add .Old (.Num 6), ⟨19, 2, 0⟩⟩,
    ⟨ins.getD 2 0, 2, qs.getD 2 [], .Mul .Old .Old, ⟨13, 1, 3⟩⟩,
    ⟨ins.getD 3 0, 3, qs.getD 3 [], .Add .Old (.Num 3), ⟨17, 0, 1⟩⟩ ]

/-- Simulation state of the documented example after 50 rounds. -/
def day11S1 : List Monkey :=
  exampleState [251, 245, 14, 255]
    [[46673, 90221, 18249, 53722, 82583, 26457, 46648],
     [14500, 48605, 4411],
     [],
     []]

/-- Simulation state of the documented example after 100 rounds. -/
def day11S2 : List Monkey :=
  exampleState [509, 487, 25, 511]
    [[20833, 36660, 77149, 56762, 73843, 57028],
     [94376, 32132, 91716, 78036],
     [],
     []]

/-- Simulation state of the documented example after 150 rounds. -/
def day11S3 : List Monkey :=
  exampleState [774, 722, 34, 775]
    [[68048, 82374],
     [48795, 36654, 93312, 4411, 41860, 55749, 82862, 57421],
     [],
     []]

/-- Simulation state of the documented example after 200 rounds. -/
def day11S4 : List Monkey :=
  exampleState [1029, 967, 45, 1030]
    [[84673, 8559, 13100],
     [74445, 4677, 32132, 49479, 68631, 72279, 72982],
     [],
     []]

/-- Simulation state of the documented example after 250 rounds. -/
def day11S5 : List Monkey :=
  exampleState [1288, 1208, 56, 1287]
    [[68960, 53817, 69302, 54634],
     [54001, 12752, 53773, 41860, 69315, 4202],
     [],
     []]

/-- Simulation state of the documented example after 300 rounds. -/
def day11S6 : List Monkey :=
  exampleState [1550, 1446, 64, 1547]
    [[85490, 82032, 7913, 49618, 38959, 94775],
     [47788, 94547, 90766, 72982],
     [],
     []]

/-- Simulation state of the documented example after 350 rounds. -/
def day11S7 : List Monkey :=
  exampleState [1812, 1684, 75, 1809]
    [[70043, 90867, 38408, 69302, 79790],
     [38953, 8230, 12771, 53621, 52652],
     [],
     []]

/-- Simulation state of the documented example after 400 rounds. -/
def day11S8 : List Monkey :=
  exampleState [2071, 1925, 84, 2067]
    [[95123, 57009, 9148, 82032, 54216, 81956, 4759, 60923, 28237],
     [69429],
     [],
     []]

/-- Simulation state of the documented example after 450 rounds. -/
def day11S9 : List Monkey :=
  exampleState [2335, 2161, 93, 2330]
    [[65407, 38408, 40080, 68314, 4335],
     [32189, 9142, 63843, 1143, 45546],
     [],
     []]

/-- Simulation state of the documented example after 500 rounds. -/
def day11S10 : List Monkey :=
  exampleState [2595, 2401, 104, 2590]
    [[57009, 54957, 45229, 31986],
     [65401, 94661, 54419, 83926, 58048, 20998],
     [],
     []]

/-- Simulation state of the documented example after 550 rounds. -/
def day11S11 : List Monkey :=
  exampleState [2857, 2639, 112, 2852]
    [[9528, 16140, 73235, 38123, 4335],
     [88334, 31163, 4905, 34146, 45223],
     [],
     []]

/-- Simulation state of the documented example after 600 rounds. -/
def day11S12 : List Monkey :=
  exampleState [3121, 2875, 121, 3115]
    [[20377, 76503, 19883, 41353],
     [58029, 5323, 83926, 22841, 29263, 28769],
     [],
     []]

/-- Simulation state of the documented example after 650 rounds. -/
def day11S13 : List Monkey :=
  exampleState [3376, 3120, 132, 3369]
    [[63564, 66053, 46027, 5405, 34697],
     [3905125081, 31163, 71025, 48605, 95136],
     [],
     []]

/-- Simulation state of the documented example after 700 rounds. -/
def day11S14 : List Monkey :=
  exampleState [3635, 3361, 142, 3627]
    [[54748, 56762, 61246, 15665, 91418],
     [60366, 49251, 91393, 22841, 79955],
     [],
     []]

/-- Simulation state of the documented example after 750 rounds. -/
def day11S15 : List Monkey :=
  exampleState [3899, 3597, 152, 3889]
    [[95180, 79087, 65806, 73558, 34697],
     [82862, 17293, 61050, 76478, 76915],
     [],
     []]

/-- Simulation state of the documented example after 800 rounds. -/
def day11S16 : List Monkey :=
  exampleState [4159, 3837, 162, 4149]
    [[84673, 53722, 61246, 67364, 48953],
     [95174, 52310, 59910, 49612, 34735],
     [],
     []]

/-- Simulation state of the documented example after 850 rounds. -/
def day11S17 : List Monkey :=
  exampleState [4420, 4076, 171, 4409]
    [[68960, 20833, 64343, 11941, 66205, 90430, 63767],
     [30973, 61050, 48947],
     [],
     []]

/-- Simulation state of the documented example after 900 rounds. -/
def day11S18 : List Monkey :=
  exampleState [4683, 4313, 180, 4671]
    [[53722, 85490, 42474, 82374],
     [32246, 64432, 55806, 66199, 54210, 21834],
     [],
     []]

/-- Simulation state of the documented example after 950 rounds. -/
def day11S19 : List Monkey :=
  exampleState [4942, 4554, 191, 4930]
    [[20833, 78422, 79182, 39719, 28281],
     [60556, 68308, 49479, 40682, 12771],
     [],
     []]

/-- Simulation state of the documented example after 1000 rounds. -/
def day11S20 : List Monkey :=
  exampleState [5204, 4792, 199, 5192]
    [[84464, 48934, 39396, 19275, 48307, 82374, 27591],
     [12752, 69429, 31980],
     [],
     []]

/-- Simulation state of the documented example after 1050 rounds. -/
def day11S21 : List Monkey :=
  exampleState [5468, 5028, 207, 5455]
    [[864, 2422, 11618, 5367, 88055],
     [40321, 49479, 47788, 73229, 63843],
     [],
     []]

/-- Simulation state of the documented example after 1100 rounds. -/
def day11S22 : List Monkey :=
  exampleState [5724, 5272, 219, 5710]
    [[48801, 96092, 21156, 79790, 68289, 91222],
     [12752, 94091, 54419, 5361],
     [],
     []]

/-- Simulation state of the documented example after 1150 rounds. -/
def day11S23 : List Monkey :=
  exampleState [5983, 5513, 229, 5968]
    [[74451, 16140, 4759, 44127],
     [84724, 66693, 47788, 70607, 21150, 16153],
     [],
     []]

/-- Simulation state of the documented example after 1200 rounds. -/
def day11S24 : List Monkey :=
  exampleState [6247, 5749, 239, 6230]
    [[54007, 45533, 79790, 82178],
     [71082, 17996, 29263, 1143, 4544, 12847],
     [],
     []]

/-- Simulation state of the documented example after 1250 rounds. -/
def day11S25 : List Monkey :=
  exampleState [6507, 5989, 248, 6490]
    [[63564, 54957, 4759, 26362, 24424],
     [29871, 37205, 76060, 73552, 80620],
     [],
     []]

/-- Simulation state of the documented example after 1300 rounds. -/
def day11S26 : List Monkey :=
  exampleState [6770, 6226, 257, 6752]
    [[54748, 9528, 83286, 63602, 52658],
     [3385, 23810, 1143, 61373, 2264],
     [],
     []]

/-- Simulation state of the documented example after 1350 rounds. -/
def day11S27 : List Monkey :=
  exampleState [7029, 6467, 267, 7010]
    [[54957, 20510, 79087, 34399, 34665, 93584, 19883],
     [33329, 64337, 28655],
     [],
     []]

/-- Simulation state of the documented example after 1400 rounds. -/
def day11S28 : List Monkey :=
  exampleState [7290, 6706, 278, 7271]
    [[9528, 41372, 88986, 54463, 21346, 459],
     [42468, 71025, 93578, 49612],
     [],
     []]

/-- Simulation state of the documented example after 1450 rounds. -/
def day11S29 : List Monkey :=
  exampleState [7553, 6943, 286, 7534]
    [[59593, 56040, 61607, 48649, 19883, 63767],
     [49251, 21340, 28275, 25197],
     [],
     []]

/-- Simulation state of the documented example after 1500 rounds. -/
def day11S30 : List Monkey :=
  exampleState [7817, 7179, 295, 7797]
    [[16425, 31245],
     [90177, 71025, 56034, 39390, 60708, 54210, 25691, 76478],
     [],
     []]

/-- Simulation state of the documented example after 1550 rounds. -/
def day11S31 : List Monkey :=
  exampleState [8071, 7425, 306, 8050]
    [[58035, 87371, 64191, 53152, 67364, 41999],
     [49251, 49460, 68308, 77352],
     [],
     []]

/-- Simulation state of the documented example after 1600 rounds. -/
def day11S32 : List Monkey :=
  exampleState [8332, 7664, 317, 8309]
    [[34092, 90430],
     [18984, 64641, 11783, 86149, 70398, 53146, 31980, 76478],
     [],
     []]

/-- Simulation state of the documented example after 1650 rounds. -/
def day11S33 : List Monkey :=
  exampleState [8595, 7901, 325, 8571]
    [[77244, 60372, 92881, 67364],
     [47313, 73229, 21834, 86453, 51056, 19383],
     [],
     []]

/-- Simulation state of the documented example after 1700 rounds. -/
def day11S34 : List Monkey :=
  exampleState [8854, 8142, 335, 8830]
    [[83818, 48801, 78422, 60296, 90430, 77757],
     [93179, 45527, 83242, 6330],
     [],
     []]

/-- Simulation state of the documented example after 1750 rounds. -/
def day11S35 : List Monkey :=
  exampleState [9117, 8379, 344, 9092]
    [[74451, 84464, 36660, 49523, 93318, 86744, 34741],
     [21834, 7280, 43133],
     [],
     []]

/-- Simulation state of the documented example after 1800 rounds. -/
def day11S36 : List Monkey :=
  exampleState [9378, 8618, 354, 9352]
    [[78422, 54007, 74128, 4683, 88055],
     [53906, 93312, 63596, 61677, 55749],
     [],
     []]

/-- Simulation state of the documented example after 1850 rounds. -/
def day11S37 : List Monkey :=
  exampleState [9638, 8858, 365, 9612]
    [[84464, 13461, 69036, 69321, 8730],
     [4677, 34393, 94091, 73552, 72279],
     [],
     []]

/-- Simulation state of the documented example after 1900 rounds. -/
def day11S38 : List Monkey :=
  exampleState [9902, 9094, 373, 9876]
    [[55147, 88055, 52658, 78669],
     [66693, 53773, 69315, 54457, 92552, 62342],
     [],
     []]

/-- Simulation state of the documented example after 1950 rounds. -/
def day11S39 : List Monkey :=
  exampleState [10164, 9332, 382, 10137]
    [[22353, 14202, 38959, 94775, 72488],
     [75319, 94091, 64337, 4544, 47636],
     [],
     []]

/-- Simulation state of the documented example after 2000 rounds. -/
def day11S40 : List Monkey :=
  exampleState [10419, 9577, 392, 10391]
    [[70043, 40327, 18249, 24424, 25374],
     [66693, 70664, 42468, 95193, 53621],
     [],
     []]

/-- Simulation state of the documented example after 2050 rounds. -/
def day11S41 : List Monkey :=
  exampleState [10680, 9816, 404, 10650]
    [[9148, 60923, 45552],
     [69372, 30840, 91716, 28275, 4544, 41993, 2264],
     [],
     []]

/-- Simulation state of the documented example after 2100 rounds. -/
def day11S42 : List Monkey :=
  exampleState [10943, 10053, 413, 10912]
    [[65407, 84730, 94667, 24424],
     [39390, 28655, 915, 4411, 45546, 93521],
     [],
     []]

/-- Simulation state of the documented example after 2150 rounds. -/
def day11S43 : List Monkey :=
  exampleState [11203, 10293, 422, 11172]
    [[58035, 41372, 88340, 28737, 45229, 92514],
     [94661, 32132, 36483, 2264],
     [],
     []]

/-- Simulation state of the documented example after 2200 rounds. -/
def day11S44 : List Monkey :=
  exampleState [11466, 10530, 432, 11433]
    [[34092, 59593, 71753, 80626],
     [88334, 4905, 28655, 41860, 47028, 13094],
     [],
     []]

/-- Simulation state of the documented example after 2250 rounds. -/
def day11S45 : List Monkey :=
  exampleState [11726, 10770, 442, 11693]
    [[41372, 60372, 56363, 31245, 41353, 13056],
     [5323, 49517, 72982, 54628],
     [],
     []]

/-- Simulation state of the documented example after 2300 rounds. -/
def day11S46 : List Monkey :=
  exampleState [11986, 11010, 451, 11953]
    [[59593, 62614, 56192, 5405, 69302],
     [74122, 49460, 45527, 7907, 95136],
     [],
     []]

/-- Simulation state of the documented example after 2350 rounds. -/
def day11S47 : List Monkey :=
  exampleState [12248, 11248, 460, 12215]
    [[82032, 31245, 15665, 34741, 17299, 46065],
     [11783, 91393, 69030, 20219],
     [],
     []]

/-- Simulation state of the documented example after 2400 rounds. -/
def day11S48 : List Monkey :=
  exampleState [12512, 11484, 469, 12478]
    [[95180, 38408, 52316, 25203],
     [49460, 63596, 86453, 17293, 36008, 8401],
     [],
     []]

/-- Simulation state of the documented example after 2450 rounds. -/
def day11S49 : List Monkey :=
  exampleState [12766, 11730, 479, 12731]
    [[90183, 57009, 30979, 77757, 95807, 48953],
     [11783, 87232, 34393, 52310],
     [],
     []]

/-- Simulation state of the documented example after 2500 rounds. -/
def day11S50 : List Monkey :=
  exampleState [13028, 11968, 490, 12991]
    [[64438, 66205, 4335],
     [62684, 30973, 6615, 54457, 86453, 25368, 43133],
     [],
     []]

/-- Simulation state of the documented example after 2550 rounds. -/
def day11S51 : List Monkey :=
  exampleState [13291, 12205, 500, 13253]
    [[64647, 77757, 72488, 78625],
     [64432, 55806, 61677, 17502, 83926, 38630],
     [],
     []]

/-- Simulation state of the documented example after 2600 rounds. -/
def day11S52 : List Monkey :=
  exampleState [13552, 12444, 509, 13514]
    [[40327, 13461, 39719, 19389, 17255],
     [60556, 31163, 76497, 43133, 40378],
     [],
     []]

/-- Simulation state of the documented example after 2650 rounds. -/
def day11S53 : List Monkey :=
  exampleState [13814, 12682, 520, 13774]
    [[11238, 83248, 19275, 78669, 27591],
     [46021, 61677, 22841, 24456, 41993],
     [],
     []]

/-- Simulation state of the documented example after 2700 rounds. -/
def day11S54 : List Monkey :=
  exampleState [14073, 12923, 528, 14033]
    [[13461, 84730, 8559, 2422, 14202, 5367, 54919, 34697],
     [71747, 91412],
     [],
     []]

/-- Simulation state of the documented example after 2750 rounds. -/
def day11S55 : List Monkey :=
  exampleState [14334, 13162, 539, 14294]
    [[30751, 61246, 21156, 78669, 92514, 91222],
     [56357, 70664, 65800, 4202],
     [],
     []]

/-- Simulation state of the documented example after 2800 rounds. -/
def day11S56 : List Monkey :=
  exampleState [14597, 13399, 546, 14557]
    [[71088, 14202, 44127, 80626, 6051],
     [30840, 56186, 94547, 61050, 16153],
     [],
     []]

/-- Simulation state of the documented example after 2850 rounds. -/
def day11S57 : List Monkey :=
  exampleState [14860, 13636, 555, 14819]
    [[29877, 53722, 92558],
     [71082, 70664, 49517, 17996, 915, 8230, 63159],
     [],
     []]

/-- Simulation state of the documented example after 2900 rounds. -/
def day11S58 : List Monkey :=
  exampleState [15114, 13882, 566, 15072]
    [[20833, 28737, 81956, 23816, 47642],
     [29871, 37205, 30840, 15716, 74122],
     [],
     []]

/-- Simulation state of the documented example after 2950 rounds. -/
def day11S59 : List Monkey :=
  exampleState [15377, 14119, 577, 15333]
    [[82374],
     [32189, 3385, 29225, 79176, 23810, 69030, 915, 95801, 47028],
     [],
     []]

/-- Simulation state of the documented example after 3000 rounds. -/
def day11S60 : List Monkey :=
  exampleState [15638, 14358, 587, 15593]
    [[69378, 34665, 28737, 93584, 25203, 13056],
     [48928, 42924, 49479, 58048],
     [],
     []]

/-- Simulation state of the documented example after 3050 rounds. -/
def day11S61 : List Monkey :=
  exampleState [15899, 14597, 597, 15854]
    [[90183, 62614, 88986, 21346, 38123, 93527],
     [12752, 11612, 47028, 91260],
     [],
     []]

/-- Simulation state of the documented example after 3100 rounds. -/
def day11S62 : List Monkey :=
  exampleState [16161, 14835, 606, 16114]
    [[20377, 56040, 36489, 61607, 25697, 46065, 13056],
     [47788, 78473, 25368],
     [],
     []]

/-- Simulation state of the documented example after 3150 rounds. -/
def day11S63 : List Monkey :=
  exampleState [16422, 15074, 615, 16375]
    [[62614, 64647, 66053, 77700, 79790, 77358],
     [11232, 60708, 25691, 8401],
     [],
     []]

/-- Simulation state of the documented example after 3200 rounds. -/
def day11S64 : List Monkey :=
  exampleState [16681, 15315, 627, 16634]
    [[4759, 70404, 53152, 46065, 19389, 25355],
     [8553, 87232, 79955, 77352],
     [],
     []]

/-- Simulation state of the documented example after 3250 rounds. -/
def day11S65 : List Monkey :=
  exampleState [16946, 15550, 634, 16899]
    [[83248, 18401, 5304],
     [18984, 6615, 70398, 26356, 1143, 8401, 76915],
     [],
     []]

/-- Simulation state of the documented example after 3300 rounds. -/
def day11S66 : List Monkey :=
  exampleState [17208, 15788, 642, 17160]
    [[54957, 20225, 92881],
     [47313, 83280, 87232, 71747, 17502, 59910, 41214],
     [],
     []]

/-- Simulation state of the documented example after 3350 rounds. -/
def day11S67 : List Monkey :=
  exampleState [17463, 16033, 653, 17414]
    [[9528, 60296, 11941, 36014],
     [20504, 6615, 8990, 56357, 6330, 40378],
     [],
     []]

/-- Simulation state of the documented example after 3400 rounds. -/
def day11S68 : List Monkey :=
  exampleState [17723, 16273, 664, 17672]
    [[36660, 93318, 55755, 19883],
     [32246, 72507, 56186, 17502, 81950, 24456],
     [],
     []]

/-- Simulation state of the documented example after 3450 rounds. -/
def day11S69 : List Monkey :=
  exampleState [17987, 16509, 674, 17935]
    [[62690, 4683, 92558, 72285, 54919],
     [43057, 71025, 40682, 55749, 40378],
     [],
     []]

/-- Simulation state of the documented example after 3500 rounds. -/
def day11S70 : List Monkey :=
  exampleState [18247, 16749, 685, 18195]
    [[30751, 53779, 69321, 48307, 38636, 47642],
     [49251, 24456, 92248, 72279],
     [],
     []]

/-- Simulation state of the documented example after 3550 rounds. -/
def day11S71 : List Monkey :=
  exampleState [18511, 16985, 694, 18457]
    [[864, 6051, 54919, 42449],
     [53773, 64185, 95801, 62342, 38117, 76478],
     [],
     []]

/-- Simulation state of the documented example after 3600 rounds. -/
def day11S72 : List Monkey :=
  exampleState [18769, 17227, 701, 18715]
    [[30751, 69378, 96092, 27654, 38959, 67364, 53627],
     [75319, 20371, 63159],
     [],
     []]

/-- Simulation state of the documented example after 3650 rounds. -/
def day11S73 : List Monkey :=
  exampleState [19030, 17466, 714, 18976]
    [[90430, 6051, 95446, 93527],
     [77238, 66047, 15716, 70607, 95193, 53621],
     [],
     []]

/-- Simulation state of the documented example after 3700 rounds. -/
def day11S74 : List Monkey :=
  exampleState [19294, 17702, 720, 19240]
    [[9148, 36489, 45552, 4208],
     [83812, 29225, 21834, 63159, 12847, 75585],
     [],
     []]

/-- Simulation state of the documented example after 3750 rounds. -/
def day11S75 : List Monkey :=
  exampleState [19555, 17941, 729, 19500]
    [[65407, 78422, 94667, 94553],
     [15716, 11232, 42924, 76060, 10567, 86738],
     [],
     []]

/-- Simulation state of the documented example after 3800 rounds. -/
def day11S76 : List Monkey :=
  exampleState [19811, 18185, 740, 19755]
    [[84464, 88340, 4911, 8236, 45229],
     [29225, 74350, 8553, 91260, 61373],
     [],
     []]

/-- Simulation state of the documented example after 3850 rounds. -/
def day11S77 : List Monkey :=
  exampleState [20072, 18424, 751, 20014]
    [[5329, 88055, 5304],
     [33329, 25672, 42924, 4905, 11935, 78473, 13094],
     [],
     []]

/-- Simulation state of the documented example after 3900 rounds. -/
def day11S78 : List Monkey :=
  exampleState [20335, 18661, 761, 20276]
    [[32195, 20225, 77700, 95142, 459],
     [5323, 45584, 94091, 91260, 54628],
     [],
     []]

/-- Simulation state of the documented example after 3950 rounds. -/
def day11S79 : List Monkey :=
  exampleState [20595, 18901, 772, 20536]
    [[91399, 48649, 58054, 36014, 25355],
     [66693, 78473, 14443, 7907, 95136],
     [],
     []]

/-- Simulation state of the documented example after 4000 rounds. -/
def day11S80 : List Monkey :=
  exampleState [20858, 19138, 780, 20797]
    [[16425, 18401, 77700, 17299, 33924],
     [70037, 91393, 81950, 48301, 4544],
     [],
     []]

/-- Simulation state of the documented example after 4050 rounds. -/
def day11S81 : List Monkey :=
  exampleState [21116, 19380, 789, 21055]
    [[95180, 62690, 87371, 52316, 42550, 24424, 25355],
     [858, 41214, 60917],
     [],
     []]

/-- Simulation state of the documented example after 4100 rounds. -/
def day11S82 : List Monkey :=
  exampleState [21377, 19619, 801, 21316]
    [[30979, 18401, 75097, 38636, 48953, 2397],
     [96086, 8990, 86149, 2264],
     [],
     []]

/-- Simulation state of the documented example after 4150 rounds. -/
def day11S83 : List Monkey :=
  exampleState [21642, 19854, 807, 21581]
    [[64438, 55812, 66205, 79961],
     [72507, 28655, 41214, 51056, 84154, 38117],
     [],
     []]

/-- Simulation state of the documented example after 4200 rounds. -/
def day11S84 : List Monkey :=
  exampleState [21903, 20093, 817, 21841]
    [[41372, 60562, 76921, 78625],
     [8990, 20371, 55806, 43057, 93179, 7736],
     [],
     []]

/-- Simulation state of the documented example after 4250 rounds. -/
def day11S85 : List Monkey :=
  exampleState [22160, 20336, 827, 22097]
    [[59593, 59916],
     [72507, 60689, 66047, 60556, 76497, 92248, 7280, 41347],
     [],
     []]

/-- Simulation state of the documented example after 4300 rounds. -/
def day11S86 : List Monkey :=
  exampleState [22420, 20576, 837, 22355]
    [[31245, 4208, 33728, 27591, 42449],
     [53906, 5000, 46021, 43057, 5399],
     [],
     []]

/-- Simulation state of the documented example after 4350 rounds. -/
def day11S87 : List Monkey :=
  exampleState [22683, 20813, 847, 22617]
    [[32252, 94553, 5367, 27654, 8730],
     [93597, 49460, 92248, 15659, 91412],
     [],
     []]

/-- Simulation state of the documented example after 4400 rounds. -/
def day11S88 : List Monkey :=
  exampleState [22942, 21054, 859, 22876]
    [[55147, 40688, 8236, 21156, 95446, 16159, 42449],
     [11783, 81380, 65800],
     [],
     []]

/-- Simulation state of the documented example after 4450 rounds. -/
def day11S89 : List Monkey :=
  exampleState [23206, 21290, 867, 23138]
    [[71088, 22353, 18002, 27654, 65103],
     [11935, 48643, 86453, 16153, 75585],
     [],
     []]

/-- Simulation state of the documented example after 4500 rounds. -/
def day11S90 : List Monkey :=
  exampleState [23464, 21532, 876, 23396]
    [[29877, 32195, 18249, 37211, 77757, 95446, 84350],
     [16419, 17996, 10567],
     [],
     []]

/-- Simulation state of the documented example after 4550 rounds. -/
def day11S91 : List Monkey :=
  exampleState [23726, 21770, 887, 23658]
    [[3391, 23816, 74774, 58054],
     [87365, 37205, 74350, 91716, 43133, 75585],
     [],
     []]

/-- Simulation state of the documented example after 4600 rounds. -/
def day11S92 : List Monkey :=
  exampleState [23991, 22005, 894, 23923]
    [[70613],
     [3385, 25672, 79176, 61677, 39713, 10567, 4411, 53811, 48301],
     [],
     []]

/-- Simulation state of the documented example after 4650 rounds. -/
def day11S93 : List Monkey :=
  exampleState [24251, 22245, 904, 24182]
    [[13461, 93584, 12853, 50524],
     [74350, 48928, 858, 45584, 32132, 19269],
     [],
     []]

/-- Simulation state of the documented example after 4700 rounds. -/
def day11S94 : List Monkey :=
  exampleState [24507, 22489, 915, 24437]
    [[76066, 21346, 78669],
     [25672, 90861, 96086, 2416, 11612, 14443, 41860],
     [],
     []]

/-- Simulation state of the documented example after 4750 rounds. -/
def day11S95 : List Monkey :=
  exampleState [24766, 22730, 925, 24694]
    [[56040, 14202, 60714, 25697, 79961, 61379, 33924],
     [95117, 45584, 72982],
     [],
     []]

/-- Simulation state of the documented example after 4800 rounds. -/
def day11S96 : List Monkey :=
  exampleState [25030, 22966, 935, 24957]
    [[33335, 42550, 69302, 77358, 76921],
     [40074, 70664, 60708, 14443, 44121],
     [],
     []]

/-- Simulation state of the documented example after 4850 rounds. -/
def day11S97 : List Monkey :=
  exampleState [25290, 23206, 945, 25217]
    [[18990, 82032, 70404, 59916, 75097, 53152, 33924, 1105],
     [30840, 8724],
     [],
     []]

/-- Simulation state of the documented example after 4900 rounds. -/
def day11S98 : List Monkey :=
  exampleState [25554, 23442, 953, 25479]
    [[47319, 38408, 42550, 78042, 33728],
     [18984, 55141, 915, 26356, 84154],
     [],
     []]

/-- Simulation state of the documented example after 4950 rounds. -/
def day11S99 : List Monkey :=
  exampleState [25812, 23684, 963, 25737]
    [[32252, 57009, 28737, 6336, 75097, 57427],
     [47313, 22347, 83280, 7736],
     [],
     []]

/-- Simulation state of the documented example after 5000 rounds. -/
def day11S100 : List Monkey :=
  exampleState [26075, 23921, 974, 26000]
    [[68637, 40688, 4335],
     [18243, 20504, 60689, 34659, 6330, 47028, 84154],
     [],
     []]

/-- Simulation state of the documented example after 5050 rounds. -/
def day11S101 : List Monkey :=
  exampleState [26338, 24158, 981, 26263]
    [[93318, 86155, 55755, 13056],
     [5000, 88980, 7736, 83926, 56756, 48643],
     [],
     []]

/-- Simulation state of the documented example after 5100 rounds. -/
def day11S102 : List Monkey :=
  exampleState [26598, 24398, 991, 26522]
    [[62614, 4683, 51062, 72285, 90772],
     [60689, 16419, 93597, 31163, 61601],
     [],
     []]

/-- Simulation state of the documented example after 5150 rounds. -/
def day11S103 : List Monkey :=
  exampleState [26854, 24642, 1001, 26777]
    [[93185, 53779, 69321, 46065, 62348],
     [5000, 84667, 87365, 81380, 22841],
     [],
     []]

/-- Simulation state of the documented example after 5200 rounds. -/
def day11S104 : List Monkey :=
  exampleState [27116, 24880, 1011, 27037]
    [[75325, 70613, 7286, 65103, 34697],
     [68954, 93597, 64185, 62342, 8401],
     [],
     []]

/-- Simulation state of the documented example after 5250 rounds. -/
def day11S105 : List Monkey :=
  exampleState [27377, 25119, 1022, 27297]
    [[53912, 61246, 95199, 12853, 53627, 84350],
     [75319, 85484, 87232, 81380],
     [],
     []]

/-- Simulation state of the documented example after 5300 rounds. -/
def day11S106 : List Monkey :=
  exampleState [27640, 25356, 1032, 27560]
    [[76066, 74774, 65103, 21004],
     [77238, 6615, 95193, 92875, 69296, 61050],
     [],
     []]

/-- Simulation state of the documented example after 5350 rounds. -/
def day11S107 : List Monkey :=
  exampleState [27902, 25594, 1041, 27820]
    [[53722, 34152, 61379, 45552, 84350],
     [83812, 60290, 82026, 17502, 53811],
     [],
     []]

/-- Simulation state of the documented example after 5400 rounds. -/
def day11S108 : List Monkey :=
  exampleState [28161, 25835, 1050, 28079]
    [[33335, 20833, 94667, 74774, 28775, 50524],
     [36654, 38402, 86738, 40378],
     [],
     []]

/-- Simulation state of the documented example after 5450 rounds. -/
def day11S109 : List Monkey :=
  exampleState [28422, 26074, 1061, 28340]
    [[88340, 48611, 4911, 13100, 82374],
     [57003, 90861, 24456, 53811, 8724],
     [],
     []]

/-- Simulation state of the documented example after 5500 rounds. -/
def day11S110 : List Monkey :=
  exampleState [28686, 26310, 1068, 28604]
    [[5329, 91722, 54919, 54634, 50524],
     [95117, 49479, 16134, 55141, 13094],
     [],
     []]

/-- Simulation state of the documented example after 5550 rounds. -/
def day11S111 : List Monkey :=
  exampleState [28946, 26550, 1078, 28863]
    [[30751, 7913, 4417, 82868, 95142],
     [90861, 22347, 40074, 12752, 54628],
     [],
     []]

/-- Simulation state of the documented example after 5600 rounds. -/
def day11S112 : List Monkey :=
  exampleState [29202, 26794, 1088, 29118]
    [[32138, 91399, 6051, 1105],
     [95117, 63558, 18243, 47788, 7907, 38953],
     [],
     []]

/-- Simulation state of the documented example after 5650 rounds. -/
def day11S113 : List Monkey :=
  exampleState [29463, 27033, 1098, 29377]
    [[86155, 41866, 78042, 17299, 79790, 28237],
     [54742, 70037, 40074, 63159],
     [],
     []]

/-- Simulation state of the documented example after 5700 rounds. -/
def day11S114 : List Monkey :=
  exampleState [29725, 27271, 1110, 29638]
    [[52316, 4759, 51062, 57427, 72988, 1105],
     [9142, 79081, 15716, 60917],
     [],
     []]

/-- Simulation state of the documented example after 5750 rounds. -/
def day11S115 : List Monkey :=
  exampleState [29987, 27509, 1118, 29900]
    [[30979, 93185, 68637, 78042, 12777, 2397],
     [65401, 29225, 61240, 1143],
     [],
     []]

/-- Simulation state of the documented example after 5800 rounds. -/
def day11S116 : List Monkey :=
  exampleState [30249, 27747, 1128, 30160]
    [[64438, 54957, 55812, 69435, 7286, 57427, 13379],
     [42924, 56756, 45223],
     [],
     []]

/-- Simulation state of the documented example after 5850 rounds. -/
def day11S117 : List Monkey :=
  exampleState [30508, 27988, 1137, 30419]
    [[53912, 9528, 60562, 68637, 76503, 63849, 90772, 78625],
     [53716, 91260],
     [],
     []]

/-- Simulation state of the documented example after 5900 rounds. -/
def day11S118 : List Monkey :=
  exampleState [30771, 28225, 1148, 30682]
    [[46027, 54425, 19883],
     [20827, 84667, 78473, 76497, 56756, 69296, 41347],
     [],
     []]

/-- Simulation state of the documented example after 5950 rounds. -/
def day11S119 : List Monkey :=
  exampleState [31035, 28461, 1154, 30946]
    [[77700, 90772, 91418, 16932],
     [68954, 46021, 71025, 82026, 5399, 82368],
     [],
     []]

/-- Simulation state of the documented example after 6000 rounds. -/
def day11S120 : List Monkey :=
  exampleState [31294, 28702, 1165, 31204]
    [[83932, 65806, 29269, 25355],
     [84667, 38402, 85484, 49251, 15659, 91412],
     [],
     []]

/-- Simulation state of the documented example after 6050 rounds. -/
def day11S121 : List Monkey :=
  exampleState [31550, 28946, 1175, 31459]
    [[31169, 18401, 21004, 16159],
     [68954, 95174, 48795, 57003, 65800, 76478],
     [],
     []]

/-- Simulation state of the documented example after 6100 rounds. -/
def day11S122 : List Monkey :=
  exampleState [31810, 29186, 1185, 31717]
    [[71088, 91722, 22847, 18002, 34152, 67364],
     [74445, 85484, 41214, 48947],
     [],
     []]

/-- Simulation state of the documented example after 6150 rounds. -/
def day11S123 : List Monkey :=
  exampleState [32073, 29423, 1196, 31979]
    [[29877, 37211, 90430, 4417, 28775, 21004],
     [54001, 8990, 66199, 79784],
     [],
     []]

/-- Simulation state of the documented example after 6200 rounds. -/
def day11S124 : List Monkey :=
  exampleState [32334, 29662, 1205, 32240]
    [[3391, 79182, 32138, 48611, 23816, 34152, 49618],
     [72507, 4753, 21834],
     [],
     []]

/-- Simulation state of the documented example after 6250 rounds. -/
def day11S125 : List Monkey :=
  exampleState [32598, 29898, 1215, 32502]
    [[78422, 48934, 41866, 28775, 61056],
     [79176, 43057, 39713, 16134, 52652],
     [],
     []]

/-- Simulation state of the documented example after 6300 rounds. -/
def day11S126 : List Monkey :=
  exampleState [32856, 30140, 1225, 32760]
    [[84464, 48611, 11618, 54216, 82868, 72988],
     [54951, 48928, 19269, 92248],
     [],
     []]

/-- Simulation state of the documented example after 6350 rounds. -/
def day11S127 : List Monkey :=
  exampleState [33119, 30377, 1234, 33023]
    [[68314, 88055, 42449],
     [9522, 63558, 2416, 11612, 16134, 5361, 61240],
     [],
     []]

/-- Simulation state of the documented example after 6400 rounds. -/
def day11S128 : List Monkey :=
  exampleState [33382, 30614, 1241, 33286]
    [[60714, 27654, 25697, 82868, 31986, 13379],
     [54742, 94091, 19877, 21150],
     [],
     []]

/-- Simulation state of the documented example after 6450 rounds. -/
def day11S129 : List Monkey :=
  exampleState [33641, 30855, 1252, 33544]
    [[49485, 73235, 95446, 77358, 82178],
     [63558, 53716, 79081, 66693, 44121],
     [],
     []]

/-- Simulation state of the documented example after 6500 rounds. -/
def day11S130 : List Monkey :=
  exampleState [33897, 31099, 1262, 33799]
    [[18990, 12758, 70404, 26362, 12777],
     [54742, 58029, 20827, 4544, 75585],
     [],
     []]

/-- Simulation state of the documented example after 6550 rounds. -/
def day11S131 : List Monkey :=
  exampleState [34159, 31337, 1272, 34058]
    [[47319, 83286, 47794, 69435, 24424],
     [3905125081, 79081, 10567, 26356, 82368],
     [],
     []]

/-- Simulation state of the documented example after 6600 rounds. -/
def day11S132 : List Monkey :=
  exampleState [34422, 31574, 1283, 34321]
    [[20510, 83932, 63849, 6336, 12777],
     [60366, 74350, 83280, 67358, 2264],
     [],
     []]

/-- Simulation state of the documented example after 6650 rounds. -/
def day11S133 : List Monkey :=
  exampleState [34683, 31813, 1292, 34582]
    [[31169, 54425, 69435, 73558],
     [25672, 20504, 34659, 90424, 28655, 93578],
     [],
     []]

/-- Simulation state of the documented example after 6700 rounds. -/
def day11S134 : List Monkey :=
  exampleState [34946, 32050, 1302, 34843]
    [[41372, 22847, 63849, 55755, 1149, 16932],
     [88980, 45584, 21340, 34735],
     [],
     []]

/-- Simulation state of the documented example after 6750 rounds. -/
def day11S135 : List Monkey :=
  exampleState [35205, 32291, 1312, 35102]
    [[59593, 54425, 64343, 29269, 72285],
     [78416, 56034, 61601, 14443, 79784],
     [],
     []]

/-- Simulation state of the documented example after 6800 rounds. -/
def day11S136 : List Monkey :=
  exampleState [35465, 32531, 1321, 35362]
    [[42474, 53779, 31245, 64191, 62348, 33924, 16932],
     [84458, 48795, 4753],
     [],
     []]

/-- Simulation state of the documented example after 6850 rounds. -/
def day11S137 : List Monkey :=
  exampleState [35730, 32766, 1327, 35627]
    [[75325, 42550, 29269, 28281, 61056],
     [74445, 49460, 64185, 88049, 53146],
     [],
     []]

/-- Simulation state of the documented example after 6900 rounds. -/
def day11S138 : List Monkey :=
  exampleState [35988, 33008, 1338, 35884]
    [[77244, 71031, 39396, 95199, 75097, 53627],
     [48795, 54951, 54001, 11783],
     [],
     []]

/-- Simulation state of the documented example after 6950 rounds. -/
def day11S139 : List Monkey :=
  exampleState [36246, 33250, 1348, 36141]
    [[83818, 49257, 49618],
     [74445, 40321, 9522, 77238, 86453, 92875, 84154],
     [],
     []]

/-- Simulation state of the documented example after 7000 rounds. -/
def day11S140 : List Monkey :=
  exampleState [36508, 33488, 1360, 36400]
    [[77757, 86744, 76484, 68289],
     [83812, 54001, 60290, 7736, 19877, 52652],
     [],
     []]

/-- Simulation state of the documented example after 7050 rounds. -/
def day11S141 : List Monkey :=
  exampleState [36771, 33725, 1370, 36663]
    [[49485, 54216, 49618],
     [36654, 84724, 60689, 93312, 24418, 86738, 43133],
     [],
     []]

/-- Simulation state of the documented example after 7100 rounds. -/
def day11S142 : List Monkey :=
  exampleState [37031, 33965, 1379, 36923]
    [[12758, 68314, 4911, 45533, 13100, 76364],
     [5000, 4677, 61677, 52652],
     [],
     []]

/-- Simulation state of the documented example after 7150 rounds. -/
def day11S143 : List Monkey :=
  exampleState [37293, 34203, 1389, 37183]
    [[13461, 5329, 47794, 54216, 21840, 31986, 54634],
     [93597, 80620, 69315],
     [],
     []]

/-- Simulation state of the documented example after 7200 rounds. -/
def day11S144 : List Monkey :=
  exampleState [37552, 34444, 1399, 37442]
    [[68314, 63602, 73235, 7913, 95142, 78669, 94775],
     [41366, 81380, 67358],
     [],
     []]

/-- Simulation state of the documented example after 7250 rounds. -/
def day11S145 : List Monkey :=
  exampleState [37813, 34683, 1407, 37703]
    [[70043, 34399, 91399, 14202, 65103, 31986],
     [59587, 58029, 90424, 38953],
     [],
     []]

/-- Simulation state of the documented example after 7300 rounds. -/
def day11S146 : List Monkey :=
  exampleState [38077, 34919, 1416, 37966]
    [[73235, 54463, 1149, 60923, 84350, 28237],
     [3905125081, 70037, 70664, 31239],
     [],
     []]

/-- Simulation state of the documented example after 7350 rounds. -/
def day11S147 : List Monkey :=
  exampleState [38338, 35158, 1425, 38227]
    [[94097, 74774],
     [58029, 78416, 9142, 60366, 30840, 60917, 25197, 45546],
     [],
     []]

/-- Simulation state of the documented example after 7400 rounds. -/
def day11S148 : List Monkey :=
  exampleState [38594, 35402, 1436, 38481]
    [[66699, 73558, 2397],
     [3905125081, 90177, 84458, 65401, 94661, 915, 53811],
     [],
     []]

/-- Simulation state of the documented example after 7450 rounds. -/
def day11S149 : List Monkey :=
  exampleState [38856, 35640, 1447, 38741]
    [[55812, 28737, 4550, 41999, 50524],
     [88334, 60366, 88049, 34735, 45223],
     [],
     []]

/-- Simulation state of the documented example after 7500 rounds. -/
def day11S150 : List Monkey :=
  exampleState [39117, 35879, 1457, 39002]
    [[60562, 71031, 64343, 76503, 73558, 41353],
     [64641, 90861, 77751, 47028],
     [],
     []]

/-- Simulation state of the documented example after 7550 rounds. -/
def day11S151 : List Monkey :=
  exampleState [39380, 36116, 1465, 39265]
    [[49257, 42474, 46027, 5405, 2270, 13056],
     [95117, 34735, 19383, 41347],
     [],
     []]

/-- Simulation state of the documented example after 7600 rounds. -/
def day11S152 : List Monkey :=
  exampleState [39641, 36355, 1476, 39524]
    [[62614, 64343, 28661, 15665, 28281, 91418, 76484],
     [40074, 5399, 83242],
     [],
     []]

/-- Simulation state of the documented example after 7650 rounds. -/
def day11S153 : List Monkey :=
  exampleState [39900, 36596, 1486, 39783]
    [[42474, 49523, 39396, 65806, 46065, 1105],
     [13455, 24418, 15659, 17293],
     [],
     []]

/-- Simulation state of the documented example after 7700 rounds. -/
def day11S154 : List Monkey :=
  exampleState [40162, 36834, 1495, 40045]
    [[74128, 78042, 28281, 16159, 76364],
     [40321, 95174, 52310, 8401, 78663],
     [],
     []]

/-- Simulation state of the documented example after 7750 rounds. -/
def day11S155 : List Monkey :=
  exampleState [40425, 37071, 1503, 40307]
    [[39396, 18002, 69036, 21840, 57427, 68289],
     [30973, 87232, 14196, 48947],
     [],
     []]

/-- Simulation state of the documented example after 7800 rounds. -/
def day11S156 : List Monkey :=
  exampleState [40685, 37311, 1511, 40567]
    [[37211, 49466, 68637],
     [40321, 41366, 64432, 84724, 6615, 66199, 92552],
     [],
     []]

/-- Simulation state of the documented example after 7850 rounds. -/
def day11S157 : List Monkey :=
  exampleState [40940, 37556, 1524, 40820]
    [[3391, 11789, 79182, 39719, 45533, 68289],
     [59587, 17502, 56756, 47636],
     [],
     []]

/-- Simulation state of the documented example after 7900 rounds. -/
def day11S158 : List Monkey :=
  exampleState [41204, 37792, 1534, 41082]
    [[48934, 19275, 86459, 25374, 90772],
     [84724, 39713, 31239, 80620, 40378],
     [],
     []]

/-- Simulation state of the documented example after 7950 rounds. -/
def day11S159 : List Monkey :=
  exampleState [41465, 38031, 1544, 41343]
    [[94097, 2422, 63602, 45533, 11618],
     [69372, 84667, 28731, 24456, 19269],
     [],
     []]

/-- Simulation state of the documented example after 8000 rounds. -/
def day11S160 : List Monkey :=
  exampleState [41728, 38268, 1553, 41606]
    [[66699, 34399, 43139, 54919, 91222],
     [68954, 2416, 5361, 80620, 93521],
     [],
     []]

/-- Simulation state of the documented example after 8050 rounds. -/
def day11S161 : List Monkey :=
  exampleState [41988, 38508, 1563, 41864]
    [[30751, 63602, 61683, 60714, 44127, 54463, 4550],
     [85484, 36483, 21150],
     [],
     []]

/-- Simulation state of the documented example after 8100 rounds. -/
def day11S162 : List Monkey :=
  exampleState [42249, 38747, 1572, 42125]
    [[34399, 71753, 6051, 21004, 82178],
     [62608, 71082, 77751, 44121, 25197],
     [],
     []]

/-- Simulation state of the documented example after 8150 rounds. -/
def day11S163 : List Monkey :=
  exampleState [42509, 38987, 1581, 42385]
    [[18990, 56363, 34152, 26362, 54463, 2270],
     [29871, 90177, 63159, 46059],
     [],
     []]

/-- Simulation state of the documented example after 8200 rounds. -/
def day11S164 : List Monkey :=
  exampleState [42773, 39223, 1589, 42648]
    [[47319, 83286, 56192, 28661, 28775, 41999, 76687],
     [15716, 23810, 25197],
     [],
     []]

/-- Simulation state of the documented example after 8250 rounds. -/
def day11S165 : List Monkey :=
  exampleState [43032, 39464, 1598, 42907]
    [[20510, 70670, 34665, 48611, 6336],
     [90177, 13455, 64641, 29225, 20219],
     [],
     []]

/-- Simulation state of the documented example after 8300 rounds. -/
def day11S166 : List Monkey :=
  exampleState [43290, 39706, 1612, 43163]
    [[30846, 88986, 41999],
     [34659, 42924, 16134, 93578, 36008, 19383, 78663],
     [],
     []]

/-- Simulation state of the documented example after 8350 rounds. -/
def day11S167 : List Monkey :=
  exampleState [43552, 39944, 1621, 43423]
    [[61607, 921, 95807, 82868],
     [64641, 88980, 14196, 83242, 21340, 91260],
     [],
     []]

/-- Simulation state of the documented example after 8400 rounds. -/
def day11S168 : List Monkey :=
  exampleState [43815, 40181, 1630, 43686]
    [[49466, 49523, 63121],
     [62684, 63558, 56034, 78473, 61601, 25691, 19383],
     [],
     []]

/-- Simulation state of the documented example after 8450 rounds. -/
def day11S169 : List Monkey :=
  exampleState [44075, 40421, 1640, 43946]
    [[11789, 74128, 64191, 47034, 77700, 62348],
     [54742, 83242, 38630, 77352],
     [],
     []]

/-- Simulation state of the documented example after 8500 rounds. -/
def day11S170 : List Monkey :=
  exampleState [44337, 40659, 1650, 44206]
    [[75325, 49523, 69036, 86459, 25355, 17255],
     [79081, 70398, 53146, 54913],
     [],
     []]

/-- Simulation state of the documented example after 8550 rounds. -/
def day11S171 : List Monkey :=
  exampleState [44595, 40901, 1659, 44464]
    [[77244, 74128, 11238, 18401, 95199, 92881, 12777],
     [30745, 28731, 92552],
     [],
     []]

/-- Simulation state of the documented example after 8600 rounds. -/
def day11S172 : List Monkey :=
  exampleState [44857, 41139, 1669, 44726]
    [[83818, 8559, 60296, 69435, 69036, 43139],
     [41214, 6045, 92875, 47636],
     [],
     []]

/-- Simulation state of the documented example after 8650 rounds. -/
def day11S173 : List Monkey :=
  exampleState [45122, 41374, 1676, 44990]
    [[36660, 61683, 63849, 25374, 86744, 8407],
     [8990, 60290, 92552, 4202],
     [],
     []]

/-- Simulation state of the documented example after 8700 rounds. -/
def day11S174 : List Monkey :=
  exampleState [45381, 41615, 1686, 45249]
    [[87238, 54425],
     [62608, 69372, 72507, 36654, 93312, 94547, 55749, 47636],
     [],
     []]

/-- Simulation state of the documented example after 8750 rounds. -/
def day11S175 : List Monkey :=
  exampleState [45638, 41858, 1700, 45504]
    [[6621, 25374, 13100, 16932],
     [4677, 43057, 8230, 46059, 72279, 93521],
     [],
     []]

/-- Simulation state of the documented example after 8800 rounds. -/
def day11S176 : List Monkey :=
  exampleState [45900, 42096, 1708, 45764]
    [[17508, 81956, 29269, 54634, 76687],
     [69372, 36483, 53773, 69315, 92248],
     [],
     []]

/-- Simulation state of the documented example after 8850 rounds. -/
def day11S177 : List Monkey :=
  exampleState [46161, 42335, 1718, 46025]
    [[70670, 71753, 7913, 38959, 40384, 94775, 42449],
     [32189, 48795, 93521],
     [],
     []]

/-- Simulation state of the documented example after 8900 rounds. -/
def day11S178 : List Monkey :=
  exampleState [46423, 42573, 1726, 46287]
    [[70043, 30846, 56363, 24462, 27654],
     [74445, 36483, 38953, 58048, 53621],
     [],
     []]

/-- Simulation state of the documented example after 8950 rounds. -/
def day11S179 : List Monkey :=
  exampleState [46684, 42812, 1737, 46546]
    [[9148, 71753, 56192, 921, 60923, 95446, 38123, 28237],
     [54001, 77694],
     [],
     []]

/-- Simulation state of the documented example after 9000 rounds. -/
def day11S180 : List Monkey :=
  exampleState [46945, 43051, 1746, 46807]
    [[65407, 56363, 20377, 49618, 63121],
     [9142, 20219, 45546, 75585, 25349],
     [],
     []]

/-- Simulation state of the documented example after 9050 rounds. -/
def day11S181 : List Monkey :=
  exampleState [47206, 43290, 1756, 47068]
    [[66053, 56192, 47034, 45229],
     [65401, 94661, 10567, 18395, 36008, 52652],
     [],
     []]

/-- Simulation state of the documented example after 9100 rounds. -/
def day11S182 : List Monkey :=
  exampleState [47472, 43524, 1763, 47333]
    [[54216, 95807, 63165],
     [88334, 74350, 4905, 20219, 79955, 54913, 45223],
     [],
     []]

/-- Simulation state of the documented example after 9150 rounds. -/
def day11S183 : List Monkey :=
  exampleState [47728, 43768, 1774, 47589]
    [[15722, 68314, 76503, 41353],
     [30745, 62684, 25672, 5323, 36008, 76915],
     [],
     []]

/-- Simulation state of the documented example after 9200 rounds. -/
def day11S184 : List Monkey :=
  exampleState [47985, 44011, 1786, 47844]
    [[29231, 46027, 5405, 95807, 31986],
     [45584, 59910, 6045, 95136, 38630],
     [],
     []]

/-- Simulation state of the documented example after 9250 rounds. -/
def day11S185 : List Monkey :=
  exampleState [48247, 44249, 1794, 48104]
    [[42930, 11941, 73235, 15665, 8407, 91418, 17255],
     [62684, 91393, 14443],
     [],
     []]

/-- Simulation state of the documented example after 9300 rounds. -/
def day11S186 : List Monkey :=
  exampleState [48509, 44487, 1804, 48366]
    [[95180, 87238, 11238, 65806, 91266, 33924],
     [32246, 58029, 17293, 38630],
     [],
     []]

/-- Simulation state of the documented example after 9350 rounds. -/
def day11S187 : List Monkey :=
  exampleState [48770, 44726, 1814, 48626]
    [[6621, 8559, 78479, 42550, 48953, 17255],
     [3905125081, 95174, 52310, 40682],
     [],
     []]

/-- Simulation state of the documented example after 9400 rounds. -/
def day11S188 : List Monkey :=
  exampleState [49033, 44963, 1824, 48888]
    [[11238, 66205, 17508, 75097, 48307],
     [30973, 60366, 27648, 4202, 48947],
     [],
     []]

/-- Simulation state of the documented example after 9450 rounds. -/
def day11S189 : List Monkey :=
  exampleState [49293, 45203, 1833, 49148]
    [[8559, 864, 73558, 40384],
     [64432, 55806, 66199, 94547, 84154, 95440],
     [],
     []]

/-- Simulation state of the documented example after 9500 rounds. -/
def day11S190 : List Monkey :=
  exampleState [49554, 45442, 1843, 49409]
    [[96092, 79182, 39719, 24462, 59891],
     [60556, 7736, 8230, 34735, 4202],
     [],
     []]

/-- Simulation state of the documented example after 9550 rounds. -/
def day11S191 : List Monkey :=
  exampleState [49818, 45678, 1850, 49672]
    [[48934, 64343, 81956, 19275, 41220, 27591],
     [60689, 94547, 70607, 77694],
     [],
     []]

/-- Simulation state of the documented example after 9600 rounds. -/
def day11S192 : List Monkey :=
  exampleState [50075, 45921, 1861, 49929]
    [[8996, 42474, 2422, 11618, 5367],
     [32189, 5000, 8230, 12847, 25349],
     [],
     []]

/-- Simulation state of the documented example after 9650 rounds. -/
def day11S193 : List Monkey :=
  exampleState [50333, 46163, 1873, 50185]
    [[72513, 81956, 28281, 21156, 91222],
     [93597, 76060, 18395, 5361, 58048],
     [],
     []]

/-- Simulation state of the documented example after 9700 rounds. -/
def day11S194 : List Monkey :=
  exampleState [50596, 46400, 1881, 50446]
    [[43063, 39396, 44127, 63165, 38123],
     [32189, 81380, 21150, 61373, 16153],
     [],
     []]

/-- Simulation state of the documented example after 9750 rounds. -/
def day11S195 : List Monkey :=
  exampleState [50857, 46639, 1891, 50707]
    [[15722, 20377, 92254, 65103, 82178],
     [33329, 40321, 71082, 17996, 58048],
     [],
     []]

/-- Simulation state of the documented example after 9800 rounds. -/
def day11S196 : List Monkey :=
  exampleState [51119, 46877, 1901, 50968]
    [[29231, 66053, 26362, 38123, 84350, 68289, 459],
     [29871, 37205, 33918],
     [],
     []]

/-- Simulation state of the documented example after 9850 rounds. -/
def day11S197 : List Monkey :=
  exampleState [51381, 47115, 1910, 51229]
    [[83286, 20377, 42930, 74774, 48649],
     [3385, 84724, 42544, 23810, 79955],
     [],
     []]

/-- Simulation state of the documented example after 9900 rounds. -/
def day11S198 : List Monkey :=
  exampleState [51639, 47357, 1921, 51487]
    [[20510, 66053, 16425, 34665, 45533, 93584, 91266],
     [53811, 75091, 76915],
     [],
     []]

/-- Simulation state of the documented example after 9950 rounds. -/
def day11S199 : List Monkey :=
  exampleState [51902, 47594, 1930, 51750]
    [[87371, 88986, 78479, 21346, 75591, 50524],
     [93578, 59910, 80620, 79955],
     [],
     []]

/-- Simulation state of the documented example after 10000 rounds. -/
def day11S200 : List Monkey :=
  exampleState [52166, 47830, 1938, 52013]
    [[63602, 56040, 11941, 10573, 61607],
     [90861, 86149, 27648, 21340, 76915],
     [],
     []]

/-- The 10000-round run of challenge 2 is checked in 50-round stages;
each stage is evaluated by kernel reduction. -/
theorem day11_chunk_1 : runIters 96577 1 50 day11Example = some day11S1 := by decide!
theorem day11_chunk_2 : runIters 96577 1 50 day11S1 = some day11S2 := by decide!
theorem day11_chunk_3 : runIters 96577 1 50 day11S2 = some day11S3 := by decide!
theorem day11_chunk_4 : runIters 96577 1 50 day11S3 = some day11S4 := by decide!
theorem day11_chunk_5 : runIters 96577 1 50 day11S4 = some day11S5 := by decide!
theorem day11_chunk_6 : runIters 96577 1 50 day11S5 = some day11S6 := by decide!
theorem day11_chunk_7 : runIters 96577 1 50 day11S6 = some day11S7 := by decide!
theorem day11_chunk_8 : runIters 96577 1 50 day11S7 = some day11S8 := by decide!
theorem day11_chunk_9 : runIters 96577 1 50 day11S8 = some day11S9 := by decide!
theorem day11_chunk_10 : runIters 96577 1 50 day11S9 = some day11S10 := by decide!
theorem day11_chunk_11 : runIters 96577 1 50 day11S10 = some day11S11 := by decide!
theorem day11_chunk_12 : runIters 96577 1 50 day11S11 = some day11S12 := by decide!
theorem day11_chunk_13 : runIters 96577 1 50 day11S12 = some day11S13 := by decide!
theorem day11_chunk_14 : runIters 96577 1 50 day11S13 = some day11S14 := by decide!
theorem day11_chunk_15 : runIters 96577 1 50 day11S14 = some day11S15 := by decide!
theorem day11_chunk_16 : runIters 96577 1 50 day11S15 = some day11S16 := by decide!
theorem day11_chunk_17 : runIters 96577 1 50 day11S16 = some day11S17 := by decide!
theorem day11_chunk_18 : runIters 96577 1 50 day11S17 = some day11S18 := by decide!
theorem day11_chunk_19 : runIters 96577 1 50 day11S18 = some day11S19 := by decide!
theorem day11_chunk_20 : runIters 96577 1 50 day11S19 = some day11S20 := by decide!
theorem day11_chunk_21 : runIters 96577 1 50 day11S20 = some day11S21 := by decide!
theorem day11_chunk_22 : runIters 96577 1 50 day11S21 = some day11S22 := by decide!
theorem day11_chunk_23 : runIters 96577 1 50 day11S22 = some day11S23 := by decide!
theorem day11_chunk_24 : runIters 96577 1 50 day11S23 = some day11S24 := by decide!
theorem day11_chunk_25 : runIters 96577 1 50 day11S24 = some day11S25 := by decide!
theorem day11_chunk_26 : runIters 96577 1 50 day11S25 = some day11S26 := by decide!
theorem day11_chunk_27 : runIters 96577 1 50 day11S26 = some day11S27 := by decide!
theorem day11_chunk_28 : runIters 96577 1 50 day11S27 = some day11S28 := by decide!
theorem day11_chunk_29 : runIters 96577 1 50 day11S28 = some day11S29 := by decide!
theorem day11_chunk_30 : runIters 96577 1 50 day11S29 = some day11S30 := by decide!
theorem day11_chunk_31 : runIters 96577 1 50 day11S30 = some day11S31 := by decide!
theorem day11_chunk_32 : runIters 96577 1 50 day11S31 = some day11S32 := by decide!
theorem day11_chunk_33 : runIters 96577 1 50 day11S32 = some day11S33 := by decide!
theorem day11_chunk_34 : runIters 96577 1 50 day11S33 = some day11S34 := by decide!
theorem day11_chunk_35 : runIters 96577 1 50 day11S34 = some day11S35 := by decide!
theorem day11_chunk_36 : runIters 96577 1 50 day11S35 = some day11S36 := by decide!
theorem day11_chunk_37 : runIters 96577 1 50 day11S36 = some day11S37 := by decide!
theorem day11_chunk_38 : runIters 96577 1 50 day11S37 = some day11S38 := by decide!
theorem day11_chunk_39 : runIters 96577 1 50 day11S38 = some day11S39 := by decide!
theorem day11_chunk_40 : runIters 96577 1 50 day11S39 = some day11S40 := by decide!
theorem day11_chunk_41 : runIters 96577 1 50 day11S40 = some day11S41 := by decide!
theorem day11_chunk_42 : runIters 96577 1 50 day11S41 = some day11S42 := by decide!
theorem day11_chunk_43 : runIters 96577 1 50 day11S42 = some day11S43 := by decide!
theorem day11_chunk_44 : runIters 96577 1 50 day11S43 = some day11S44 := by decide!
theorem day11_chunk_45 : runIters 96577 1 50 day11S44 = some day11S45 := by decide!
theorem day11_chunk_46 : runIters 96577 1 50 day11S45 = some day11S46 := by decide!
theorem day11_chunk_47 : runIters 96577 1 50 day11S46 = some day11S47 := by decide!
theorem day11_chunk_48 : runIters 96577 1 50 day11S47 = some day11S48 := by decide!
theorem day11_chunk_49 : runIters 96577 1 50 day11S48 = some day11S49 := by decide!
theorem day11_chunk_50 : runIters 96577 1 50 day11S49 = some day11S50 := by decide!
theorem day11_chunk_51 : runIters 96577 1 50 day11S50 = some day11S51 := by decide!
theorem day11_chunk_52 : runIters 96577 1 50 day11S51 = some day11S52 := by decide!
theorem day11_chunk_53 : runIters 96577 1 50 day11S52 = some day11S53 := by decide!
theorem day11_chunk_54 : runIters 96577 1 50 day11S53 = some day11S54 := by decide!
theorem day11_chunk_55 : runIters 96577 1 50 day11S54 = some day11S55 := by decide!
theorem day11_chunk_56 : runIters 96577 1 50 day11S55 = some day11S56 := by decide!
theorem day11_chunk_57 : runIters 96577 1 50 day11S56 = some day11S57 := by decide!
theorem day11_chunk_58 : runIters 96577 1 50 day11S57 = some day11S58 := by decide!
theorem day11_chunk_59 : runIters 96577 1 50 day11S58 = some day11S59 := by decide!
theorem day11_chunk_60 : runIters 96577 1 50 day11S59 = some day11S60 := by decide!
theorem day11_chunk_61 : runIters 96577 1 50 day11S60 = some day11S61 := by decide!
theorem day11_chunk_62 : runIters 96577 1 50 day11S61 = some day11S62 := by decide!
theorem day11_chunk_63 : runIters 96577 1 50 day11S62 = some day11S63 := by decide!
theorem day11_chunk_64 : runIters 96577 1 50 day11S63 = some day11S64 := by decide!
theorem day11_chunk_65 : runIters 96577 1 50 day11S64 = some day11S65 := by decide!
theorem day11_chunk_66 : runIters 96577 1 50 day11S65 = some day11S66 := by decide!
theorem day11_chunk_67 : runIters 96577 1 50 day11S66 = some day11S67 := by decide!
theorem day11_chunk_68 : runIters 96577 1 50 day11S67 = some day11S68 := by decide!
theorem day11_chunk_69 : runIters 96577 1 50 day11S68 = some day11S69 := by decide!
theorem day11_chunk_70 : runIters 96577 1 50 day11S69 = some day11S70 := by decide!
theorem day11_chunk_71 : runIters 96577 1 50 day11S70 = some day11S71 := by decide!
theorem day11_chunk_72 : runIters 96577 1 50 day11S71 = some day11S72 := by decide!
theorem day11_chunk_73 : runIters 96577 1 50 day11S72 = some day11S73 := by decide!
theorem day11_chunk_74 : runIters 96577 1 50 day11S73 = some day11S74 := by decide!
theorem day11_chunk_75 : runIters 96577 1 50 day11S74 = some day11S75 := by decide!
theorem day11_chunk_76 : runIters 96577 1 50 day11S75 = some day11S76 := by decide!
theorem day11_chunk_77 : runIters 96577 1 50 day11S76 = some day11S77 := by decide!
theorem day11_chunk_78 : runIters 96577 1 50 day11S77 = some day11S78 := by decide!
theorem day11_chunk_79 : runIters 96577 1 50 day11S78 = some day11S79 := by decide!
theorem day11_chunk_80 : runIters 96577 1 50 day11S79 = some day11S80 := by decide!
theorem day11_chunk_81 : runIters 96577 1 50 day11S80 = some day11S81 := by decide!
theorem day11_chunk_82 : runIters 96577 1 50 day11S81 = some day11S82 := by decide!
theorem day11_chunk_83 : runIters 96577 1 50 day11S82 = some day11S83 := by decide!
theorem day11_chunk_84 : runIters 96577 1 50 day11S83 = some day11S84 := by decide!
theorem day11_chunk_85 : runIters 96577 1 50 day11S84 = some day11S85 := by decide!
theorem day11_chunk_86 : runIters 96577 1 50 day11S85 = some day11S86 := by decide!
theorem day11_chunk_87 : runIters 96577 1 50 day11S86 = some day11S87 := by decide!
theorem day11_chunk_88 : runIters 96577 1 50 day11S87 = some day11S88 := by decide!
theorem day11_chunk_89 : runIters 96577 1 50 day11S88 = some day11S89 := by decide!
theorem day11_chunk_90 : runIters 96577 1 50 day11S89 = some day11S90 := by decide!
theorem day11_chunk_91 : runIters 96577 1 50 day11S90 = some day11S91 := by decide!
theorem day11_chunk_92 : runIters 96577 1 50 day11S91 = some day11S92 := by decide!
theorem day11_chunk_93 : runIters 96577 1 50 day11S92 = some day11S93 := by decide!
theorem day11_chunk_94 : runIters 96577 1 50 day11S93 = some day11S94 := by decide!
theorem day11_chunk_95 : runIters 96577 1 50 day11S94 = some day11S95 := by decide!
theorem day11_chunk_96 : runIters 96577 1 50 day11S95 = some day11S96 := by decide!
theorem day11_chunk_97 : runIters 96577 1 50 day11S96 = some day11S97 := by decide!
theorem day11_chunk_98 : runIters 96577 1 50 day11S97 = some day11S98 := by decide!
theorem day11_chunk_99 : runIters 96577 1 50 day11S98 = some day11S99 := by decide!
theorem day11_chunk_100 : runIters 96577 1 50 day11S99 = some day11S100 := by decide!
theorem day11_chunk_101 : runIters 96577 1 50 day11S100 = some day11S101 := by decide!
theorem day11_chunk_102 : runIters 96577 1 50 day11S101 = some day11S102 := by decide!
theorem day11_chunk_103 : runIters 96577 1 50 day11S102 = some day11S103 := by decide!
theorem day11_chunk_104 : runIters 96577 1 50 day11S103 = some day11S104 := by decide!
theorem day11_chunk_105 : runIters 96577 1 50 day11S104 = some day11S105 := by decide!
theorem day11_chunk_106 : runIters 96577 1 50 day11S105 = some day11S106 := by decide!
theorem day11_chunk_107 : runIters 96577 1 50 day11S106 = some day11S107 := by decide!
theorem day11_chunk_108 : runIters 96577 1 50 day11S107 = some day11S108 := by decide!
theorem day11_chunk_109 : runIters 96577 1 50 day11S108 = some day11S109 := by decide!
theorem day11_chunk_110 : runIters 96577 1 50 day11S109 = some day11S110 := by decide!
theorem day11_chunk_111 : runIters 96577 1 50 day11S110 = some day11S111 := by decide!
theorem day11_chunk_112 : runIters 96577 1 50 day11S111 = some day11S112 := by decide!
theorem day11_chunk_113 : runIters 96577 1 50 day11S112 = some day11S113 := by decide!
theorem day11_chunk_114 : runIters 96577 1 50 day11S113 = some day11S114 := by decide!
theorem day11_chunk_115 : runIters 96577 1 50 day11S114 = some day11S115 := by decide!
theorem day11_chunk_116 : runIters 96577 1 50 day11S115 = some day11S116 := by decide!
theorem day11_chunk_117 : runIters 96577 1 50 day11S116 = some day11S117 := by decide!
theorem day11_chunk_118 : runIters 96577 1 50 day11S117 = some day11S118 := by decide!
theorem day11_chunk_119 : runIters 96577 1 50 day11S118 = some day11S119 := by decide!
theorem day11_chunk_120 : runIters 96577 1 50 day11S119 = some day11S120 := by decide!
theorem day11_chunk_121 : runIters 96577 1 50 day11S120 = some day11S121 := by decide!
theorem day11_chunk_122 : runIters 96577 1 50 day11S121 = some day11S122 := by decide!
theorem day11_chunk_123 : runIters 96577 1 50 day11S122 = some day11S123 := by decide!
theorem day11_chunk_124 : runIters 96577 1 50 day11S123 = some day11S124 := by decide!
theorem day11_chunk_125 : runIters 96577 1 50 day11S124 = some day11S125 := by decide!
theorem day11_chunk_126 : runIters 96577 1 50 day11S125 = some day11S126 := by decide!
theorem day11_chunk_127 : runIters 96577 1 50 day11S126 = some day11S127 := by decide!
theorem day11_chunk_128 : runIters 96577 1 50 day11S127 = some day11S128 := by decide!
theorem day11_chunk_129 : runIters 96577 1 50 day11S128 = some day11S129 := by decide!
theorem day11_chunk_130 : runIters 96577 1 50 day11S129 = some day11S130 := by decide!
theorem day11_chunk_131 : runIters 96577 1 50 day11S130 = some day11S131 := by decide!
theorem day11_chunk_132 : runIters 96577 1 50 day11S131 = some day11S132 := by decide!
theorem day11_chunk_133 : runIters 96577 1 50 day11S132 = some day11S133 := by decide!
theorem day11_chunk_134 : runIters 96577 1 50 day11S133 = some day11S134 := by decide!
theorem day11_chunk_135 : runIters 96577 1 50 day11S134 = some day11S135 := by decide!
theorem day11_chunk_136 : runIters 96577 1 50 day11S135 = some day11S136 := by decide!
theorem day11_chunk_137 : runIters 96577 1 50 day11S136 = some day11S137 := by decide!
theorem day11_chunk_138 : runIters 96577 1 50 day11S137 = some day11S138 := by decide!
theorem day11_chunk_139 : runIters 96577 1 50 day11S138 = some day11S139 := by decide!
theorem day11_chunk_140 : runIters 96577 1 50 day11S139 = some day11S140 := by decide!
theorem day11_chunk_141 : runIters 96577 1 50 day11S140 = some day11S141 := by decide!
theorem day11_chunk_142 : runIters 96577 1 50 day11S141 = some day11S142 := by decide!
theorem day11_chunk_143 : runIters 96577 1 50 day11S142 = some day11S143 := by decide!
theorem day11_chunk_144 : runIters 96577 1 50 day11S143 = some day11S144 := by decide!
theorem day11_chunk_145 : runIters 96577 1 50 day11S144 = some day11S145 := by decide!
theorem day11_chunk_146 : runIters 96577 1 50 day11S145 = some day11S146 := by decide!
theorem day11_chunk_147 : runIters 96577 1 50 day11S146 = some day11S147 := by decide!
theorem day11_chunk_148 : runIters 96577 1 50 day11S147 = some day11S148 := by decide!
theorem day11_chunk_149 : runIters 96577 1 50 day11S148 = some day11S149 := by decide!
theorem day11_chunk_150 : runIters 96577 1 50 day11S149 = some day11S150 := by decide!
theorem day11_chunk_151 : runIters 96577 1 50 day11S150 = some day11S151 := by decide!
theorem day11_chunk_152 : runIters 96577 1 50 day11S151 = some day11S152 := by decide!
theorem day11_chunk_153 : runIters 96577 1 50 day11S152 = some day11S153 := by decide!
theorem day11_chunk_154 : runIters 96577 1 50 day11S153 = some day11S154 := by decide!
theorem day11_chunk_155 : runIters 96577 1 50 day11S154 = some day11S155 := by decide!
theorem day11_chunk_156 : runIters 96577 1 50 day11S155 = some day11S156 := by decide!
theorem day11_chunk_157 : runIters 96577 1 50 day11S156 = some day11S157 := by decide!
theorem day11_chunk_158 : runIters 96577 1 50 day11S157 = some day11S158 := by decide!
theorem day11_chunk_159 : runIters 96577 1 50 day11S158 = some day11S159 := by decide!
theorem day11_chunk_160 : runIters 96577 1 50 day11S159 = some day11S160 := by decide!
theorem day11_chunk_161 : runIters 96577 1 50 day11S160 = some day11S161 := by decide!
theorem day11_chunk_162 : runIters 96577 1 50 day11S161 = some day11S162 := by decide!
theorem day11_chunk_163 : runIters 96577 1 50 day11S162 = some day11S163 := by decide!
theorem day11_chunk_164 : runIters 96577 1 50 day11S163 = some day11S164 := by decide!
theorem day11_chunk_165 : runIters 96577 1 50 day11S164 = some day11S165 := by decide!
theorem day11_chunk_166 : runIters 96577 1 50 day11S165 = some day11S166 := by decide!
theorem day11_chunk_167 : runIters 96577 1 50 day11S166 = some day11S167 := by decide!
theorem day11_chunk_168 : runIters 96577 1 50 day11S167 = some day11S168 := by decide!
theorem day11_chunk_169 : runIters 96577 1 50 day11S168 = some day11S169 := by decide!
theorem day11_chunk_170 : runIters 96577 1 50 day11S169 = some day11S170 := by decide!
theorem day11_chunk_171 : runIters 96577 1 50 day11S170 = some day11S171 := by decide!
theorem day11_chunk_172 : runIters 96577 1 50 day11S171 = some day11S172 := by decide!
theorem day11_chunk_173 : runIters 96577 1 50 day11S172 = some day11S173 := by decide!
theorem day11_chunk_174 : runIters 96577 1 50 day11S173 = some day11S174 := by decide!
theorem day11_chunk_175 : runIters 96577 1 50 day11S174 = some day11S175 := by decide!
theorem day11_chunk_176 : runIters 96577 1 50 day11S175 = some day11S176 := by decide!
theorem day11_chunk_177 : runIters 96577 1 50 day11S176 = some day11S177 := by decide!
theorem day11_chunk_178 : runIters 96577 1 50 day11S177 = some day11S178 := by decide!
theorem day11_chunk_179 : runIters 96577 1 50 day11S178 = some day11S179 := by decide!
theorem day11_chunk_180 : runIters 96577 1 50 day11S179 = some day11S180 := by decide!
theorem day11_chunk_181 : runIters 96577 1 50 day11S180 = some day11S181 := by decide!
theorem day11_chunk_182 : runIters 96577 1 50 day11S181 = some day11S182 := by decide!
theorem day11_chunk_183 : runIters 96577 1 50 day11S182 = some day11S183 := by decide!
theorem day11_chunk_184 : runIters 96577 1 50 day11S183 = some day11S184 := by decide!
theorem day11_chunk_185 : runIters 96577 1 50 day11S184 = some day11S185 := by decide!
theorem day11_chunk_186 : runIters 96577 1 50 day11S185 = some day11S186 := by decide!
theorem day11_chunk_187 : runIters 96577 1 50 day11S186 = some day11S187 := by decide!
theorem day11_chunk_188 : runIters 96577 1 50 day11S187 = some day11S188 := by decide!
theorem day11_chunk_189 : runIters 96577 1 50 day11S188 = some day11S189 := by decide!
theorem day11_chunk_190 : runIters 96577 1 50 day11S189 = some day11S190 := by decide!
theorem day11_chunk_191 : runIters 96577 1 50 day11S190 = some day11S191 := by decide!
theorem day11_chunk_192 : runIters 96577 1 50 day11S191 = some day11S192 := by decide!
theorem day11_chunk_193 : runIters 96577 1 50 day11S192 = some day11S193 := by decide!
theorem day11_chunk_194 : runIters 96577 1 50 day11S193 = some day11S194 := by decide!
theorem day11_chunk_195 : runIters 96577 1 50 day11S194 = some day11S195 := by decide!
theorem day11_chunk_196 : runIters 96577 1 50 day11S195 = some day11S196 := by decide!
theorem day11_chunk_197 : runIters 96577 1 50 day11S196 = some day11S197 := by decide!
theorem day11_chunk_198 : runIters 96577 1 50 day11S197 = some day11S198 := by decide!
theorem day11_chunk_199 : runIters 96577 1 50 day11S198 = some day11S199 := by decide!
theorem day11_chunk_200 : runIters 96577 1 50 day11S199 = some day11S200 := by decide!

/-- Composing two staged runs of the round loop. -/
theorem runIters_chain (dp wd a b : Nat) (ms ms1 ms2 : List Monkey)
    (h1 : runIters dp wd a ms = some ms1) (h2 : runIters dp wd b ms1 = some ms2) :
    runIters dp wd (a + b) ms = some ms2 := by
  induction a generalizing ms with
  | zero =>
    simp only [runIters] at h1
    cases h1
    simpa using h2
  | succ n ih =>
    rw [show n + 1 + b = (n + b) + 1 from by omega]
    cases hr : runRound dp wd ms with
    | none =>
      simp only [runIters, hr] at h1
      cases h1
    | some ms3 =>
      simp only [runIters, hr] at h1 ⊢
      exact ih ms3 h1


/-- The full 10000-round run of the documented example, assembled from the
50-round stages. -/
theorem day11_runIters_10000 : runIters 96577 1 10000 day11Example = some day11S200 := by
  have acc1 : runIters 96577 1 50 day11Example = some day11S1 := day11_chunk_1
  have acc2 : runIters 96577 1 100 day11Example = some day11S2 := runIters_chain 96577 1 50 50 day11Example day11S1 day11S2 acc1 day11_chunk_2
  have acc3 : runIters 96577 1 150 day11Example = some day11S3 := runIters_chain 96577 1 100 50 day11Example day11S2 day11S3 acc2 day11_chunk_3
  have acc4 : runIters 96577 1 200 day11Example = some day11S4 := runIters_chain 96577 1 150 50 day11Example day11S3 day11S4 acc3 day11_chunk_4
  have acc5 : runIters 96577 1 250 day11Example = some day11S5 := runIters_chain 96577 1 200 50 day11Example day11S4 day11S5 acc4 day11_chunk_5
  have acc6 : runIters 96577 1 300 day11Example = some day11S6 := runIters_chain 96577 1 250 50 day11Example day11S5 day11S6 acc5 day11_chunk_6
  have acc7 : runIters 96577 1 350 day11Example = some day11S7 := runIters_chain 96577 1 300 50 day11Example day11S6 day11S7 acc6 day11_chunk_7
  have acc8 : runIters 96577 1 400 day11Example = some day11S8 := runIters_chain 96577 1 350 50 day11Example day11S7 day11S8 acc7 day11_chunk_8
  have acc9 : runIters 96577 1 450 day11Example = some day11S9 := runIters_chain 96577 1 400 50 day11Example day11S8 day11S9 acc8 day11_chunk_9
  have acc10 : runIters 96577 1 500 day11Example = some day11S10 := runIters_chain 96577 1 450 50 day11Example day11S9 day11S10 acc9 day11_chunk_10
  have acc11 : runIters 96577 1 550 day11Example = some day11S11 := runIters_chain 96577 1 500 50 day11Example day11S10 day11S11 acc10 day11_chunk_11
  have acc12 : runIters 96577 1 600 day11Example = some day11S12 := runIters_chain 96577 1 550 50 day11Example day11S11 day11S12 acc11 day11_chunk_12
  have acc13 : runIters 96577 1 650 day11Example = some day11S13 := runIters_chain 96577 1 600 50 day11Example day11S12 day11S13 acc12 day11_chunk_13
  have acc14 : runIters 96577 1 700 day11Example = some day11S14 := runIters_chain 96577 1 650 50 day11Example day11S13 day11S14 acc13 day11_chunk_14
  have acc15 : runIters 96577 1 750 day11Example = some day11S15 := runIters_chain 96577 1 700 50 day11Example day11S14 day11S15 acc14 day11_chunk_15
  have acc16 : runIters 96577 1 800 day11Example = some day11S16 := runIters_chain 96577 1 750 50 day11Example day11S15 day11S16 acc15 day11_chunk_16
  have acc17 : runIters 96577 1 850 day11Example = some day11S17 := runIters_chain 96577 1 800 50 day11Example day11S16 day11S17 acc16 day11_chunk_17
  have acc18 : runIters 96577 1 900 day11Example = some day11S18 := runIters_chain 96577 1 850 50 day11Example day11S17 day11S18 acc17 day11_chunk_18
  have acc19 : runIters 96577 1 950 day11Example = some day11S19 := runIters_chain 96577 1 900 50 day11Example day11S18 day11S19 acc18 day11_chunk_19
  have acc20 : runIters 96577 1 1000 day11Example = some day11S20 := runIters_chain 96577 1 950 50 day11Example day11S19 day11S20 acc19 day11_chunk_20
  have acc21 : runIters 96577 1 1050 day11Example = some day11S21 := runIters_chain 96577 1 1000 50 day11Example day11S20 day11S21 acc20 day11_chunk_21
  have acc22 : runIters 96577 1 1100 day11Example = some day11S22 := runIters_chain 96577 1 1050 50 day11Example day11S21 day11S22 acc21 day11_chunk_22
  have acc23 : runIters 96577 1 1150 day11Example = some day11S23 := runIters_chain 96577 1 1100 50 day11Example day11S22 day11S23 acc22 day11_chunk_23
  have acc24 : runIters 96577 1 1200 day11Example = some day11S24 := runIters_chain 96577 1 1150 50 day11Example day11S23 day11S24 acc23 day11_chunk_24
  have acc25 : runIters 96577 1 1250 day11Example = some day11S25 := runIters_chain 96577 1 1200 50 day11Example day11S24 day11S25 acc24 day11_chunk_25
  have acc26 : runIters 96577 1 1300 day11Example = some day11S26 := runIters_chain 96577 1 1250 50 day11Example day11S25 day11S26 acc25 day11_chunk_26
  have acc27 : runIters 96577 1 1350 day11Example = some day11S27 := runIters_chain 96577 1 1300 50 day11Example day11S26 day11S27 acc26 day11_chunk_27
  have acc28 : runIters 96577 1 1400 day11Example = some day11S28 := runIters_chain 96577 1 1350 50 day11Example day11S27 day11S28 acc27 day11_chunk_28
  have acc29 : runIters 96577 1 1450 day11Example = some day11S29 := runIters_chain 96577 1 1400 50 day11Example day11S28 day11S29 acc28 day11_chunk_29
  have acc30 : runIters 96577 1 1500 day11Example = some day11S30 := runIters_chain 96577 1 1450 50 day11Example day11S29 day11S30 acc29 day11_chunk_30
  have acc31 : runIters 96577 1 1550 day11Example = some day11S31 := runIters_chain 96577 1 1500 50 day11Example day11S30 day11S31 acc30 day11_chunk_31
  have acc32 : runIters 96577 1 1600 day11Example = some day11S32 := runIters_chain 96577 1 1550 50 day11Example day11S31 day11S32 acc31 day11_chunk_32
  have acc33 : runIters 96577 1 1650 day11Example = some day11S33 := runIters_chain 96577 1 1600 50 day11Example day11S32 day11S33 acc32 day11_chunk_33
  have acc34 : runIters 96577 1 1700 day11Example = some day11S34 := runIters_chain 96577 1 1650 50 day11Example day11S33 day11S34 acc33 day11_chunk_34
  have acc35 : runIters 96577 1 1750 day11Example = some day11S35 := runIters_chain 96577 1 1700 50 day11Example day11S34 day11S35 acc34 day11_chunk_35
  have acc36 : runIters 96577 1 1800 day11Example = some day11S36 := runIters_chain 96577 1 1750 50 day11Example day11S35 day11S36 acc35 day11_chunk_36
  have acc37 : runIters 96577 1 1850 day11Example = some day11S37 := runIters_chain 96577 1 1800 50 day11Example day11S36 day11S37 acc36 day11_chunk_37
  have acc38 : runIters 96577 1 1900 day11Example = some day11S38 := runIters_chain 96577 1 1850 50 day11Example day11S37 day11S38 acc37 day11_chunk_38
  have acc39 : runIters 96577 1 1950 day11Example = some day11S39 := runIters_chain 96577 1 1900 50 day11Example day11S38 day11S39 acc38 day11_chunk_39
  have acc40 : runIters 96577 1 2000 day11Example = some day11S40 := runIters_chain 96577 1 1950 50 day11Example day11S39 day11S40 acc39 day11_chunk_40
  have acc41 : runIters 96577 1 2050 day11Example = some day11S41 := runIters_chain 96577 1 2000 50 day11Example day11S40 day11S41 acc40 day11_chunk_41
  have acc42 : runIters 96577 1 2100 day11Example = some day11S42 := runIters_chain 96577 1 2050 50 day11Example day11S41 day11S42 acc41 day11_chunk_42
  have acc43 : runIters 96577 1 2150 day11Example = some day11S43 := runIters_chain 96577 1 2100 50 day11Example day11S42 day11S43 acc42 day11_chunk_43
  have acc44 : runIters 96577 1 2200 day11Example = some day11S44 := runIters_chain 96577 1 2150 50 day11Example day11S43 day11S44 acc43 day11_chunk_44
  have acc45 : runIters 96577 1 2250 day11Example = some day11S45 := runIters_chain 96577 1 2200 50 day11Example day11S44 day11S45 acc44 day11_chunk_45
  have acc46 : runIters 96577 1 2300 day11Example = some day11S46 := runIters_chain 96577 1 2250 50 day11Example day11S45 day11S46 acc45 day11_chunk_46
  have acc47 : runIters 96577 1 2350 day11Example = some day11S47 := runIters_chain 96577 1 2300 50 day11Example day11S46 day11S47 acc46 day11_chunk_47
  have acc48 : runIters 96577 1 2400 day11Example = some day11S48 := runIters_chain 96577 1 2350 50 day11Example day11S47 day11S48 acc47 day11_chunk_48
  have acc49 : runIters 96577 1 2450 day11Example = some day11S49 := runIters_chain 96577 1 2400 50 day11Example day11S48 day11S49 acc48 day11_chunk_49
  have acc50 : runIters 96577 1 2500 day11Example = some day11S50 := runIters_chain 96577 1 2450 50 day11Example day11S49 day11S50 acc49 day11_chunk_50
  have acc51 : runIters 96577 1 2550 day11Example = some day11S51 := runIters_chain 96577 1 2500 50 day11Example day11S50 day11S51 acc50 day11_chunk_51
  have acc52 : runIters 96577 1 2600 day11Example = some day11S52 := runIters_chain 96577 1 2550 50 day11Example day11S51 day11S52 acc51 day11_chunk_52
  have acc53 : runIters 96577 1 2650 day11Example = some day11S53 := runIters_chain 96577 1 2600 50 day11Example day11S52 day11S53 acc52 day11_chunk_53
  have acc54 : runIters 96577 1 2700 day11Example = some day11S54 := runIters_chain 96577 1 2650 50 day11Example day11S53 day11S54 acc53 day11_chunk_54
  have acc55 : runIters 96577 1 2750 day11Example = some day11S55 := runIters_chain 96577 1 2700 50 day11Example day11S54 day11S55 acc54 day11_chunk_55
  have acc56 : runIters 96577 1 2800 day11Example = some day11S56 := runIters_chain 96577 1 2750 50 day11Example day11S55 day11S56 acc55 day11_chunk_56
  have acc57 : runIters 96577 1 2850 day11Example = some day11S57 := runIters_chain 96577 1 2800 50 day11Example day11S56 day11S57 acc56 day11_chunk_57
  have acc58 : runIters 96577 1 2900 day11Example = some day11S58 := runIters_chain 96577 1 2850 50 day11Example day11S57 day11S58 acc57 day11_chunk_58
  have acc59 : runIters 96577 1 2950 day11Example = some day11S59 := runIters_chain 96577 1 2900 50 day11Example day11S58 day11S59 acc58 day11_chunk_59
  have acc60 : runIters 96577 1 3000 day11Example = some day11S60 := runIters_chain 96577 1 2950 50 day11Example day11S59 day11S60 acc59 day11_chunk_60
  have acc61 : runIters 96577 1 3050 day11Example = some day11S61 := runIters_chain 96577 1 3000 50 day11Example day11S60 day11S61 acc60 day11_chunk_61
  have acc62 : runIters 96577 1 3100 day11Example = some day11S62 := runIters_chain 96577 1 3050 50 day11Example day11S61 day11S62 acc61 day11_chunk_62
  have acc63 : runIters 96577 1 3150 day11Example = some day11S63 := runIters_chain 96577 1 3100 50 day11Example day11S62 day11S63 acc62 day11_chunk_63
  have acc64 : runIters 96577 1 3200 day11Example = some day11S64 := runIters_chain 96577 1 3150 50 day11Example day11S63 day11S64 acc63 day11_chunk_64
  have acc65 : runIters 96577 1 3250 day11Example = some day11S65 := runIters_chain 96577 1 3200 50 day11Example day11S64 day11S65 acc64 day11_chunk_65
  have acc66 : runIters 96577 1 3300 day11Example = some day11S66 := runIters_chain 96577 1 3250 50 day11Example day11S65 day11S66 acc65 day11_chunk_66
  have acc67 : runIters 96577 1 3350 day11Example = some day11S67 := runIters_chain 96577 1 3300 50 day11Example day11S66 day11S67 acc66 day11_chunk_67
  have acc68 : runIters 96577 1 3400 day11Example = some day11S68 := runIters_chain 96577 1 3350 50 day11Example day11S67 day11S68 acc67 day11_chunk_68
  have acc69 : runIters 96577 1 3450 day11Example = some day11S69 := runIters_chain 96577 1 3400 50 day11Example day11S68 day11S69 acc68 day11_chunk_69
  have acc70 : runIters 96577 1 3500 day11Example = some day11S70 := runIters_chain 96577 1 3450 50 day11Example day11S69 day11S70 acc69 day11_chunk_70
  have acc71 : runIters 96577 1 3550 day11Example = some day11S71 := runIters_chain 96577 1 3500 50 day11Example day11S70 day11S71 acc70 day11_chunk_71
  have acc72 : runIters 96577 1 3600 day11Example = some day11S72 := runIters_chain 96577 1 3550 50 day11Example day11S71 day11S72 acc71 day11_chunk_72
  have acc73 : runIters 96577 1 3650 day11Example = some day11S73 := runIters_chain 96577 1 3600 50 day11Example day11S72 day11S73 acc72 day11_chunk_73
  have acc74 : runIters 96577 1 3700 day11Example = some day11S74 := runIters_chain 96577 1 3650 50 day11Example day11S73 day11S74 acc73 day11_chunk_74
  have acc75 : runIters 96577 1 3750 day11Example = some day11S75 := runIters_chain 96577 1 3700 50 day11Example day11S74 day11S75 acc74 day11_chunk_75
  have acc76 : runIters 96577 1 3800 day11Example = some day11S76 := runIters_chain 96577 1 3750 50 day11Example day11S75 day11S76 acc75 day11_chunk_76
  have acc77 : runIters 96577 1 3850 day11Example = some day11S77 := runIters_chain 96577 1 3800 50 day11Example day11S76 day11S77 acc76 day11_chunk_77
  have acc78 : runIters 96577 1 3900 day11Example = some day11S78 := runIters_chain 96577 1 3850 50 day11Example day11S77 day11S78 acc77 day11_chunk_78
  have acc79 : runIters 96577 1 3950 day11Example = some day11S79 := runIters_chain 96577 1 3900 50 day11Example day11S78 day11S79 acc78 day11_chunk_79
  have acc80 : runIters 96577 1 4000 day11Example = some day11S80 := runIters_chain 96577 1 3950 50 day11Example day11S79 day11S80 acc79 day11_chunk_80
  have acc81 : runIters 96577 1 4050 day11Example = some day11S81 := runIters_chain 96577 1 4000 50 day11Example day11S80 day11S81 acc80 day11_chunk_81
  have acc82 : runIters 96577 1 4100 day11Example = some day11S82 := runIters_chain 96577 1 4050 50 day11Example day11S81 day11S82 acc81 day11_chunk_82
  have acc83 : runIters 96577 1 4150 day11Example = some day11S83 := runIters_chain 96577 1 4100 50 day11Example day11S82 day11S83 acc82 day11_chunk_83
  have acc84 : runIters 96577 1 4200 day11Example = some day11S84 := runIters_chain 96577 1 4150 50 day11Example day11S83 day11S84 acc83 day11_chunk_84
  have acc85 : runIters 96577 1 4250 day11Example = some day11S85 := runIters_chain 96577 1 4200 50 day11Example day11S84 day11S85 acc84 day11_chunk_85
  have acc86 : runIters 96577 1 4300 day11Example = some day11S86 := runIters_chain 96577 1 4250 50 day11Example day11S85 day11S86 acc85 day11_chunk_86
  have acc87 : runIters 96577 1 4350 day11Example = some day11S87 := runIters_chain 96577 1 4300 50 day11Example day11S86 day11S87 acc86 day11_chunk_87
  have acc88 : runIters 96577 1 4400 day11Example = some day11S88 := runIters_chain 96577 1 4350 50 day11Example day11S87 day11S88 acc87 day11_chunk_88
  have acc89 : runIters 96577 1 4450 day11Example = some day11S89 := runIters_chain 96577 1 4400 50 day11Example day11S88 day11S89 acc88 day11_chunk_89
  have acc90 : runIters 96577 1 4500 day11Example = some day11S90 := runIters_chain 96577 1 4450 50 day11Example day11S89 day11S90 acc89 day11_chunk_90
  have acc91 : runIters 96577 1 4550 day11Example = some day11S91 := runIters_chain 96577 1 4500 50 day11Example day11S90 day11S91 acc90 day11_chunk_91
  have acc92 : runIters 96577 1 4600 day11Example = some day11S92 := runIters_chain 96577 1 4550 50 day11Example day11S91 day11S92 acc91 day11_chunk_92
  have acc93 : runIters 96577 1 4650 day11Example = some day11S93 := runIters_chain 96577 1 4600 50 day11Example day11S92 day11S93 acc92 day11_chunk_93
  have acc94 : runIters 96577 1 4700 day11Example = some day11S94 := runIters_chain 96577 1 4650 50 day11Example day11S93 day11S94 acc93 day11_chunk_94
  have acc95 : runIters 96577 1 4750 day11Example = some day11S95 := runIters_chain 96577 1 4700 50 day11Example day11S94 day11S95 acc94 day11_chunk_95
  have acc96 : runIters 96577 1 4800 day11Example = some day11S96 := runIters_chain 96577 1 4750 50 day11Example day11S95 day11S96 acc95 day11_chunk_96
  have acc97 : runIters 96577 1 4850 day11Example = some day11S97 := runIters_chain 96577 1 4800 50 day11Example day11S96 day11S97 acc96 day11_chunk_97
  have acc98 : runIters 96577 1 4900 day11Example = some day11S98 := runIters_chain 96577 1 4850 50 day11Example day11S97 day11S98 acc97 day11_chunk_98
  have acc99 : runIters 96577 1 4950 day11Example = some day11S99 := runIters_chain 96577 1 4900 50 day11Example day11S98 day11S99 acc98 day11_chunk_99
  have acc100 : runIters 96577 1 5000 day11Example = some day11S100 := runIters_chain 96577 1 4950 50 day11Example day11S99 day11S100 acc99 day11_chunk_100
  have acc101 : runIters 96577 1 5050 day11Example = some day11S101 := runIters_chain 96577 1 5000 50 day11Example day11S100 day11S101 acc100 day11_chunk_101
  have acc102 : runIters 96577 1 5100 day11Example = some day11S102 := runIters_chain 96577 1 5050 50 day11Example day11S101 day11S102 acc101 day11_chunk_102
  have acc103 : runIters 96577 1 5150 day11Example = some day11S103 := runIters_chain 96577 1 5100 50 day11Example day11S102 day11S103 acc102 day11_chunk_103
  have acc104 : runIters 96577 1 5200 day11Example = some day11S104 := runIters_chain 96577 1 5150 50 day11Example day11S103 day11S104 acc103 day11_chunk_104
  have acc105 : runIters 96577 1 5250 day11Example = some day11S105 := runIters_chain 96577 1 5200 50 day11Example day11S104 day11S105 acc104 day11_chunk_105
  have acc106 : runIters 96577 1 5300 day11Example = some day11S106 := runIters_chain 96577 1 5250 50 day11Example day11S105 day11S106 acc105 day11_chunk_106
  have acc107 : runIters 96577 1 5350 day11Example = some day11S107 := runIters_chain 96577 1 5300 50 day11Example day11S106 day11S107 acc106 day11_chunk_107
  have acc108 : runIters 96577 1 5400 day11Example = some day11S108 := runIters_chain 96577 1 5350 50 day11Example day11S107 day11S108 acc107 day11_chunk_108
  have acc109 : runIters 96577 1 5450 day11Example = some day11S109 := runIters_chain 96577 1 5400 50 day11Example day11S108 day11S109 acc108 day11_chunk_109
  have acc110 : runIters 96577 1 5500 day11Example = some day11S110 := runIters_chain 96577 1 5450 50 day11Example day11S109 day11S110 acc109 day11_chunk_110
  have acc111 : runIters 96577 1 5550 day11Example = some day11S111 := runIters_chain 96577 1 5500 50 day11Example day11S110 day11S111 acc110 day11_chunk_111
  have acc112 : runIters 96577 1 5600 day11Example = some day11S112 := runIters_chain 96577 1 5550 50 day11Example day11S111 day11S112 acc111 day11_chunk_112
  have acc113 : runIters 96577 1 5650 day11Example = some day11S113 := runIters_chain 96577 1 5600 50 day11Example day11S112 day11S113 acc112 day11_chunk_113
  have acc114 : runIters 96577 1 5700 day11Example = some day11S114 := runIters_chain 96577 1 5650 50 day11Example day11S113 day11S114 acc113 day11_chunk_114
  have acc115 : runIters 96577 1 5750 day11Example = some day11S115 := runIters_chain 96577 1 5700 50 day11Example day11S114 day11S115 acc114 day11_chunk_115
  have acc116 : runIters 96577 1 5800 day11Example = some day11S116 := runIters_chain 96577 1 5750 50 day11Example day11S115 day11S116 acc115 day11_chunk_116
  have acc117 : runIters 96577 1 5850 day11Example = some day11S117 := runIters_chain 96577 1 5800 50 day11Example day11S116 day11S117 acc116 day11_chunk_117
  have acc118 : runIters 96577 1 5900 day11Example = some day11S118 := runIters_chain 96577 1 5850 50 day11Example day11S117 day11S118 acc117 day11_chunk_118
  have acc119 : runIters 96577 1 5950 day11Example = some day11S119 := runIters_chain 96577 1 5900 50 day11Example day11S118 day11S119 acc118 day11_chunk_119
  have acc120 : runIters 96577 1 6000 day11Example = some day11S120 := runIters_chain 96577 1 5950 50 day11Example day11S119 day11S120 acc119 day11_chunk_120
  have acc121 : runIters 96577 1 6050 day11Example = some day11S121 := runIters_chain 96577 1 6000 50 day11Example day11S120 day11S121 acc120 day11_chunk_121
  have acc122 : runIters 96577 1 6100 day11Example = some day11S122 := runIters_chain 96577 1 6050 50 day11Example day11S121 day11S122 acc121 day11_chunk_122
  have acc123 : runIters 96577 1 6150 day11Example = some day11S123 := runIters_chain 96577 1 6100 50 day11Example day11S122 day11S123 acc122 day11_chunk_123
  have acc124 : runIters 96577 1 6200 day11Example = some day11S124 := runIters_chain 96577 1 6150 50 day11Example day11S123 day11S124 acc123 day11_chunk_124
  have acc125 : runIters 96577 1 6250 day11Example = some day11S125 := runIters_chain 96577 1 6200 50 day11Example day11S124 day11S125 acc124 day11_chunk_125
  have acc126 : runIters 96577 1 6300 day11Example = some day11S126 := runIters_chain 96577 1 6250 50 day11Example day11S125 day11S126 acc125 day11_chunk_126
  have acc127 : runIters 96577 1 6350 day11Example = some day11S127 := runIters_chain 96577 1 6300 50 day11Example day11S126 day11S127 acc126 day11_chunk_127
  have acc128 : runIters 96577 1 6400 day11Example = some day11S128 := runIters_chain 96577 1 6350 50 day11Example day11S127 day11S128 acc127 day11_chunk_128
  have acc129 : runIters 96577 1 6450 day11Example = some day11S129 := runIters_chain 96577 1 6400 50 day11Example day11S128 day11S129 acc128 day11_chunk_129
  have acc130 : runIters 96577 1 6500 day11Example = some day11S130 := runIters_chain 96577 1 6450 50 day11Example day11S129 day11S130 acc129 day11_chunk_130
  have acc131 : runIters 96577 1 6550 day11Example = some day11S131 := runIters_chain 96577 1 6500 50 day11Example day11S130 day11S131 acc130 day11_chunk_131
  have acc132 : runIters 96577 1 6600 day11Example = some day11S132 := runIters_chain 96577 1 6550 50 day11Example day11S131 day11S132 acc131 day11_chunk_132
  have acc133 : runIters 96577 1 6650 day11Example = some day11S133 := runIters_chain 96577 1 6600 50 day11Example day11S132 day11S133 acc132 day11_chunk_133
  have acc134 : runIters 96577 1 6700 day11Example = some day11S134 := runIters_chain 96577 1 6650 50 day11Example day11S133 day11S134 acc133 day11_chunk_134
  have acc135 : runIters 96577 1 6750 day11Example = some day11S135 := runIters_chain 96577 1 6700 50 day11Example day11S134 day11S135 acc134 day11_chunk_135
  have acc136 : runIters 96577 1 6800 day11Example = some day11S136 := runIters_chain 96577 1 6750 50 day11Example day11S135 day11S136 acc135 day11_chunk_136
  have acc137 : runIters 96577 1 6850 day11Example = some day11S137 := runIters_chain 96577 1 6800 50 day11Example day11S136 day11S137 acc136 day11_chunk_137
  have acc138 : runIters 96577 1 6900 day11Example = some day11S138 := runIters_chain 96577 1 6850 50 day11Example day11S137 day11S138 acc137 day11_chunk_138
  have acc139 : runIters 96577 1 6950 day11Example = some day11S139 := runIters_chain 96577 1 6900 50 day11Example day11S138 day11S139 acc138 day11_chunk_139
  have acc140 : runIters 96577 1 7000 day11Example = some day11S140 := runIters_chain 96577 1 6950 50 day11Example day11S139 day11S140 acc139 day11_chunk_140
  have acc141 : runIters 96577 1 7050 day11Example = some day11S141 := runIters_chain 96577 1 7000 50 day11Example day11S140 day11S141 acc140 day11_chunk_141
  have acc142 : runIters 96577 1 7100 day11Example = some day11S142 := runIters_chain 96577 1 7050 50 day11Example day11S141 day11S142 acc141 day11_chunk_142
  have acc143 : runIters 96577 1 7150 day11Example = some day11S143 := runIters_chain 96577 1 7100 50 day11Example day11S142 day11S143 acc142 day11_chunk_143
  have acc144 : runIters 96577 1 7200 day11Example = some day11S144 := runIters_chain 96577 1 7150 50 day11Example day11S143 day11S144 acc143 day11_chunk_144
  have acc145 : runIters 96577 1 7250 day11Example = some day11S145 := runIters_chain 96577 1 7200 50 day11Example day11S144 day11S145 acc144 day11_chunk_145
  have acc146 : runIters 96577 1 7300 day11Example = some day11S146 := runIters_chain 96577 1 7250 50 day11Example day11S145 day11S146 acc145 day11_chunk_146
  have acc147 : runIters 96577 1 7350 day11Example = some day11S147 := runIters_chain 96577 1 7300 50 day11Example day11S146 day11S147 acc146 day11_chunk_147
  have acc148 : runIters 96577 1 7400 day11Example = some day11S148 := runIters_chain 96577 1 7350 50 day11Example day11S147 day11S148 acc147 day11_chunk_148
  have acc149 : runIters 96577 1 7450 day11Example = some day11S149 := runIters_chain 96577 1 7400 50 day11Example day11S148 day11S149 acc148 day11_chunk_149
  have acc150 : runIters 96577 1 7500 day11Example = some day11S150 := runIters_chain 96577 1 7450 50 day11Example day11S149 day11S150 acc149 day11_chunk_150
  have acc151 : runIters 96577 1 7550 day11Example = some day11S151 := runIters_chain 96577 1 7500 50 day11Example day11S150 day11S151 acc150 day11_chunk_151
  have acc152 : runIters 96577 1 7600 day11Example = some day11S152 := runIters_chain 96577 1 7550 50 day11Example day11S151 day11S152 acc151 day11_chunk_152
  have acc153 : runIters 96577 1 7650 day11Example = some day11S153 := runIters_chain 96577 1 7600 50 day11Example day11S152 day11S153 acc152 day11_chunk_153
  have acc154 : runIters 96577 1 7700 day11Example = some day11S154 := runIters_chain 96577 1 7650 50 day11Example day11S153 day11S154 acc153 day11_chunk_154
  have acc155 : runIters 96577 1 7750 day11Example = some day11S155 := runIters_chain 96577 1 7700 50 day11Example day11S154 day11S155 acc154 day11_chunk_155
  have acc156 : runIters 96577 1 7800 day11Example = some day11S156 := runIters_chain 96577 1 7750 50 day11Example day11S155 day11S156 acc155 day11_chunk_156
  have acc157 : runIters 96577 1 7850 day11Example = some day11S157 := runIters_chain 96577 1 7800 50 day11Example day11S156 day11S157 acc156 day11_chunk_157
  have acc158 : runIters 96577 1 7900 day11Example = some day11S158 := runIters_chain 96577 1 7850 50 day11Example day11S157 day11S158 acc157 day11_chunk_158
  have acc159 : runIters 96577 1 7950 day11Example = some day11S159 := runIters_chain 96577 1 7900 50 day11Example day11S158 day11S159 acc158 day11_chunk_159
  have acc160 : runIters 96577 1 8000 day11Example = some day11S160 := runIters_chain 96577 1 7950 50 day11Example day11S159 day11S160 acc159 day11_chunk_160
  have acc161 : runIters 96577 1 8050 day11Example = some day11S161 := runIters_chain 96577 1 8000 50 day11Example day11S160 day11S161 acc160 day11_chunk_161
  have acc162 : runIters 96577 1 8100 day11Example = some day11S162 := runIters_chain 96577 1 8050 50 day11Example day11S161 day11S162 acc161 day11_chunk_162
  have acc163 : runIters 96577 1 8150 day11Example = some day11S163 := runIters_chain 96577 1 8100 50 day11Example day11S162 day11S163 acc162 day11_chunk_163
  have acc164 : runIters 96577 1 8200 day11Example = some day11S164 := runIters_chain 96577 1 8150 50 day11Example day11S163 day11S164 acc163 day11_chunk_164
  have acc165 : runIters 96577 1 8250 day11Example = some day11S165 := runIters_chain 96577 1 8200 50 day11Example day11S164 day11S165 acc164 day11_chunk_165
  have acc166 : runIters 96577 1 8300 day11Example = some day11S166 := runIters_chain 96577 1 8250 50 day11Example day11S165 day11S166 acc165 day11_chunk_166
  have acc167 : runIters 96577 1 8350 day11Example = some day11S167 := runIters_chain 96577 1 8300 50 day11Example day11S166 day11S167 acc166 day11_chunk_167
  have acc168 : runIters 96577 1 8400 day11Example = some day11S168 := runIters_chain 96577 1 8350 50 day11Example day11S167 day11S168 acc167 day11_chunk_168
  have acc169 : runIters 96577 1 8450 day11Example = some day11S169 := runIters_chain 96577 1 8400 50 day11Example day11S168 day11S169 acc168 day11_chunk_169
  have acc170 : runIters 96577 1 8500 day11Example = some day11S170 := runIters_chain 96577 1 8450 50 day11Example day11S169 day11S170 acc169 day11_chunk_170
  have acc171 : runIters 96577 1 8550 day11Example = some day11S171 := runIters_chain 96577 1 8500 50 day11Example day11S170 day11S171 acc170 day11_chunk_171
  have acc172 : runIters 96577 1 8600 day11Example = some day11S172 := runIters_chain 96577 1 8550 50 day11Example day11S171 day11S172 acc171 day11_chunk_172
  have acc173 : runIters 96577 1 8650 day11Example = some day11S173 := runIters_chain 96577 1 8600 50 day11Example day11S172 day11S173 acc172 day11_chunk_173
  have acc174 : runIters 96577 1 8700 day11Example = some day11S174 := runIters_chain 96577 1 8650 50 day11Example day11S173 day11S174 acc173 day11_chunk_174
  have acc175 : runIters 96577 1 8750 day11Example = some day11S175 := runIters_chain 96577 1 8700 50 day11Example day11S174 day11S175 acc174 day11_chunk_175
  have acc176 : runIters 96577 1 8800 day11Example = some day11S176 := runIters_chain 96577 1 8750 50 day11Example day11S175 day11S176 acc175 day11_chunk_176
  have acc177 : runIters 96577 1 8850 day11Example = some day11S177 := runIters_chain 96577 1 8800 50 day11Example day11S176 day11S177 acc176 day11_chunk_177
  have acc178 : runIters 96577 1 8900 day11Example = some day11S178 := runIters_chain 96577 1 8850 50 day11Example day11S177 day11S178 acc177 day11_chunk_178
  have acc179 : runIters 96577 1 8950 day11Example = some day11S179 := runIters_chain 96577 1 8900 50 day11Example day11S178 day11S179 acc178 day11_chunk_179
  have acc180 : runIters 96577 1 9000 day11Example = some day11S180 := runIters_chain 96577 1 8950 50 day11Example day11S179 day11S180 acc179 day11_chunk_180
  have acc181 : runIters 96577 1 9050 day11Example = some day11S181 := runIters_chain 96577 1 9000 50 day11Example day11S180 day11S181 acc180 day11_chunk_181
  have acc182 : runIters 96577 1 9100 day11Example = some day11S182 := runIters_chain 96577 1 9050 50 day11Example day11S181 day11S182 acc181 day11_chunk_182
  have acc183 : runIters 96577 1 9150 day11Example = some day11S183 := runIters_chain 96577 1 9100 50 day11Example day11S182 day11S183 acc182 day11_chunk_183
  have acc184 : runIters 96577 1 9200 day11Example = some day11S184 := runIters_chain 96577 1 9150 50 day11Example day11S183 day11S184 acc183 day11_chunk_184
  have acc185 : runIters 96577 1 9250 day11Example = some day11S185 := runIters_chain 96577 1 9200 50 day11Example day11S184 day11S185 acc184 day11_chunk_185
  have acc186 : runIters 96577 1 9300 day11Example = some day11S186 := runIters_chain 96577 1 9250 50 day11Example day11S185 day11S186 acc185 day11_chunk_186
  have acc187 : runIters 96577 1 9350 day11Example = some day11S187 := runIters_chain 96577 1 9300 50 day11Example day11S186 day11S187 acc186 day11_chunk_187
  have acc188 : runIters 96577 1 9400 day11Example = some day11S188 := runIters_chain 96577 1 9350 50 day11Example day11S187 day11S188 acc187 day11_chunk_188
  have acc189 : runIters 96577 1 9450 day11Example = some day11S189 := runIters_chain 96577 1 9400 50 day11Example day11S188 day11S189 acc188 day11_chunk_189
  have acc190 : runIters 96577 1 9500 day11Example = some day11S190 := runIters_chain 96577 1 9450 50 day11Example day11S189 day11S190 acc189 day11_chunk_190
  have acc191 : runIters 96577 1 9550 day11Example = some day11S191 := runIters_chain 96577 1 9500 50 day11Example day11S190 day11S191 acc190 day11_chunk_191
  have acc192 : runIters 96577 1 9600 day11Example = some day11S192 := runIters_chain 96577 1 9550 50 day11Example day11S191 day11S192 acc191 day11_chunk_192
  have acc193 : runIters 96577 1 9650 day11Example = some day11S193 := runIters_chain 96577 1 9600 50 day11Example day11S192 day11S193 acc192 day11_chunk_193
  have acc194 : runIters 96577 1 9700 day11Example = some day11S194 := runIters_chain 96577 1 9650 50 day11Example day11S193 day11S194 acc193 day11_chunk_194
  have acc195 : runIters 96577 1 9750 day11Example = some day11S195 := runIters_chain 96577 1 9700 50 day11Example day11S194 day11S195 acc194 day11_chunk_195
  have acc196 : runIters 96577 1 9800 day11Example = some day11S196 := runIters_chain 96577 1 9750 50 day11Example day11S195 day11S196 acc195 day11_chunk_196
  have acc197 : runIters 96577 1 9850 day11Example = some day11S197 := runIters_chain 96577 1 9800 50 day11Example day11S196 day11S197 acc196 day11_chunk_197
  have acc198 : runIters 96577 1 9900 day11Example = some day11S198 := runIters_chain 96577 1 9850 50 day11Example day11S197 day11S198 acc197 day11_chunk_198
  have acc199 : runIters 96577 1 9950 day11Example = some day11S199 := runIters_chain 96577 1 9900 50 day11Example day11S198 day11S199 acc198 day11_chunk_199
  have acc200 : runIters 96577 1 10000 day11Example = some day11S200 := runIters_chain 96577 1 9950 50 day11Example day11S199 day11S200 acc199 day11_chunk_200
  exact acc200

/-- `pushTo` succeeds for in-range targets and preserves both the number of
actors and every actor's routing test. -/
theorem pushTo_eq_some (ms : List Monkey) (t v : Nat) (ht : t < ms.length) :
    ∃ ms', pushTo ms t v = some ms' ∧ ms'.length = ms.length ∧
      ms'.map (fun x => x.test) = ms.map (fun x => x.test) := by
  induction ms generalizing t with
  | nil => simp at ht
  | cons mk rest ih =>
    cases t with
    | zero =>
      exact ⟨{ mk with items := mk.items ++ [v] } :: rest, rfl, by simp, by simp⟩
    | succ t =>
      have ht' : t < rest.length := by simpa using ht
      obtain ⟨rest', h1, h2, h3⟩ := ih t ht'
      refine ⟨mk :: rest', ?_, by simp [h2], by simp [h3]⟩
      simp only [pushTo, h1]

/-- `drainAt` succeeds for in-range indices, returns an actor of the list
and preserves the number of actors and every actor's routing test. -/
theorem drainAt_eq_some (ms : List Monkey) (m : Nat) (hm : m < ms.length) :
    ∃ mk ms', drainAt ms m = some (mk, ms') ∧ mk ∈ ms ∧ ms'.length = ms.length ∧
      ms'.map (fun x => x.test) = ms.map (fun x => x.test) := by
  induction ms generalizing m with
  | nil => simp at hm
  | cons mk rest ih =>
    cases m with
    | zero =>
      refine ⟨mk, _, rfl, List.mem_cons_self mk rest, by simp, by simp⟩
    | succ m =>
      have hm' : m < rest.length := by simpa using hm
      obtain ⟨found, rest', h1, h2, h3, h4⟩ := ih m hm'
      refine ⟨found, mk :: rest', ?_, List.mem_cons_of_mem mk h2, by simp [h3], by simp [h4]⟩
      simp only [drainAt, h1]

/-- The routing decision is one of the two send-to fields. -/
theorem route_cases (tst : Test) (item : Nat) :
    route tst item = tst.if_true_send_to ∨ route tst item = tst.if_false_send_to := by
  unfold route
  cases Nat.beq (Nat.mod item tst.divisible_by) 0 <;> simp

/-- One item dispatch succeeds when the divisor product and divider are
nonzero and the inspecting actor's two targets are in range; the count and
the tests of the actors are preserved. -/
theorem processItem_eq_some (dp wd : Nat) (op : Operation) (tst : Test) (item : Nat)
    (ms : List Monkey) (hdp : dp ≠ 0) (hwd : wd ≠ 0)
    (h1 : tst.if_true_send_to < ms.length) (h2 : tst.if_false_send_to < ms.length) :
    ∃ ms', processItem dp wd op tst item ms = some ms' ∧ ms'.length = ms.length ∧
      ms'.map (fun x => x.test) = ms.map (fun x => x.test) := by
  have hb1 : Nat.beq dp 0 = false := by
    cases hb : Nat.beq dp 0 with
    | true => exact absurd (Nat.eq_of_beq_eq_true hb) hdp
    | false => rfl
  have hb2 : Nat.beq wd 0 = false := by
    cases hb : Nat.beq wd 0 with
    | true => exact absurd (Nat.eq_of_beq_eq_true hb) hwd
    | false => rfl
  have htr : route tst (Nat.div (Operation.apply op (Nat.mod item dp)) wd) < ms.length := by
    rcases route_cases tst (Nat.div (Operation.apply op (Nat.mod item dp)) wd) with h | h <;>
      rw [h] <;> assumption
  obtain ⟨ms', hp, hl, ht⟩ := pushTo_eq_some ms _ _ htr
  exact ⟨ms', by simp only [processItem, hb1, hb2, cond]; exact hp, hl, ht⟩

/-- The item loop of one turn succeeds and preserves count and tests. -/
theorem processItems_eq_some (dp wd : Nat) (op : Operation) (tst : Test)
    (items : List Nat) (ms : List Monkey) (hdp : dp ≠ 0) (hwd : wd ≠ 0)
    (h1 : tst.if_true_send_to < ms.length) (h2 : tst.if_false_send_to < ms.length) :
    ∃ ms', processItems dp wd op tst items ms = some ms' ∧ ms'.length = ms.length ∧
      ms'.map (fun x => x.test) = ms.map (fun x => x.test) := by
  induction items generalizing ms with
  | nil => exact ⟨ms, rfl, rfl, rfl⟩
  | cons item rest ih =>
    obtain ⟨ms1, hp, hl, ht⟩ := processItem_eq_some dp wd op tst item ms hdp hwd h1 h2
    obtain ⟨ms2, hp2, hl2, ht2⟩ := ih ms1 (hl ▸ h1) (hl ▸ h2)
    refine ⟨ms2, ?_, hl2.trans hl, ht2.trans ht⟩
    simp only [processItems, hp, hp2]

/-- Transfer of the in-range-targets property along test preservation. -/
theorem targets_ok_transfer (ms ms' : List Monkey)
    (hl : ms'.length = ms.length)
    (ht : ms'.map (fun x => x.test) = ms.map (fun x => x.test))
    (h : ∀ m ∈ ms, m.test.if_true_send_to < ms.length ∧ m.test.if_false_send_to < ms.length) :
    ∀ m ∈ ms', m.test.if_true_send_to < ms'.length ∧ m.test.if_false_send_to < ms'.length := by
  intro m hm
  have : m.test ∈ ms'.map (fun x => x.test) := List.mem_map_of_mem _ hm
  rw [ht] at this
  obtain ⟨m0, hm0, he⟩ := List.mem_map.mp this
  rw [hl, ← he]
  exact h m0 hm0

/-- One actor turn succeeds for in-range turn indices when every actor's
targets are in range; count and tests are preserved. -/
theorem monkeyTurn_eq_some (dp wd : Nat) (ms : List Monkey) (m : Nat)
    (hdp : dp ≠ 0) (hwd : wd ≠ 0) (hm : m < ms.length)
    (htgt : ∀ x ∈ ms, x.test.if_true_send_to < ms.length ∧ x.test.if_false_send_to < ms.length) :
    ∃ ms', monkeyTurn dp wd ms m = some ms' ∧ ms'.length = ms.length ∧
      ms'.map (fun x => x.test) = ms.map (fun x => x.test) := by
  obtain ⟨mk, ms1, hd, hmem, hl, ht⟩ := drainAt_eq_some ms m hm
  obtain ⟨hb1, hb2⟩ := htgt mk hmem
  obtain ⟨ms2, hp, hl2, ht2⟩ := processItems_eq_some dp wd mk.operation mk.test mk.items ms1
    hdp hwd (hl ▸ hb1) (hl ▸ hb2)
  refine ⟨ms2, ?_, hl2.trans hl, ht2.trans ht⟩
  simp only [monkeyTurn, hd, hp]

/-- The turn loop succeeds when all its indices are in range. -/
theorem turnsLoop_eq_some (dp wd : Nat) (idxs : List Nat) (ms : List Monkey)
    (hdp : dp ≠ 0) (hwd : wd ≠ 0)
    (hidx : ∀ i ∈ idxs, i < ms.length)
    (htgt : ∀ x ∈ ms, x.test.if_true_send_to < ms.length ∧ x.test.if_false_send_to < ms.length) :
    ∃ ms', turnsLoop dp wd idxs ms = some ms' ∧ ms'.length = ms.length ∧
      ms'.map (fun x => x.test) = ms.map (fun x => x.test) := by
  induction idxs generalizing ms with
  | nil => exact ⟨ms, rfl, rfl, rfl⟩
  | cons i rest ih =>
    obtain ⟨ms1, hp, hl, ht⟩ := monkeyTurn_eq_some dp wd ms i hdp hwd
      (hidx i (List.mem_cons_self i rest)) htgt
    obtain ⟨ms2, hp2, hl2, ht2⟩ := ih ms1
      (fun j hj => hl ▸ hidx j (List.mem_cons_of_mem i hj))
      (targets_ok_transfer ms ms1 hl ht htgt)
    refine ⟨ms2, ?_, hl2.trans hl, ht2.trans ht⟩
    simp only [turnsLoop, hp, hp2]

/-- One round succeeds and preserves count and tests. -/
theorem runRound_eq_some (dp wd : Nat) (ms : List Monkey)
    (hdp : dp ≠ 0) (hwd : wd ≠ 0)
    (htgt : ∀ x ∈ ms, x.test.if_true_send_to < ms.length ∧ x.test.if_false_send_to < ms.length) :
    ∃ ms', runRound dp wd ms = some ms' ∧ ms'.length = ms.length ∧
      ms'.map (fun x => x.test) = ms.map (fun x => x.test) :=
  turnsLoop_eq_some dp wd (List.range ms.length) ms hdp hwd
    (fun _ hi => List.mem_range.mp hi) htgt

/-- The whole round loop terminates with a result whenever the divisor
product and the divider are nonzero and every routing target is in range. -/
theorem runIters_isSome (dp wd n : Nat) (ms : List Monkey)
    (hdp : dp ≠ 0) (hwd : wd ≠ 0)
    (htgt : ∀ x ∈ ms, x.test.if_true_send_to < ms.length ∧ x.test.if_false_send_to < ms.length) :
    (runIters dp wd n ms).isSome := by
  induction n generalizing ms with
  | zero => simp [runIters]
  | succ n ih =>
    obtain ⟨ms1, hp, hl, ht⟩ := runRound_eq_some dp wd ms hdp hwd htgt
    simp only [runIters, hp]
    exact ih ms1 (targets_ok_transfer ms ms1 hl ht htgt)

end Day11
namespace Day11

/-- Actors used to refute the unconditional modulo-reduction claim: the
true product of the two moduli is `3 * 6148914691236517206 = 2 ^ 64 + 2`,
which wraps to `2` in `u64`. -/
def c4m0 : Monkey := ⟨0, 0, [], .Add .Old (.Num 0), ⟨3, 0, 1⟩⟩

def c4m1 : Monkey := ⟨0, 1, [], .Add .Old (.Num 0), ⟨6148914691236517206, 0, 1⟩⟩

def c4CexMonkeys : List Monkey := [c4m0, c4m1]

/-- An actor configuration whose first routing target (actor 5) is out of
range; every field is producible by the day 11 parser. -/
def c8BadMonkeys : List Monkey := [⟨0, 0, [1], .Add .Old (.Num 1), ⟨1, 5, 5⟩⟩]

end Day11

/-- C4 (amended): as long as the true product of all actors' moduli fits in
`u64` (so the wrapped divisor product is the true product), the routing
decision of every actor is unchanged by reducing the value modulo the
divisor product. -/
theorem c4_route_mod_invariant (monkeys : List Day11.Monkey) (m : Day11.Monkey)
    (hm : m ∈ monkeys) (v : Nat)
    (hno : (monkeys.map (fun mk => mk.test.divisible_by)).prod < Day11.U64) :
    Day11.route m.test (v % Day11.divisorProduct monkeys) = Day11.route m.test v := by
  have hdvd : m.test.divisible_by ∣ (monkeys.map (fun mk => mk.test.divisible_by)).prod :=
    List.dvd_prod (List.mem_map_of_mem _ hm)
  have hdp : Day11.divisorProduct monkeys = (monkeys.map (fun mk => mk.test.divisible_by)).prod := by
    unfold Day11.divisorProduct
    exact Nat.mod_eq_of_lt hno
  rw [hdp]
  have hmm : Nat.mod (Nat.mod v ((monkeys.map (fun mk => mk.test.divisible_by)).prod))
      m.test.divisible_by = Nat.mod v m.test.divisible_by :=
    Nat.mod_mod_of_dvd v hdvd
  unfold Day11.route
  rw [show (v % (monkeys.map (fun mk => mk.test.divisible_by)).prod) =
      Nat.mod v ((monkeys.map (fun mk => mk.test.divisible_by)).prod) from rfl, hmm]

/-- C4 witness: the invariant applied to the documented 4-actor input, its
first actor and the value `10 ^ 9`. -/
theorem c4_route_mod_invariant_witness :
    (Day11.day11Example.headD Day11.c4m0) ∈ Day11.day11Example ∧
    ((Day11.day11Example.map (fun mk => mk.test.divisible_by)).prod < Day11.U64) ∧
    Day11.route (Day11.day11Example.headD Day11.c4m0).test
        (1000000000 % Day11.divisorProduct Day11.day11Example) =
      Day11.route (Day11.day11Example.headD Day11.c4m0).test 1000000000 :=
  ⟨by decide, by decide,
    c4_route_mod_invariant Day11.day11Example (Day11.day11Example.headD Day11.c4m0)
      (by decide) 1000000000 (by decide)⟩

/-- C4 counterexample: with moduli `3` and `6148914691236517206` the `u64`
divisor product wraps to `2`, and reducing the value `3` modulo it flips
the first actor's routing decision. -/
theorem c4_counterexample :
    Day11.c4m0 ∈ Day11.c4CexMonkeys ∧
    Day11.route Day11.c4m0.test (3 % Day11.divisorProduct Day11.c4CexMonkeys) ≠
      Day11.route Day11.c4m0.test 3 := by
  constructor
  · decide
  · decide

/-- C8 counterexample: a parseable single-actor configuration that routes
to the out-of-range actor 5 makes `run_challenge1` abort (the vec-index
panic, modelled by `none`) instead of returning a value or typed error. -/
theorem c8_counterexample : Day11.run_challenge1 Day11.c8BadMonkeys = none := by decide

/-- C8 (amended): the cyclic-simulation round loop of day 11 always
returns a result - never aborts - provided the worry divider is nonzero,
the (wrapped) divisor product is nonzero and every actor's two routing
targets are smaller than the number of actors; without those provisos the
loop can abort, as the counterexample shows. -/
theorem c8_run_loop_total (iterations wd : Nat) (monkeys : List Day11.Monkey)
    (hwd : wd ≠ 0) (hdp : Day11.divisorProduct monkeys ≠ 0)
    (htgt : ∀ m ∈ monkeys, m.test.if_true_send_to < monkeys.length ∧
      m.test.if_false_send_to < monkeys.length) :
    (Day11.run_loop iterations wd monkeys).isSome :=
  Day11.runIters_isSome (Day11.divisorProduct monkeys) wd iterations monkeys hdp hwd htgt

/-- C8 witness: the round loop applied to the documented input, 20 rounds,
divider 3. -/
theorem c8_run_loop_total_witness :
    (3 : Nat) ≠ 0 ∧ Day11.divisorProduct Day11.day11Example ≠ 0 ∧
    (∀ m ∈ Day11.day11Example, m.test.if_true_send_to < Day11.day11Example.length ∧
      m.test.if_false_send_to < Day11.day11Example.length) ∧
    (Day11.run_loop 20 3 Day11.day11Example).isSome :=
  ⟨by decide, by decide, by decide,
    c8_run_loop_total 20 3 Day11.day11Example (by decide) (by decide) (by decide)⟩

/-- C3: on the documented 4-actor cyclic-simulation input, 20 rounds with
worry divider 3 make the product of the two largest inspection counters
10605 (`run_challenge1`), and 10000 rounds with modulo-reduction only and
no division make it 2713310158 (`run_challenge2`). -/
theorem c3_day11_documented_products :
    Day11.run_challenge1 Day11.day11Example = some 10605 ∧
    Day11.run_challenge2 Day11.day11Example = some 2713310158 := by
  constructor
  · decide!
  · show (Day11.runIters (Day11.divisorProduct Day11.day11Example) 1 10000 Day11.day11Example).map
      Day11.topTwoProduct = some 2713310158
    rw [show Day11.divisorProduct Day11.day11Example = 96577 from rfl, Day11.day11_runIters_10000]
    decide!

namespace Day7

/-- From `day7.rs` `enum Entry`: a `dir <name>` or `<size> <name>` listing
line (`Utf8PathBuf` names are modelled as strings). -/
inductive Entry where
  | Dir : String → Entry
  | File : Nat → String → Entry
deriving DecidableEq

/-- From `day7.rs` `enum Command`: `ls` or `cd <path>`. -/
inductive Command where
  | List : Command
  | ChangeDirectory : String → Command
deriving DecidableEq

/-- From `day7.rs` `enum Line`. -/
inductive Line where
  | Command : Command → Line
  | Entry : Entry → Line
deriving DecidableEq

/-- From `day7.rs` `enum Error` (the `Io` variant never arises in the
embedded core; `Nom` carries the offending line). -/
inductive Error where
  | Io : Error
  | Nom : String → Error
  | NoDirectoryFound : Error
deriving DecidableEq

/-- The character class of `parse_path`:
`take_while1(|c| c.is_alphabetic() || c == '.' || c == '/')`. -/
def isPathChar (c : Char) : Bool := c.isAlpha || c == '.' || c == '/'

/-- Longest matching span, as consumed by nom's `take_while1`. -/
def spanP (p : Char → Bool) : List Char → (List Char × List Char)
  | [] => ([], [])
  | c :: rest =>
    if p c then
      let s := spanP p rest
      (c :: s.1, s.2)
    else ([], c :: rest)

/-- From `day7.rs` `parse_path`; fails on an empty span (`take_while1`). -/
def parse_path (l : List Char) : Option (String × List Char) :=
  match spanP isPathChar l with
  | ([], _) => none
  | (taken, rest) => some (String.mk taken, rest)

/-- nom's `complete::u64`: one or more digits, failing on values that
overflow `u64`. -/
def parse_u64 (l : List Char) : Option (Nat × List Char) :=
  match spanP Char.isDigit l with
  | ([], _) => none
  | (ds, rest) =>
    let n := ds.foldl (fun acc c => acc * 10 + (c.toNat - 48)) 0
    if n < 18446744073709551616 then some (n, rest) else none

/-- nom's `tag`. -/
def tag (t : String) (l : List Char) : Option (List Char) :=
  if t.data.isPrefixOf l then some (l.drop t.data.length) else none

/-- From `day7.rs` `parse_entry`, file alternative. -/
def parse_file (l : List Char) : Option (Entry × List Char) :=
  match parse_u64 l with
  | none => none
  | some (size, l1) =>
    match tag " " l1 with
    | none => none
    | some l2 =>
      match parse_path l2 with
      | none => none
      | some (name, l3) => some (.File size name, l3)

/-- From `day7.rs` `parse_entry`, dir alternative. -/
def parse_dir (l : List Char) : Option (Entry × List Char) :=
  match tag "dir " l with
  | none => none
  | some l1 =>
    match parse_path l1 with
    | none => none
    | some (name, l2) => some (.Dir name, l2)

/-- From `day7.rs` `parse_entry`: file first, then dir. -/
def parse_entry (l : List Char) : Option (Entry × List Char) :=
  match parse_file l with
  | some r => some r
  | none => parse_dir l

/-- From `day7.rs` `parse_command`: `"$ "` then `ls` or `cd <path>`. -/
def parse_command (l : List Char) : Option (Command × List Char) :=
  match tag "$ " l with
  | none => none
  | some l1 =>
    match tag "ls" l1 with
    | some l2 => some (.List, l2)
    | none =>
      match tag "cd " l1 with
      | none => none
      | some l2 =>
        match parse_path l2 with
        | none => none
        | some (name, l3) => some (.ChangeDirectory name, l3)

/-- From `day7.rs` `parse_line`: entry first, then command. -/
def parse_line (l : List Char) : Option (Line × List Char) :=
  match parse_entry l with
  | some (e, rest) => some (.Entry e, rest)
  | none =>
    match parse_command l with
    | none => none
    | some (c, rest) => some (.Command c, rest)

/-- `all_consuming(parse_line)` applied to one input line. -/
def parse_line_all (s : String) : Option Line :=
  match parse_line s.data with
  | some (ln, []) => some ln
  | _ => none

/-- From `day7.rs` `struct Node`.  The `Rc<RefCell<_>>` parent back-pointer
of the source is replaced by keeping the cursor as the path of names from
the root (the spec's §9 arena advice); `children` is the name-keyed map. -/
inductive Node where
  | mk : String → Nat → List (String × Node) → Node

def Node.name : Node → String
  | .mk n _ _ => n

def Node.size : Node → Nat
  | .mk _ s _ => s

def Node.children : Node → List (String × Node)
  | .mk _ _ c => c

/-- From `day7.rs` `Node::new_dir` (size 0, no children). -/
def Node.new_dir (name : String) : Node := .mk name 0 []

/-- From `day7.rs` `Node::new_file`. -/
def Node.new_file (name : String) (size : Nat) : Node := .mk name size []

/-- From `day7.rs` `Node::is_dir`: `self.size == 0`. -/
def Node.is_dir (n : Node) : Bool := n.size == 0

/-- The `u64` modulus: additions that overflow it wrap in the release
profile (debug builds abort instead). -/
def U64 : Nat := 18446744073709551616

mutual

/-- From `day7.rs` `Node::total_size`: own size plus the recursively
summed total size of all children, recomputed on each call; every
addition is a `u64` addition and wraps on overflow (release profile;
debug builds abort). -/
def Node.total_size : Node → Nat
  | .mk _ sz cs => (sz + totalSizeChildren cs) % U64

def totalSizeChildren : List (String × Node) → Nat
  | [] => 0
  | kc :: rest => (Node.total_size kc.2 + totalSizeChildren rest) % U64

end

mutual

/-- From `day7.rs` `all_dirs`: the node itself followed by the recursive
enumeration of those children classified as directories. -/
def all_dirs : Node → List Node
  | .mk nm sz cs => .mk nm sz cs :: allDirsChildren cs

def allDirsChildren : List (String × Node) → List Node
  | [] => []
  | kc :: rest => (if kc.2.is_dir then all_dirs kc.2 else []) ++ allDirsChildren rest

end

mutual

/-- Every node of a subtree, in preorder (used to state what
`total_size` computes). -/
def allNodes : Node → List Node
  | .mk nm sz cs => .mk nm sz cs :: allNodesChildren cs

def allNodesChildren : List (String × Node) → List Node
  | [] => []
  | kc :: rest => allNodes kc.2 ++ allNodesChildren rest

end

/-- A child of the given name exists in a children map (the
`children.entry(name)` hit case of `read_input`). -/
def hasChildName (cs : List (String × Node)) (name : String) : Bool :=
  cs.any (fun kc => kc.1 == name)

/-- The `or_insert_with` pattern of `read_input` (day7.rs lines 214-249):
walk the cursor path and add the child under its name unless a child of
that name already exists; an existing child is never replaced or
resized. -/
def insertAt : Node → List String → String → Node → Node
  | .mk nm sz cs, [], name, child =>
    if hasChildName cs name then .mk nm sz cs
    else .mk nm sz (cs ++ [(name, child)])
  | .mk nm sz cs, seg :: rest, name, child =>
    .mk nm sz (cs.map (fun kc => if kc.1 == seg then (kc.1, insertAt kc.2 rest name child) else kc))

/-- The name carried by a listing entry. -/
def entryName : Entry → String
  | .Dir name => name
  | .File _ name => name

/-- The listing-entry action of `read_input` (the spec's `record_entry`):
insert or reuse a child under the cursor, without moving the cursor (a
`dir` line inserts an empty directory node, a file line a leaf carrying
its size). -/
def record_entry (t : Node) (path : List String) (e : Entry) : Node :=
  match e with
  | .Dir name => insertAt t path name (Node.new_dir name)
  | .File size name => insertAt t path name (Node.new_file name size)

/-- A whole listing processed in order at a fixed cursor. -/
def record_entries (t : Node) (path : List String) (es : List Entry) : Node :=
  es.foldl (fun acc e => record_entry acc path e) t

/-- One transcript line applied to the tree and cursor (day7.rs lines
206-251): `cd /` resets the cursor, `cd ..` moves up (staying at the root
when already there, the `unwrap_or_else(root)` of line 213), `cd name`
inserts the directory if absent and descends, `ls` does nothing, and an
entry inserts a child under the cursor without moving it. -/
def applyLine : Node × List String → Line → Node × List String
  | (root, path), .Command .List => (root, path)
  | (root, path), .Command (.ChangeDirectory name) =>
    if name == "/" then (root, [])
    else if name == ".." then (root, path.dropLast)
    else (insertAt root path name (Node.new_dir name), path ++ [name])
  | (root, path), .Entry e => (record_entry root path e, path)

/-- The line loop of `read_input`. -/
def readLines : List String → Node × List String → Except Error Node
  | [], st => .ok st.1
  | line :: rest, st =>
    match parse_line_all line with
    | none => .error (.Nom line)
    | some ln => readLines rest (applyLine st ln)

/-- From `day7.rs` `read_input`, over the already-split text lines (the
`BufReader::lines` file access is the external input phase). -/
def read_input (lines : List String) : Except Error Node :=
  readLines lines (Node.new_dir "/", [])

/-- From `day7.rs` `run_challenge1`: sum of all enumerated directory total
sizes that are at most 100000. -/
def run_challenge1 (lines : List String) : Except Error Nat :=
  match read_input lines with
  | .error e => .error e
  | .ok nodes => .ok (((all_dirs nodes).map Node.total_size).filter (fun s => s ≤ 100000)).sum

/-- Wrapping `u64` subtraction (release-profile Rust wraps on overflow). -/
def u64_sub (a b : Nat) : Nat := (((a : Int) - (b : Int)) % (18446744073709551616 : Int)).toNat

/-- From `day7.rs` `run_challenge2`: smallest directory total size at least
`30000000 - (70000000 - used)`; both subtractions are `u64` and wrap. -/
def run_challenge2 (lines : List String) : Except Error Nat :=
  match read_input lines with
  | .error e => .error e
  | .ok root =>
    let used_space := root.total_size
    let free_space := u64_sub 70000000 used_space
    let minimum_space_to_free := u64_sub 30000000 free_space
    match (((all_dirs root).map Node.total_size).filter
        (fun s => minimum_space_to_free ≤ s)).min? with
    | none => .error .NoDirectoryFound
    | some x => .ok x

/-- Modelled from the spec: the documented 23-line directory-command
transcript (`resources/day7_example.txt` is not under `src/`). -/
def day7ExampleLines : List String :=
  [ "$ cd /", "$ ls", "dir a", "14848514 b.txt", "8504156 c.dat", "dir d",
    "$ cd a", "$ ls", "dir e", "29116 f", "2557 g", "62596 h.lst",
    "$ cd e", "$ ls", "584 i",
    "$ cd ..", "$ cd ..", "$ cd d", "$ ls",
    "4060174 j", "8033020 d.log", "5626152 d.ext", "7214296 k" ]

end Day7


namespace Day7

/-- Every node reached by following the cursor path (every branch of that
name, so the notion is meaningful on any tree) has a child of the given
name. -/
def allChildrenAt : Node → List String → String → Prop
  | n, [], name => hasChildName n.children name = true
  | n, seg :: rest, name => ∀ kc ∈ n.children, kc.1 = seg → allChildrenAt kc.2 rest name

/-- Inserting a child establishes its presence at the cursor. -/
theorem allChildrenAt_insertAt_self (p : List String) (t : Node) (name : String) (child : Node) :
    allChildrenAt (insertAt t p name child) p name := by
  induction p generalizing t with
  | nil =>
    cases t with
    | mk nm sz cs =>
      cases h : hasChildName cs name with
      | true => simp [insertAt, h, allChildrenAt, Node.children]
      | false =>
        simp only [insertAt, h, Bool.false_eq_true, if_false]
        simp [allChildrenAt, Node.children, hasChildName]
  | cons seg rest ih =>
    cases t with
    | mk nm sz cs =>
      intro kc hkc hkey
      simp only [insertAt, Node.children] at hkc
      obtain ⟨kc0, hkc0, hf⟩ := List.mem_map.mp hkc
      cases h : (kc0.1 == seg) with
      | true =>
        rw [h] at hf
        simp only [if_true] at hf
        rw [← hf]
        exact ih kc0.2
      | false =>
        rw [h] at hf
        simp only [Bool.false_eq_true, if_false] at hf
        rw [← hf] at hkey
        rw [hkey] at h
        simp at h

/-- Inserting anything at the same cursor preserves presence. -/
theorem allChildrenAt_insertAt_mono (p : List String) (t : Node) (name n2 : String) (c2 : Node)
    (h : allChildrenAt t p name) : allChildrenAt (insertAt t p n2 c2) p name := by
  induction p generalizing t with
  | nil =>
    cases t with
    | mk nm sz cs =>
      simp only [allChildrenAt, Node.children] at h
      cases hh : hasChildName cs n2 with
      | true => simpa [insertAt, hh, allChildrenAt, Node.children] using h
      | false =>
        simp only [insertAt, hh, Bool.false_eq_true, if_false]
        simp only [allChildrenAt, Node.children, hasChildName, List.any_append, List.any_cons,
          List.any_nil, Bool.or_false]
        simp only [hasChildName] at h
        rw [h]
        rfl
  | cons seg rest ih =>
    cases t with
    | mk nm sz cs =>
      intro kc hkc hkey
      simp only [insertAt, Node.children] at hkc
      obtain ⟨kc0, hkc0, hf⟩ := List.mem_map.mp hkc
      cases hh : (kc0.1 == seg) with
      | true =>
        rw [hh] at hf
        simp only [if_true] at hf
        rw [← hf]
        exact ih kc0.2 (h kc0 hkc0 (by simpa using hh))
      | false =>
        rw [hh] at hf
        simp only [Bool.false_eq_true, if_false] at hf
        rw [← hf] at hkey ⊢
        exact h kc0 hkc0 hkey

/-- Inserting an already-present name changes nothing. -/
theorem insertAt_eq_self (p : List String) (t : Node) (name : String) (child : Node)
    (h : allChildrenAt t p name) : insertAt t p name child = t := by
  induction p generalizing t with
  | nil =>
    cases t with
    | mk nm sz cs =>
      simp only [allChildrenAt, Node.children] at h
      simp [insertAt, h]
  | cons seg rest ih =>
    cases t with
    | mk nm sz cs =>
      simp only [insertAt, Node.mk.injEq, true_and]
      have hmap : ∀ kc ∈ cs,
          (if kc.1 == seg then (kc.1, insertAt kc.2 rest name child) else kc) = kc := by
        intro kc hkc
        cases hh : (kc.1 == seg) with
        | true =>
          simp only [hh, if_true]
          rw [ih kc.2 (h kc hkc (by simpa using hh))]
        | false => simp [hh]
      calc cs.map (fun kc => if kc.1 == seg then (kc.1, insertAt kc.2 rest name child) else kc)
          = cs.map id := List.map_congr_left hmap
        _ = cs := List.map_id cs

/-- `record_entry` is an insertion of the entry's name. -/
theorem record_entry_eq_insertAt (t : Node) (p : List String) (e : Entry) :
    ∃ c, record_entry t p e = insertAt t p (entryName e) c := by
  cases e with
  | Dir name => exact ⟨Node.new_dir name, rfl⟩
  | File size name => exact ⟨Node.new_file name size, rfl⟩

/-- Recording a listing preserves presence at the cursor. -/
theorem allChildrenAt_record_entries (p : List String) (es : List Entry) (t : Node) (name : String)
    (h : allChildrenAt t p name) : allChildrenAt (record_entries t p es) p name := by
  induction es generalizing t with
  | nil => exact h
  | cons e rest ih =>
    obtain ⟨c, hc⟩ := record_entry_eq_insertAt t p e
    exact ih (record_entry t p e) (hc ▸ allChildrenAt_insertAt_mono p t name (entryName e) c h)

/-- After a listing has been recorded, each of its entries is present. -/
theorem record_entries_establishes (p : List String) (es : List Entry) (t : Node) :
    ∀ e ∈ es, allChildrenAt (record_entries t p es) p (entryName e) := by
  induction es generalizing t with
  | nil => intro e he; cases he
  | cons e0 rest ih =>
    intro e he
    rcases List.mem_cons.mp he with rfl | he
    · obtain ⟨c, hc⟩ := record_entry_eq_insertAt t p e
      exact allChildrenAt_record_entries p rest (record_entry t p e)
        (entryName e) (hc ▸ allChildrenAt_insertAt_self p t (entryName e) c)
    · exact ih (record_entry t p e0) e he

/-- Recording a listing whose entries are all present changes nothing. -/
theorem record_entries_noop (p : List String) (es : List Entry) (t : Node)
    (h : ∀ e ∈ es, allChildrenAt t p (entryName e)) : record_entries t p es = t := by
  induction es with
  | nil => rfl
  | cons e rest ih =>
    obtain ⟨c, hc⟩ := record_entry_eq_insertAt t p e
    have he : record_entry t p e = t := by
      rw [hc]
      exact insertAt_eq_self p t (entryName e) c (h e (List.mem_cons_self e rest))
    show record_entries (record_entry t p e) p rest = t
    rw [he]
    exact ih (fun e2 he2 => h e2 (List.mem_cons_of_mem e he2))

/-- Number of children of the node reached by the cursor (0 when the path
does not exist). -/
def childCountAt : Node → List String → Nat
  | n, [] => n.children.length
  | n, seg :: rest =>
    match n.children.find? (fun kc => kc.1 == seg) with
    | none => 0
    | some kc => childCountAt kc.2 rest

end Day7

/-- C5: re-recording the same directory listing a second time at the same
cursor leaves the tree (hence the cursor node's child count and every
node's total size) unchanged. -/
theorem c5_reinsert_idempotent (t : Day7.Node) (p : List String) (es : List Day7.Entry) :
    Day7.record_entries (Day7.record_entries t p es) p es = Day7.record_entries t p es ∧
    Day7.childCountAt (Day7.record_entries (Day7.record_entries t p es) p es) p =
      Day7.childCountAt (Day7.record_entries t p es) p ∧
    (Day7.record_entries (Day7.record_entries t p es) p es).total_size =
      (Day7.record_entries t p es).total_size := by
  have h : Day7.record_entries (Day7.record_entries t p es) p es = Day7.record_entries t p es :=
    Day7.record_entries_noop p es (Day7.record_entries t p es)
      (Day7.record_entries_establishes p es t)
  exact ⟨h, by rw [h], by rw [h]⟩

/-- C2: on the documented 23-line transcript, challenge 1 returns 95437
and challenge 2 returns 24933642. -/
theorem c2_day7_documented_example :
    Day7.run_challenge1 Day7.day7ExampleLines = .ok 95437 ∧
    Day7.run_challenge2 Day7.day7ExampleLines = .ok 24933642 := by
  constructor
  · rfl
  · rfl

namespace Day7

/-- Structural induction over the nested tree: to prove a property of all
nodes it is enough to prove it for a node assuming it for its children. -/
theorem Node.inductionOn (P : Node → Prop)
    (h : ∀ nm sz cs, (∀ kc ∈ cs, P kc.2) → P (.mk nm sz cs)) : ∀ n, P n
  | .mk nm sz cs => h nm sz cs (fun kc _hkc => Node.inductionOn P h kc.2)
decreasing_by
  have h1 := List.sizeOf_lt_of_mem _hkc
  cases kc
  simp at h1 ⊢
  omega

/-- The child-sum helper is the plain sum of the children's `total_size`
values reduced modulo `2^64`. -/
theorem totalSizeChildren_eq_map_sum (cs : List (String × Node)) :
    totalSizeChildren cs = (cs.map (fun kc => kc.2.total_size)).sum % U64 := by
  induction cs with
  | nil => rfl
  | cons kc rest ih =>
    rw [totalSizeChildren, ih]
    simp only [List.map_cons, List.sum_cons]
    unfold U64
    omega

/-- `total_size` is the sum of the `size` field over the whole subtree,
reduced modulo `2^64`. -/
theorem total_size_eq_allNodes_sum :
    ∀ n : Node, n.total_size = ((allNodes n).map Node.size).sum % U64 := by
  apply Node.inductionOn
  intro nm sz cs ih
  show Node.total_size (.mk nm sz cs) = ((allNodes (.mk nm sz cs)).map Node.size).sum % U64
  rw [Node.total_size, allNodes]
  simp only [List.map_cons, List.sum_cons, Node.size]
  have key : ∀ cs2 : List (String × Node), (∀ kc ∈ cs2, kc.2.total_size =
      ((allNodes kc.2).map Node.size).sum % U64) →
      totalSizeChildren cs2 = ((allNodesChildren cs2).map Node.size).sum % U64 := by
    intro cs2 hcs2
    induction cs2 with
    | nil => rfl
    | cons kc rest ih2 =>
      rw [totalSizeChildren, allNodesChildren]
      simp only [List.map_append, List.sum_append]
      rw [hcs2 kc (List.mem_cons_self kc rest),
        ih2 (fun kc2 hkc2 => hcs2 kc2 (List.mem_cons_of_mem kc hkc2))]
      unfold U64
      omega
  rw [key cs ih]
  unfold U64
  omega

/-- A parseable transcript recording two `u64`-maximal files at the
root. -/
def c6CexLines : List String :=
  ["$ cd /", "$ ls", "18446744073709551615 a", "18446744073709551615 b"]

/-- The tree built from the transcript above. -/
def c6CexTree : Node :=
  .mk "/" 0 [("a", .mk "a" 18446744073709551615 []),
             ("b", .mk "b" 18446744073709551615 [])]

end Day7

/-- C6 counterexample: on the tree built from a parseable transcript
holding two files of size `2^64 - 1`, `total_size` of the root is
`2^64 - 2` - the `u64` sum wraps (release profile; debug builds abort) -
and not the exact own-size-plus-children sum `2^65 - 2`. -/
theorem c6_counterexample :
    Day7.read_input Day7.c6CexLines = Except.ok Day7.c6CexTree ∧
    Day7.c6CexTree.total_size ≠
      Day7.c6CexTree.size +
        (Day7.c6CexTree.children.map (fun kc => kc.2.total_size)).sum ∧
    Day7.c6CexTree.total_size = 18446744073709551614 ∧
    Day7.c6CexTree.size +
        (Day7.c6CexTree.children.map (fun kc => kc.2.total_size)).sum =
      36893488147419103230 := by
  exact ⟨rfl, by decide, by decide, by decide⟩

/-- C6 (amended): for every node, `total_size` is the node's own size plus
the sum of `total_size` over its children, reduced modulo `2^64` (the
`u64` additions wrap in the release profile; debug builds abort on
overflow), recomputed by structural recursion with no cached aggregate -
equivalently, the sum of the `size` field over the whole subtree modulo
`2^64`. -/
theorem c6_total_size_recursion (n : Day7.Node) :
    n.total_size =
      (n.size + (n.children.map (fun kc => kc.2.total_size)).sum) % Day7.U64 ∧
    n.total_size = ((Day7.allNodes n).map Day7.Node.size).sum % Day7.U64 := by
  constructor
  · cases n with
    | mk nm sz cs =>
      rw [Day7.Node.total_size, Day7.totalSizeChildren_eq_map_sum]
      show (sz + (cs.map (fun kc => kc.2.total_size)).sum % Day7.U64) % Day7.U64 =
        (sz + (cs.map (fun kc => kc.2.total_size)).sum) % Day7.U64
      unfold Day7.U64
      omega
  · exact Day7.total_size_eq_allNodes_sum n

namespace Day7

/-- One `all_dirs` recursion step: `c` is a child of `r` and is classified
as a directory (size 0). -/
def zeroChildStep (r c : Node) : Prop :=
  (∃ k, (k, c) ∈ r.children) ∧ c.size = 0

/-- A node heads its own `all_dirs` enumeration. -/
theorem self_mem_all_dirs : ∀ n : Node, n ∈ all_dirs n
  | .mk nm sz cs => by
    rw [all_dirs]
    exact List.mem_cons_self _ _

/-- Membership in the children part of the enumeration. -/
theorem mem_allDirsChildren (cs : List (String × Node)) (x : Node) :
    x ∈ allDirsChildren cs ↔ ∃ kc ∈ cs, kc.2.is_dir = true ∧ x ∈ all_dirs kc.2 := by
  induction cs with
  | nil => simp [allDirsChildren]
  | cons kc rest ih =>
    rw [allDirsChildren]
    cases h : kc.2.is_dir with
    | true =>
      simp only [if_true, List.mem_append, ih]
      constructor
      · rintro (hx | ⟨kc2, hkc2, h1, h2⟩)
        · exact ⟨kc, List.mem_cons_self kc rest, h, hx⟩
        · exact ⟨kc2, List.mem_cons_of_mem kc hkc2, h1, h2⟩
      · rintro ⟨kc2, hkc2, h1, h2⟩
        rcases List.mem_cons.mp hkc2 with rfl | hkc2
        · exact Or.inl h2
        · exact Or.inr ⟨kc2, hkc2, h1, h2⟩
    | false =>
      simp only [Bool.false_eq_true, if_false, List.nil_append, ih]
      constructor
      · rintro ⟨kc2, hkc2, h1, h2⟩
        exact ⟨kc2, List.mem_cons_of_mem kc hkc2, h1, h2⟩
      · rintro ⟨kc2, hkc2, h1, h2⟩
        rcases List.mem_cons.mp hkc2 with rfl | hkc2
        · rw [h] at h1
          cases h1
        · exact ⟨kc2, hkc2, h1, h2⟩

/-- The first step of a transitive chain. -/
theorem transGen_first {α : Type} {r : α → α → Prop} {a b : α}
    (h : Relation.TransGen r a b) :
    ∃ c, r a c ∧ (c = b ∨ Relation.TransGen r c b) := by
  induction h with
  | single hab => exact ⟨_, hab, .inl rfl⟩
  | tail _ hbc ih =>
    obtain ⟨c, h1, h2⟩ := ih
    rcases h2 with rfl | h2
    · exact ⟨c, h1, .inr (Relation.TransGen.single hbc)⟩
    · exact ⟨c, h1, .inr (h2.tail hbc)⟩

/-- `all_dirs root` enumerates exactly the root itself plus every node
reachable from it through a nonempty chain of size-0 children. -/
theorem mem_all_dirs :
    ∀ root x : Node, x ∈ all_dirs root ↔ x = root ∨ Relation.TransGen zeroChildStep root x := by
  have main : ∀ root : Node, ∀ x : Node,
      x ∈ all_dirs root ↔ x = root ∨ Relation.TransGen zeroChildStep root x := by
    apply Node.inductionOn (P := fun root => ∀ x : Node,
      x ∈ all_dirs root ↔ x = root ∨ Relation.TransGen zeroChildStep root x)
    intro nm sz cs ih x
    rw [all_dirs]
    constructor
    · intro hx
      rcases List.mem_cons.mp hx with rfl | hx
      · exact Or.inl rfl
      · obtain ⟨kc, hkc, hdir, hmem⟩ := (mem_allDirsChildren cs x).mp hx
        have hstep : zeroChildStep (.mk nm sz cs) kc.2 := by
          refine ⟨⟨kc.1, ?_⟩, ?_⟩
          · show (kc.1, kc.2) ∈ cs
            simpa using hkc
          · simpa [Node.is_dir] using hdir
        rcases (ih kc hkc x).mp hmem with rfl | htrans
        · exact Or.inr (Relation.TransGen.single hstep)
        · exact Or.inr (Relation.TransGen.head hstep htrans)
    · rintro (rfl | htrans)
      · exact List.mem_cons_self _ _
      · obtain ⟨c, ⟨⟨k, hk⟩, hsz⟩, hrest⟩ := transGen_first htrans
        have hdir : c.is_dir = true := by simp [Node.is_dir, hsz]
        have hmem : x ∈ all_dirs c := by
          rcases hrest with rfl | htc
          · exact self_mem_all_dirs _
          · exact ((ih (k, c) hk x).mpr (Or.inr htc))
        refine List.mem_cons_of_mem _ ?_
        exact (mem_allDirsChildren cs x).mpr ⟨(k, c), hk, hdir, hmem⟩
  exact main

/-- A transcript recording a zero-size file `f` next to an ordinary file
`g`: `f` ends up classified as a directory. -/
def c10TinyLines : List String := ["$ cd /", "$ ls", "0 f", "5 g"]

end Day7

/-- C10: a node counts as a directory exactly when its size field is 0, so
`all_dirs` yields the root unconditionally plus every descendant reached
through size-0 children, and a file recorded with size 0 is enumerated
and summed by the directory queries exactly like a real directory (on the
`c10TinyLines` transcript the enumeration has 2 entries - the root and
the zero-size file - and challenge 1 sums both). -/
theorem c10_zero_size_dirs :
    (∀ n : Day7.Node, n.is_dir = (n.size == 0)) ∧
    (∀ root x : Day7.Node, x ∈ Day7.all_dirs root ↔ x = root ∨
      Relation.TransGen Day7.zeroChildStep root x) ∧
    (Day7.read_input Day7.c10TinyLines).map (fun r => (Day7.all_dirs r).length) = .ok 2 ∧
    Day7.run_challenge1 Day7.c10TinyLines = .ok 5 := by
  refine ⟨fun n => rfl, Day7.mem_all_dirs, rfl, rfl⟩

namespace Day12

/-- From `day12.rs` `struct Pos` (zero-based column `x`, row `y`). -/
structure Pos where
  x : Nat
  y : Nat
deriving DecidableEq

/-- From `day12.rs` `enum Cell`. -/
inductive Cell where
  | Start : Cell
  | End : Cell
  | Height : Nat → Cell
deriving DecidableEq

/-- `Cell::MIN_HEIGHT` (0). -/
def Cell.MIN_HEIGHT : Nat := 0

/-- `Cell::MAX_HEIGHT` (`b'z' - b'a'` = 25). -/
def Cell.MAX_HEIGHT : Nat := 25

def Cell.is_start : Cell → Bool
  | .Start => true
  | _ => false

def Cell.is_end : Cell → Bool
  | .End => true
  | _ => false

/-- From `day12.rs` `Cell::height`. -/
def Cell.height : Cell → Nat
  | .Start => Cell.MIN_HEIGHT
  | .End => Cell.MAX_HEIGHT
  | .Height h => h

/-- `Cell::parse` on one character: `S`, `E`, or a lowercase letter taken
to its ordinal height. -/
def cellP (c : Char) : Option Cell :=
  if c = 'S' then some .Start
  else if c = 'E' then some .End
  else if 'a' ≤ c ∧ c ≤ 'z' then some (.Height (c.toNat - 97))
  else none

/-- The zero-or-more tail of `many1(Cell::parse)`. -/
def parseRowAux : List Char → (List Cell × List Char)
  | [] => ([], [])
  | c :: rest =>
    match cellP c with
    | none => ([], c :: rest)
    | some cell =>
      let s := parseRowAux rest
      (cell :: s.1, s.2)

/-- `many1(Cell::parse)`: one or more cells of a grid row. -/
def parseRow (l : List Char) : Option (List Cell × List Char) :=
  match l with
  | [] => none
  | c :: rest =>
    match cellP c with
    | none => none
    | some cell =>
      let s := parseRowAux rest
      some (cell :: s.1, s.2)

/-- nom's `line_ending`: `"\n"` or `"\r\n"`. -/
def lineEnding : List Char → Option (List Char)
  | '\n' :: rest => some rest
  | '\r' :: '\n' :: rest => some rest
  | _ => none

/-- The separator-then-element loop of `separated_list1`, which backtracks
a separator not followed by an element.  The fuel only bounds the
iteration count; `parseRowsAux_fuel` shows any fuel of at least the input
length gives the loop's fixed point. -/
def parseRowsAux : Nat → List Char → (List (List Cell) × List Char)
  | 0, l => ([], l)
  | fuel+1, l =>
    match lineEnding l with
    | none => ([], l)
    | some l1 =>
      match parseRow l1 with
      | none => ([], l)
      | some (row, l2) =>
        let s := parseRowsAux fuel l2
        (row :: s.1, s.2)

/-- `separated_list1(line_ending, many1(Cell::parse))`. -/
def parseRows (l : List Char) : Option (List (List Cell) × List Char) :=
  match parseRow l with
  | none => none
  | some (row, l1) =>
    let s := parseRowsAux l1.length l1
    some (row :: s.1, s.2)

/-- From `day12.rs` `struct Topology`. -/
structure Topology where
  cells : List (List Cell)
  rows : Nat
  columns : Nat
deriving DecidableEq

/-- From `day12.rs` `enum Error` (`Io` never arises in the embedded core;
`Nom` stands for the parse errors surfaced through `nom`). -/
inductive Error where
  | Io : Error
  | Nom : Error
  | EmptyInput : Error
  | InvalidLineSize : Error
  | NoStartFound : Error
  | NoPathFound : Error
deriving DecidableEq

/-- From `day12.rs` `Topology::parse`: run the `nom` grammar under
`all_consuming`, then check nonemptiness and rectangularity. -/
def Topology.parse (i : String) : Except Error Topology :=
  match parseRows i.data with
  | none => .error .Nom
  | some (cells, rem) =>
    match rem with
    | _ :: _ => .error .Nom
    | [] =>
      match cells with
      | [] => .error .EmptyInput
      | first :: _ =>
        if cells.all (fun line => line.length == first.length) then
          .ok ⟨cells, cells.length, first.length⟩
        else .error .InvalidLineSize

/-- From `day12.rs` `Topology::at` (`cells[y][x]`; every use is in
bounds, so the default of the total getter is never consulted). -/
def Topology.at (t : Topology) (p : Pos) : Cell :=
  (t.cells.getD p.y []).getD p.x (.Height 0)

/-- Scan of one row, left to right. -/
def findInRow (pred : Cell → Bool) (y : Nat) : Nat → List Cell → Option Pos
  | _, [] => none
  | x, c :: rest => if pred c then some ⟨x, y⟩ else findInRow pred y (x+1) rest

/-- Scan of the rows, top to bottom. -/
def findRows (pred : Cell → Bool) : Nat → List (List Cell) → Option Pos
  | _, [] => none
  | y, row :: rest =>
    match findInRow pred y 0 row with
    | some p => some p
    | none => findRows pred (y+1) rest

/-- From `day12.rs` `Topology::find`: first matching cell in scan order
(rows top to bottom, cells left to right). -/
def Topology.find (t : Topology) (pred : Cell → Bool) : Option Pos :=
  findRows pred 0 t.cells

/-- `Topology::NEIGHBOURS_DELTAS`. -/
def NEIGHBOURS_DELTAS : List (Int × Int) := [(0, 1), (0, -1), (1, 0), (-1, 0)]

/-- From `day12.rs` `Topology::neighbours`: apply each delta, keep the
in-bounds results, pair each with its cell. -/
def Topology.neighbours (t : Topology) (pos : Pos) : List (Pos × Cell) :=
  ((NEIGHBOURS_DELTAS.map (fun d => (d.1 + (pos.x : Int), d.2 + (pos.y : Int)))).filter
    (fun q => decide (0 ≤ q.1) && decide (q.1 < (t.columns : Int)) &&
      decide (0 ≤ q.2) && decide (q.2 < (t.rows : Int)))).map
    (fun q => ((⟨q.1.toNat, q.2.toNat⟩ : Pos), t.at ⟨q.1.toNat, q.2.toNat⟩))

/-- The neighbour scan of one frontier cell (day12.rs lines 154-159): a
neighbour that is not the start, not yet visited and passes the step
predicate is recorded in `visited` with its predecessor and added to the
next frontier. -/
def nbFold (t : Topology) (nf : Cell → Cell → Bool) (start curr : Pos)
    (l : List (Pos × Cell)) (st : List (Pos × Pos) × List Pos) : List (Pos × Pos) × List Pos :=
  l.foldl
    (fun st2 pc =>
      if pc.1 ≠ start ∧ st2.1.lookup pc.1 = none ∧ nf (t.at curr) pc.2 = true then
        ((pc.1, curr) :: st2.1, st2.2 ++ [pc.1])
      else st2) st

def stepCell (t : Topology) (nf : Cell → Cell → Bool) (start : Pos) (curr : Pos)
    (st : List (Pos × Pos) × List Pos) : List (Pos × Pos) × List Pos :=
  nbFold t nf start curr (t.neighbours curr) st

/-- One frontier expansion (day12.rs lines 151-160). -/
def frontierFold (t : Topology) (nf : Cell → Cell → Bool) (start : Pos)
    (cs : List Pos) (st : List (Pos × Pos) × List Pos) : List (Pos × Pos) × List Pos :=
  cs.foldl (fun st2 c => stepCell t nf start c st2) st

def stepFrontier (t : Topology) (nf : Cell → Cell → Bool) (start : Pos)
    (visited : List (Pos × Pos)) (current : List Pos) : List (Pos × Pos) × List Pos :=
  frontierFold t nf start current (visited, [])

/-- The `while current != start` reconstruction loop (day12.rs lines
163-171).  The fuel bounds the chain length; the `none` arm models the
`visited[&current]` missing-key panic.  Both are unreachable at the call
site, where every recorded predecessor chain reaches the start. -/
def reconstructGo (visited : List (Pos × Pos)) (start : Pos) :
    Nat → Pos → List Pos → List Pos
  | 0, _, path => path.reverse
  | fuel+1, current, path =>
    if current = start then path.reverse
    else
      match visited.lookup current with
      | none => path.reverse
      | some p => reconstructGo visited start fuel p (path ++ [p])

/-- Path reconstruction from the goal back to the start. -/
def reconstruct (visited : List (Pos × Pos)) (start : Pos) (e : Pos) : List Pos :=
  reconstructGo visited start (visited.length + 1) e [e]

/-- The BFS loop of `walk` (day12.rs lines 148-180): expand the frontier,
return the reconstructed path at the first goal discovered, stop with
`NoPathFound` on an empty frontier.  The fuel bounds the round count; a
frontier round only happens when the new frontier is nonempty, which
grows `visited` by at least one in-bounds non-start position, so
`rows * columns + 1` rounds are never exhausted (the fuel arm returns the
same `NoPathFound` as the exhausted-frontier exit). -/
def walkLoop (t : Topology) (nf : Cell → Cell → Bool) (tp : Cell → Bool) (start : Pos) :
    Nat → List (Pos × Pos) → List Pos → Except Error (List Pos)
  | 0, _, _ => .error .NoPathFound
  | fuel+1, visited, current =>
    let st := stepFrontier t nf start visited current
    match st.2.find? (fun p => tp (t.at p)) with
    | some e => .ok (reconstruct st.1 start e)
    | none =>
      if st.2.isEmpty then .error .NoPathFound
      else walkLoop t nf tp start fuel st.1 st.2

/-- From `day12.rs` `walk`: breadth-first search from the cell selected by
`start_filter`, stepping along `neighbour_filter`-admissible 4-neighbour
moves, stopping at the first newly discovered cell satisfying
`termination`. -/
def walk (t : Topology) (sf : Cell → Bool) (nf : Cell → Cell → Bool) (tp : Cell → Bool) :
    Except Error (List Pos) :=
  match t.find sf with
  | none => .error .NoStartFound
  | some start => walkLoop t nf tp start (t.rows * t.columns + 1) [] [start]

/-- From `day12.rs` `run_challenge1`: shortest ascent from `S` to `E`,
stepping up by at most one. -/
def run_challenge1 (content : String) : Except Error (List Pos) :=
  match Topology.parse content with
  | .error e => .error e
  | .ok topology =>
    walk topology Cell.is_start
      (fun curr neighbour => neighbour.height ≤ curr.height + 1)
      Cell.is_end

/-- From `day12.rs` `run_challenge2`: shortest descent from `E` to any
height-0 cell (the `u8` underflow of `curr.height() - 1` is guarded by
the `== 0` disjunct exactly as in the source). -/
def run_challenge2 (content : String) : Except Error (List Pos) :=
  match Topology.parse content with
  | .error e => .error e
  | .ok topology =>
    walk topology Cell.is_end
      (fun curr neighbour => curr.height == 0 || decide (curr.height - 1 ≤ neighbour.height))
      (fun c => c.height == Cell.MIN_HEIGHT)

/-- Modelled from the spec: the documented example grid
(`data/day12_example.txt` is not under `src/`) - the corpus grid whose
shortest ascent is 31 steps and shortest descent 29. -/
def day12ExampleText : String :=
  "Sabqponm\nabcryxxl\naccszExk\nacctuvwj\nabdefghi"

end Day12

namespace Day12

/-- Newline count of a character list (the line count of a text that the
grid parser accepts is one more than this). -/
def countNL : List Char → Nat
  | [] => 0
  | c :: rest => (if c = '\n' then 1 else 0) + countNL rest

/-- A parsed cell character is not a newline. -/
theorem cellP_ne_nl (c : Char) (cell : Cell) (h : cellP c = some cell) : c ≠ '\n' := by
  intro hc
  subst hc
  rw [show cellP '\n' = none from by decide] at h
  exact Option.noConfusion h

/-- The row tail scanner consumes only cell characters: the newline count
is untouched and the consumed length is the number of parsed cells. -/
theorem parseRowAux_spec : ∀ l : List Char,
    countNL (parseRowAux l).2 = countNL l ∧
    (parseRowAux l).2.length + (parseRowAux l).1.length = l.length
  | [] => by simp [parseRowAux, countNL]
  | c :: rest => by
    cases hc : cellP c with
    | none => simp [parseRowAux, hc]
    | some cell =>
      have h1 : c ≠ '\n' := cellP_ne_nl c cell hc
      have ih := parseRowAux_spec rest
      simp only [parseRowAux, hc, List.length_cons]
      refine ⟨?_, by omega⟩
      rw [ih.1, countNL, if_neg h1]
      omega

/-- `many1(Cell::parse)` consumes one cell character per parsed cell and
no newlines. -/
theorem parseRow_spec (l : List Char) (row : List Cell) (rem : List Char)
    (h : parseRow l = some (row, rem)) :
    countNL rem = countNL l ∧ rem.length + row.length = l.length ∧ 0 < row.length := by
  cases l with
  | nil => simp [parseRow] at h
  | cons c rest =>
    cases hc : cellP c with
    | none => simp [parseRow, hc] at h
    | some cell =>
      simp only [parseRow, hc, Option.some.injEq, Prod.mk.injEq] at h
      obtain ⟨hrow, hrem⟩ := h
      have ih := parseRowAux_spec rest
      have h1 : c ≠ '\n' := cellP_ne_nl c cell hc
      subst hrow
      subst hrem
      refine ⟨?_, by simp only [List.length_cons]; omega, by simp⟩
      rw [ih.1, countNL, if_neg h1]
      omega

/-- A line ending consumes exactly one newline. -/
theorem lineEnding_spec (l rem : List Char) (h : lineEnding l = some rem) :
    countNL l = countNL rem + 1 ∧ rem.length < l.length := by
  unfold lineEnding at h
  split at h
  · cases h
    refine ⟨?_, by simp only [List.length_cons]; omega⟩
    show (if '\n' = '\n' then 1 else 0) + countNL rem = countNL rem + 1
    rw [if_pos rfl]
    omega
  · cases h
    refine ⟨?_, by simp only [List.length_cons]; omega⟩
    show (if '\r' = '\n' then 1 else 0) + ((if '\n' = '\n' then 1 else 0) + countNL rem) =
      countNL rem + 1
    rw [if_pos rfl, if_neg (by decide)]
    omega
  · exact Option.noConfusion h

/-- Each iteration of the separator loop consumes exactly one newline per
emitted row; the remainder never grows. -/
theorem parseRowsAux_spec : ∀ (fuel : Nat) (l : List Char),
    countNL l = countNL (parseRowsAux fuel l).2 + (parseRowsAux fuel l).1.length ∧
    (parseRowsAux fuel l).2.length ≤ l.length := by
  intro fuel
  induction fuel with
  | zero => intro l; simp [parseRowsAux]
  | succ fuel ih =>
    intro l
    cases he : lineEnding l with
    | none => simp [parseRowsAux, he]
    | some l1 =>
      cases hr : parseRow l1 with
      | none => simp [parseRowsAux, he, hr]
      | some rowrem =>
        obtain ⟨row, l2⟩ := rowrem
        have hle := lineEnding_spec l l1 he
        have hpr := parseRow_spec l1 row l2 hr
        have ihl2 := ih l2
        simp only [parseRowsAux, he, hr, List.length_cons]
        omega

/-- The whole grid grammar: one newline per row boundary, remainder
bounded. -/
theorem parseRows_spec (l : List Char) (cells : List (List Cell)) (rem : List Char)
    (h : parseRows l = some (cells, rem)) :
    countNL l + 1 = countNL rem + cells.length ∧ 0 < cells.length ∧
    (∀ first more, cells = first :: more → 0 < first.length) := by
  cases hr : parseRow l with
  | none => simp [parseRows, hr] at h
  | some rowrem =>
    obtain ⟨row, l1⟩ := rowrem
    simp only [parseRows, hr, Option.some.injEq, Prod.mk.injEq] at h
    obtain ⟨hcells, hrem⟩ := h
    have hpr := parseRow_spec l row l1 hr
    have haux := parseRowsAux_spec l1.length l1
    subst hcells
    subst hrem
    refine ⟨by simp only [List.length_cons]; omega, by simp, ?_⟩
    intro first more hfm
    have : row = first := (List.cons.injEq _ _ _ _ |>.mp hfm).1
    subst this
    exact hpr.2.2

/-- Larger fuels than the input length do not change the separator loop:
the fuel in `parseRows` is only a termination device. -/
theorem parseRowsAux_fuel : ∀ (f1 : Nat), ∀ (f2 : Nat) (l : List Char),
    l.length ≤ f1 → l.length ≤ f2 → parseRowsAux f1 l = parseRowsAux f2 l := by
  intro f1
  induction f1 with
  | zero =>
    intro f2 l h1 _
    have : l = [] := List.eq_nil_of_length_eq_zero (Nat.le_zero.mp h1)
    subst this
    cases f2 with
    | zero => rfl
    | succ f2 => simp [parseRowsAux, lineEnding]
  | succ f1 ih =>
    intro f2 l h1 h2
    cases f2 with
    | zero =>
      have : l = [] := List.eq_nil_of_length_eq_zero (Nat.le_zero.mp h2)
      subst this
      simp [parseRowsAux, lineEnding]
    | succ f2 =>
      cases he : lineEnding l with
      | none => simp [parseRowsAux, he]
      | some l1 =>
        cases hr : parseRow l1 with
        | none => simp [parseRowsAux, he, hr]
        | some rowrem =>
          obtain ⟨row, l2⟩ := rowrem
          have hle := lineEnding_spec l l1 he
          have hpr := parseRow_spec l1 row l2 hr
          simp only [parseRowsAux, he, hr]
          rw [ih f2 l2 (by omega) (by omega)]

/-- Inversion of a successful `Topology::parse`: the stored counts really
are the row count and the uniform row length, the grid is nonempty in
both dimensions, and the row count is one more than the number of
newlines of the input. -/
theorem parse_ok_spec (i : String) (t : Topology) (h : Topology.parse i = .ok t) :
    t.cells.length = t.rows ∧ 0 < t.rows ∧ 0 < t.columns ∧
    (∀ row ∈ t.cells, row.length = t.columns) ∧ t.rows = countNL i.data + 1 := by
  unfold Topology.parse at h
  cases hp : parseRows i.data with
  | none => rw [hp] at h; exact Except.noConfusion h
  | some cellsrem =>
    obtain ⟨cells, rem⟩ := cellsrem
    rw [hp] at h
    cases rem with
    | cons c rest => exact Except.noConfusion h
    | nil =>
      cases cells with
      | nil => exact Except.noConfusion h
      | cons first more =>
        replace h : (if (first :: more).all (fun line => line.length == first.length) = true then
            Except.ok (⟨first :: more, (first :: more).length, first.length⟩ : Topology)
          else Except.error Error.InvalidLineSize) = Except.ok t := h
        cases hall : (first :: more).all (fun line => line.length == first.length) with
        | false =>
          rw [hall] at h
          simp only [Bool.false_eq_true, if_false] at h
          exact Except.noConfusion h
        | true =>
          rw [hall] at h
          simp only [if_true] at h
          have hspec := parseRows_spec i.data (first :: more) [] hp
          cases h
          refine ⟨rfl, by simp, hspec.2.2 first more rfl, ?_, ?_⟩
          · intro row hrow
            have := List.all_eq_true.mp hall row hrow
            exact eq_of_beq this
          · have h1 := hspec.1
            simp only [countNL] at h1
            show (first :: more).length = countNL i.data + 1
            omega

/-- A ragged token matrix always fails with the dedicated line-size
error. -/
theorem parse_ragged (i : String) (cells : List (List Cell))
    (hp : parseRows i.data = some (cells, []))
    (hragged : ¬ ∀ row ∈ cells, row.length = (cells.headD []).length) :
    Topology.parse i = .error .InvalidLineSize := by
  unfold Topology.parse
  rw [hp]
  cases cells with
  | nil => exact absurd (by intro row hrow; cases hrow) hragged
  | cons first more =>
    show (if (first :: more).all (fun line => line.length == first.length) = true then
        Except.ok (⟨first :: more, (first :: more).length, first.length⟩ : Topology)
      else Except.error Error.InvalidLineSize) = Except.error Error.InvalidLineSize
    cases hall : (first :: more).all (fun line => line.length == first.length) with
    | false => simp [hall]
    | true =>
      exfalso
      exact hragged (by
        intro row hrow
        have := List.all_eq_true.mp hall row hrow
        simpa using eq_of_beq this)

end Day12

/-- C7 (amended): `Topology::parse` rejects empty input with the generic
nom parse error - the dedicated `EmptyInput` branch is unreachable, since
the `separated_list1`/`many1` grammar never yields zero rows; a ragged
token matrix always fails with the `InvalidLineSize` error; and a
successful parse stores the parsed row count (one more than the number of
newlines of the input) and the uniform nonzero row length. -/
theorem c7_parse_contract :
    Day12.Topology.parse "" = .error .Nom ∧
    (∀ i t, Day12.Topology.parse i = .ok t →
      t.cells.length = t.rows ∧ 0 < t.rows ∧ 0 < t.columns ∧
      (∀ row ∈ t.cells, row.length = t.columns) ∧
      t.rows = Day12.countNL i.data + 1) ∧
    (∀ i cells, Day12.parseRows i.data = some (cells, []) →
      ¬ (∀ row ∈ cells, row.length = (cells.headD []).length) →
      Day12.Topology.parse i = .error .InvalidLineSize) :=
  ⟨rfl, Day12.parse_ok_spec, Day12.parse_ragged⟩

/-- C7 counterexample: on empty input the parser fails with the generic
parse error, not the dedicated empty-input error the claim names. -/
theorem c7_counterexample :
    Day12.Topology.parse "" = .error .Nom ∧ Day12.Error.Nom ≠ Day12.Error.EmptyInput :=
  ⟨rfl, by decide⟩

/-- C7 witness: the contract applied to the rectangular input `"ab\nba"`
and the ragged input `"ab\nabc"`. -/
theorem c7_parse_contract_witness :
    (Day12.Topology.parse "ab\nba" =
      .ok ⟨[[.Height 0, .Height 1], [.Height 1, .Height 0]], 2, 2⟩) ∧
    (Day12.Topology.mk [[.Height 0, .Height 1], [.Height 1, .Height 0]] 2 2).rows =
      Day12.countNL ("ab\nba").data + 1 ∧
    Day12.parseRows ("ab\nabc").data =
      some ([[Day12.Cell.Height 0, Day12.Cell.Height 1],
             [Day12.Cell.Height 0, Day12.Cell.Height 1, Day12.Cell.Height 2]], []) ∧
    Day12.Topology.parse "ab\nabc" = .error .InvalidLineSize :=
  ⟨by rfl,
   (c7_parse_contract.2.1 "ab\nba" _ (by rfl)).2.2.2.2,
   by rfl,
   c7_parse_contract.2.2 "ab\nabc"
     [[Day12.Cell.Height 0, Day12.Cell.Height 1],
      [Day12.Cell.Height 0, Day12.Cell.Height 1, Day12.Cell.Height 2]] (by rfl) (by decide)⟩

namespace Day12

/-- `p` is inside the grid (the bounds enforced by the neighbour
filter). -/
def Topology.inBounds (t : Topology) (p : Pos) : Prop :=
  p.x < t.columns ∧ p.y < t.rows

/-- Neighbours are always in bounds. -/
theorem neighbours_inBounds (t : Topology) (q p : Pos) (c : Cell)
    (h : (p, c) ∈ t.neighbours q) : t.inBounds p := by
  unfold Topology.neighbours at h
  obtain ⟨pr, hpr, hp⟩ := List.mem_map.mp h
  obtain ⟨-, hfil⟩ := List.mem_filter.mp hpr
  simp only [Bool.and_eq_true, decide_eq_true_eq] at hfil
  obtain ⟨⟨⟨h1, h2⟩, h3⟩, h4⟩ := hfil
  injection hp with hp1 hp2
  subst hp1
  constructor
  · show pr.1.toNat < t.columns
    omega
  · show pr.2.toNat < t.rows
    omega

/-- Walks of `n` admissible moves from the start position. -/
inductive ReachN (t : Topology) (nf : Cell → Cell → Bool) (start : Pos) : Pos → Nat → Prop where
  | refl : ReachN t nf start start 0
  | step {p q : Pos} {c : Cell} {n : Nat} : ReachN t nf start p n →
      (q, c) ∈ t.neighbours p → nf (t.at p) c = true → ReachN t nf start q (n+1)

/-- Reachability within `k` moves. -/
def Rle (t : Topology) (nf : Cell → Cell → Bool) (start : Pos) (k : Nat) (p : Pos) : Prop :=
  ∃ m ≤ k, ReachN t nf start p m

theorem ReachN_zero (t : Topology) (nf : Cell → Cell → Bool) (start p : Pos)
    (h : ReachN t nf start p 0) : p = start := by
  cases h
  rfl

theorem Rle_mono (t : Topology) (nf : Cell → Cell → Bool) (start : Pos) {k k2 : Nat} {p : Pos}
    (hk : k ≤ k2) (h : Rle t nf start k p) : Rle t nf start k2 p := by
  obtain ⟨m, hm, hr⟩ := h
  exact ⟨m, Nat.le_trans hm hk, hr⟩

/-- Predecessor chains recorded in `visited`: `n` lookups lead from `p`
back to the start. -/
inductive Chain (visited : List (Pos × Pos)) (start : Pos) : Pos → Nat → Prop where
  | base : Chain visited start start 0
  | step {p q : Pos} {n : Nat} : visited.lookup p = some q → Chain visited start q n →
      Chain visited start p (n+1)

theorem lookup_append_some {l1 l2 : List (Pos × Pos)} {k v : Pos}
    (h : l1.lookup k = some v) : (l1 ++ l2).lookup k = some v := by
  induction l1 with
  | nil => cases h
  | cons pr rest ih =>
    obtain ⟨a, b⟩ := pr
    simp only [List.lookup, List.cons_append] at h ⊢
    cases hk : (k == a) with
    | true => rw [hk] at h; exact h
    | false => rw [hk] at h; exact ih h

theorem lookup_append_none {l1 l2 : List (Pos × Pos)} {k : Pos}
    (h : l1.lookup k = none) : (l1 ++ l2).lookup k = l2.lookup k := by
  induction l1 with
  | nil => rfl
  | cons pr rest ih =>
    obtain ⟨a, b⟩ := pr
    simp only [List.lookup, List.cons_append] at h ⊢
    cases hk : (k == a) with
    | true => rw [hk] at h; cases h
    | false => rw [hk] at h; exact ih h

theorem lookup_none_of_forall {l : List (Pos × Pos)} {k : Pos}
    (h : ∀ pr ∈ l, pr.1 ≠ k) : l.lookup k = none := by
  induction l with
  | nil => rfl
  | cons pr rest ih =>
    obtain ⟨a, b⟩ := pr
    simp only [List.lookup]
    cases hk : (k == a) with
    | true =>
      have hka : k = a := by simpa using hk
      exact absurd hka.symm (h (a, b) (List.mem_cons_self _ _))
    | false => exact ih (fun pr2 hpr2 => h pr2 (List.mem_cons_of_mem _ hpr2))

theorem mem_of_lookup_some {l : List (Pos × Pos)} {k v : Pos}
    (h : l.lookup k = some v) : (k, v) ∈ l := by
  induction l with
  | nil => cases h
  | cons pr rest ih =>
    obtain ⟨a, b⟩ := pr
    simp only [List.lookup] at h
    cases hk : (k == a) with
    | true =>
      rw [hk] at h
      cases h
      have : k = a := by simpa using hk
      subst this
      exact List.mem_cons_self _ _
    | false =>
      rw [hk] at h
      exact List.mem_cons_of_mem _ (ih h)

theorem lookup_isSome_of_mem_keys {l : List (Pos × Pos)} {k : Pos}
    (h : k ∈ l.map Prod.fst) : ∃ v, l.lookup k = some v := by
  induction l with
  | nil => cases h
  | cons pr rest ih =>
    obtain ⟨a, b⟩ := pr
    simp only [List.map_cons, List.mem_cons] at h
    simp only [List.lookup]
    cases hk : (k == a) with
    | true => exact ⟨b, rfl⟩
    | false =>
      rcases h with h | h
      · rw [beq_eq_false_iff_ne] at hk
        exact absurd h hk
      · exact ih h

theorem lookup_none_iff_not_mem_keys {l : List (Pos × Pos)} {k : Pos} :
    l.lookup k = none ↔ k ∉ l.map Prod.fst := by
  constructor
  · intro h hk
    obtain ⟨v, hv⟩ := lookup_isSome_of_mem_keys hk
    rw [h] at hv
    cases hv
  · intro h
    refine lookup_none_of_forall ?_
    intro pr hpr hk
    exact h (hk ▸ List.mem_map_of_mem Prod.fst hpr)

end Day12

namespace Day12

theorem lookup_cons_none {a b k : Pos} {vis : List (Pos × Pos)}
    (h : ((a, b) :: vis).lookup k = none) : k ≠ a ∧ vis.lookup k = none := by
  simp only [List.lookup] at h
  cases hk : (k == a) with
  | true => rw [hk] at h; cases h
  | false =>
    rw [hk] at h
    rw [beq_eq_false_iff_ne] at hk
    exact ⟨hk, h⟩

theorem lookup_cons_cases {a b k : Pos} {vis : List (Pos × Pos)}
    (h : ((a, b) :: vis).lookup k ≠ none) : k = a ∨ vis.lookup k ≠ none := by
  simp only [List.lookup] at h
  cases hk : (k == a) with
  | true => exact Or.inl (by simpa using hk)
  | false =>
    rw [hk] at h
    exact Or.inr h

/-- What the neighbour fold of one frontier cell produces: the visited map
grows by a block `D` of fresh pairs whose predecessor is the scanned cell,
and the next frontier gains exactly the keys of `D`; a neighbour that is
admissible but missing from the result was already visited. -/
theorem nbFold_spec (t : Topology) (nf : Cell → Cell → Bool) (start curr : Pos) :
    ∀ (l : List (Pos × Cell)) (vis : List (Pos × Pos)) (nc : List Pos),
    ∃ D : List (Pos × Pos),
      nbFold t nf start curr l (vis, nc) = (D ++ vis, nc ++ (D.map Prod.fst).reverse) ∧
      (∀ pr ∈ D, pr.2 = curr ∧ pr.1 ≠ start ∧ vis.lookup pr.1 = none ∧
        ∃ c, (pr.1, c) ∈ l ∧ nf (t.at curr) c = true) ∧
      (∀ p c, (p, c) ∈ l → p ≠ start → nf (t.at curr) c = true →
        vis.lookup p ≠ none ∨ p ∈ D.map Prod.fst) := by
  intro l
  induction l with
  | nil =>
    intro vis nc
    refine ⟨[], by simp [nbFold], by simp, by simp⟩
  | cons pc rest ih =>
    intro vis nc
    by_cases hcond : pc.1 ≠ start ∧ vis.lookup pc.1 = none ∧ nf (t.at curr) pc.2 = true
    · obtain ⟨D2, heq, hsound, hcompl⟩ := ih ((pc.1, curr) :: vis) (nc ++ [pc.1])
      have hstep : nbFold t nf start curr (pc :: rest) (vis, nc) =
          nbFold t nf start curr rest ((pc.1, curr) :: vis, nc ++ [pc.1]) := by
        simp only [nbFold, List.foldl_cons]
        rw [if_pos hcond]
      refine ⟨D2 ++ [(pc.1, curr)], ?_, ?_, ?_⟩
      · rw [hstep, heq]
        simp [List.append_assoc]
      · intro pr hpr
        rcases List.mem_append.mp hpr with hpr | hpr
        · obtain ⟨h1, h2, h3, c, h4, h5⟩ := hsound pr hpr
          exact ⟨h1, h2, (lookup_cons_none h3).2, c, List.mem_cons_of_mem pc h4, h5⟩
        · have : pr = (pc.1, curr) := by simpa using hpr
          subst this
          exact ⟨rfl, hcond.1, hcond.2.1, pc.2, by simp, hcond.2.2⟩
      · intro p c hmem hp hnf
        rcases List.mem_cons.mp hmem with rfl | hmem
        · refine Or.inr ?_
          simp
        · rcases hcompl p c hmem hp hnf with hl | hr
          · rcases lookup_cons_cases hl with rfl | hv
            · exact Or.inr (by simp)
            · exact Or.inl hv
          · exact Or.inr (by simp [hr])
    · obtain ⟨D2, heq, hsound, hcompl⟩ := ih vis nc
      have hstep : nbFold t nf start curr (pc :: rest) (vis, nc) =
          nbFold t nf start curr rest (vis, nc) := by
        simp only [nbFold, List.foldl_cons]
        rw [if_neg hcond]
      refine ⟨D2, by rw [hstep, heq], ?_, ?_⟩
      · intro pr hpr
        obtain ⟨h1, h2, h3, c, h4, h5⟩ := hsound pr hpr
        exact ⟨h1, h2, h3, c, List.mem_cons_of_mem pc h4, h5⟩
      · intro p c hmem hp hnf
        rcases List.mem_cons.mp hmem with heqpc | hmem
        · refine Or.inl ?_
          intro hnone
          apply hcond
          have hp1 : p = pc.1 := by rw [← heqpc]
          have hc1 : c = pc.2 := by rw [← heqpc]
          exact ⟨hp1 ▸ hp, hp1 ▸ hnone, hc1 ▸ hnf⟩
        · exact hcompl p c hmem hp hnf

/-- The frontier fold is the neighbour fold iterated over the frontier
cells; the same block description holds with predecessors drawn from the
frontier. -/
theorem frontierFold_spec (t : Topology) (nf : Cell → Cell → Bool) (start : Pos) :
    ∀ (cs : List Pos) (vis : List (Pos × Pos)) (nc : List Pos),
    ∃ D : List (Pos × Pos),
      frontierFold t nf start cs (vis, nc) = (D ++ vis, nc ++ (D.map Prod.fst).reverse) ∧
      (∀ pr ∈ D, pr.2 ∈ cs ∧ pr.1 ≠ start ∧ vis.lookup pr.1 = none ∧
        ∃ c, (pr.1, c) ∈ t.neighbours pr.2 ∧ nf (t.at pr.2) c = true) ∧
      (∀ p c cp, cp ∈ cs → (p, c) ∈ t.neighbours cp → p ≠ start → nf (t.at cp) c = true →
        vis.lookup p ≠ none ∨ p ∈ D.map Prod.fst) := by
  intro cs
  induction cs with
  | nil =>
    intro vis nc
    refine ⟨[], by simp [frontierFold], by simp, by simp⟩
  | cons cp0 rest ih =>
    intro vis nc
    obtain ⟨D1, heq1, hsound1, hcompl1⟩ := nbFold_spec t nf start cp0 (t.neighbours cp0) vis nc
    obtain ⟨D2, heq2, hsound2, hcompl2⟩ := ih (D1 ++ vis) (nc ++ (D1.map Prod.fst).reverse)
    have hstep : frontierFold t nf start (cp0 :: rest) (vis, nc) =
        frontierFold t nf start rest (D1 ++ vis, nc ++ (D1.map Prod.fst).reverse) := by
      simp only [frontierFold, List.foldl_cons]
      rw [show stepCell t nf start cp0 (vis, nc) =
        (D1 ++ vis, nc ++ (D1.map Prod.fst).reverse) from heq1]
    refine ⟨D2 ++ D1, ?_, ?_, ?_⟩
    · rw [hstep, heq2]
      simp [List.append_assoc]
    · intro pr hpr
      rcases List.mem_append.mp hpr with hpr | hpr
      · obtain ⟨h1, h2, h3, c, h4, h5⟩ := hsound2 pr hpr
        have h3v : vis.lookup pr.1 = none := by
          by_cases hD1 : pr.1 ∈ D1.map Prod.fst
          · obtain ⟨v, hv⟩ := lookup_isSome_of_mem_keys hD1
            rw [lookup_append_some hv] at h3
            cases h3
          · rw [lookup_append_none (lookup_none_iff_not_mem_keys.mpr hD1)] at h3
            exact h3
        exact ⟨List.mem_cons_of_mem cp0 h1, h2, h3v, c, h4, h5⟩
      · obtain ⟨h1, h2, h3, c, h4, h5⟩ := hsound1 pr hpr
        exact ⟨by rw [h1]; exact List.mem_cons_self _ _, h2, h3, c, h1 ▸ h4, h1 ▸ h5⟩
    · intro p c cp hcp hmem hp hnf
      rcases List.mem_cons.mp hcp with rfl | hcp
      · rcases hcompl1 p c hmem hp hnf with hl | hr
        · exact Or.inl hl
        · exact Or.inr (by simp [hr])
      · rcases hcompl2 p c cp hcp hmem hp hnf with hl | hr
        · by_cases hD1 : p ∈ D1.map Prod.fst
          · exact Or.inr (by simp [hD1])
          · rw [lookup_append_none (lookup_none_iff_not_mem_keys.mpr hD1)] at hl
            exact Or.inl hl
        · exact Or.inr (by simp [hr])

end Day12

namespace Day12

/-- The set of cells the BFS has in its frontier after `k` rounds: at
round 0 just the start, afterwards exactly the non-start cells whose
shortest admissible walk from the start has length exactly `k`. -/
def frontierSpec (t : Topology) (nf : Cell → Cell → Bool) (start : Pos) :
    Nat → Pos → Prop
  | 0, p => p = start
  | k+1, p => p ≠ start ∧ Rle t nf start (k+1) p ∧ ¬ Rle t nf start k p

/-- The BFS loop invariant after `k` expansion rounds. -/
def Inv (t : Topology) (nf : Cell → Cell → Bool) (start : Pos)
    (k : Nat) (visited : List (Pos × Pos)) (current : List Pos) : Prop :=
  (∀ p, p ∈ current ↔ frontierSpec t nf start k p) ∧
  (∀ p, visited.lookup p ≠ none ↔ (p ≠ start ∧ Rle t nf start k p)) ∧
  (∀ p ∈ current, Chain visited start p k) ∧
  k ≤ visited.length

/-- Chains survive prepending fresh keys. -/
theorem Chain_lift {D visited : List (Pos × Pos)} {start x : Pos} {n : Nat}
    (hD : ∀ pr ∈ D, visited.lookup pr.1 = none)
    (h : Chain visited start x n) : Chain (D ++ visited) start x n := by
  induction h with
  | base => exact Chain.base
  | step hlook hch ih =>
    rename_i p q m
    have hnotD : D.lookup p = none := by
      refine lookup_none_iff_not_mem_keys.mpr ?_
      intro hmem
      obtain ⟨v, hv⟩ := lookup_isSome_of_mem_keys hmem
      have := hD (p, v) (mem_of_lookup_some hv)
      rw [hlook] at this
      cases this
    exact Chain.step (by rw [lookup_append_none hnotD]; exact hlook) ih

/-- Running the reconstruction loop along a recorded chain of length `n`
adds exactly `n` positions. -/
theorem reconstructGo_length {visited : List (Pos × Pos)} {start : Pos}
    (hstart : visited.lookup start = none) :
    ∀ {n : Nat} {p : Pos}, Chain visited start p n → ∀ (fuel : Nat) (acc : List Pos),
      n ≤ fuel → (reconstructGo visited start fuel p acc).length = acc.length + n := by
  intro n p hch
  induction hch with
  | base =>
    intro fuel acc _
    cases fuel with
    | zero => simp [reconstructGo]
    | succ f => simp [reconstructGo]
  | step hlook hch2 ih =>
    rename_i p2 q m
    intro fuel acc hle
    cases fuel with
    | zero => omega
    | succ f =>
      have hne : p2 ≠ start := by
        intro hp
        rw [hp, hstart] at hlook
        cases hlook
      rw [reconstructGo, if_neg hne, hlook, ih f (acc ++ [q]) (by omega)]
      simp only [List.length_append, List.length_cons, List.length_nil]
      omega

/-- The reconstruction loop never shrinks its accumulator. -/
theorem reconstructGo_length_ge {visited : List (Pos × Pos)} {start : Pos} :
    ∀ (fuel : Nat) (p : Pos) (acc : List Pos),
      acc.length ≤ (reconstructGo visited start fuel p acc).length := by
  intro fuel
  induction fuel with
  | zero => intro p acc; simp [reconstructGo]
  | succ f ih =>
    intro p acc
    rw [reconstructGo]
    by_cases hp : p = start
    · rw [if_pos hp]; simp
    · rw [if_neg hp]
      cases hl : visited.lookup p with
      | none => simp
      | some q =>
        calc acc.length ≤ (acc ++ [q]).length := by simp
          _ ≤ _ := ih q (acc ++ [q])

/-- One BFS expansion advances the invariant: the new frontier is the set
of cells at distance exactly `k+1`, the visited map records exactly the
non-start cells within distance `k+1` with predecessor chains of length
`k+1` for the new cells, and it grows by one entry per new cell. -/
theorem Inv_step (t : Topology) (nf : Cell → Cell → Bool) (start : Pos)
    (k : Nat) (visited : List (Pos × Pos)) (current : List Pos)
    (hInv : Inv t nf start k visited current) :
    (∀ p, p ∈ (stepFrontier t nf start visited current).2 ↔
      frontierSpec t nf start (k+1) p) ∧
    (∀ p, (stepFrontier t nf start visited current).1.lookup p ≠ none ↔
      (p ≠ start ∧ Rle t nf start (k+1) p)) ∧
    (∀ p ∈ (stepFrontier t nf start visited current).2,
      Chain (stepFrontier t nf start visited current).1 start p (k+1)) ∧
    (stepFrontier t nf start visited current).1.length =
      visited.length + (stepFrontier t nf start visited current).2.length := by
  obtain ⟨hfr, hvis, hch, hlen⟩ := hInv
  obtain ⟨D, heq, hsound, hcompl⟩ := frontierFold_spec t nf start current visited []
  have hst : stepFrontier t nf start visited current =
      (D ++ visited, (D.map Prod.fst).reverse) := by
    rw [stepFrontier, heq]
    simp
  have hkeys : ∀ p, p ∈ (D.map Prod.fst).reverse ↔ p ∈ D.map Prod.fst := by
    intro p
    exact List.mem_reverse
  -- a key of the block is exactly a cell at distance k+1
  have hDkey_spec : ∀ p, p ∈ D.map Prod.fst ↔ frontierSpec t nf start (k+1) p := by
    intro p
    constructor
    · intro hp
      obtain ⟨pr, hpr, hfst⟩ := List.mem_map.mp hp
      obtain ⟨hcur, hps, hnone, c, hmem, hnf⟩ := hsound pr hpr
      subst hfst
      have hnRle : ¬ Rle t nf start k pr.1 := by
        intro hR
        exact (hvis pr.1).mpr ⟨hps, hR⟩ hnone
      refine ⟨hps, ?_, hnRle⟩
      have hq := (hfr pr.2).mp hcur
      cases k with
      | zero =>
        have : pr.2 = start := hq
        subst this
        exact ⟨1, by omega, ReachN.step ReachN.refl hmem hnf⟩
      | succ k2 =>
        obtain ⟨m, hm, hr⟩ := hq.2.1
        exact ⟨m + 1, by omega, ReachN.step hr hmem hnf⟩
    · intro hspec
      obtain ⟨hps, hRle, hnRle⟩ := hspec
      obtain ⟨m, hm, hr⟩ := hRle
      have hmeq : m = k + 1 := by
        rcases Nat.lt_or_ge m (k+1) with hlt | hge
        · exact absurd ⟨m, by omega, hr⟩ hnRle
        · omega
      subst hmeq
      cases hr with
      | step hq hmem hnf =>
        rename_i q c
        have hqcur : q ∈ current := by
          refine (hfr q).mpr ?_
          cases k with
        | zero => exact ReachN_zero t nf start q hq
        | succ k2 =>
          have hqne : q ≠ start := by
            rintro rfl
            exact hnRle ⟨1, by omega, ReachN.step ReachN.refl hmem hnf⟩
          refine ⟨hqne, ⟨k2 + 1, by omega, hq⟩, ?_⟩
          intro ⟨m2, hm2, hr2⟩
          exact hnRle ⟨m2 + 1, by omega, ReachN.step hr2 hmem hnf⟩
        have hlnone : visited.lookup p = none := by
          cases hl : visited.lookup p with
          | none => rfl
          | some v =>
            exact absurd ((hvis p).mp (by rw [hl]; simp)).2 hnRle
        rcases hcompl p c q hqcur hmem hps hnf with hl | hr2
        · exact absurd hlnone hl
        · exact hr2
  have hDfresh : ∀ pr ∈ D, visited.lookup pr.1 = none := by
    intro pr hpr
    exact (hsound pr hpr).2.2.1
  rw [hst]
  refine ⟨?_, ?_, ?_, ?_⟩
  · intro p
    show p ∈ (D.map Prod.fst).reverse ↔ _
    rw [hkeys p]
    exact hDkey_spec p
  · intro p
    show (D ++ visited).lookup p ≠ none ↔ _
    constructor
    · intro hne
      by_cases hD : p ∈ D.map Prod.fst
      · have := (hDkey_spec p).mp hD
        exact ⟨this.1, Rle_mono t nf start (by omega) this.2.1⟩
      · rw [lookup_append_none (lookup_none_iff_not_mem_keys.mpr hD)] at hne
        have := (hvis p).mp hne
        exact ⟨this.1, Rle_mono t nf start (by omega) this.2⟩
    · intro ⟨hps, hRle⟩
      by_cases hRk : Rle t nf start k p
      · have hlv := (hvis p).mpr ⟨hps, hRk⟩
        cases hl : visited.lookup p with
        | none => rw [hl] at hlv; exact absurd rfl hlv
        | some v =>
          cases hD2 : D.lookup p with
          | none => rw [lookup_append_none hD2, hl]; simp
          | some w => rw [lookup_append_some hD2]; simp
      · have hD := (hDkey_spec p).mpr ⟨hps, hRle, hRk⟩
        obtain ⟨v, hv⟩ := lookup_isSome_of_mem_keys hD
        rw [lookup_append_some hv]
        simp
  · intro p hp
    replace hp : p ∈ (D.map Prod.fst).reverse := hp
    rw [hkeys p] at hp
    obtain ⟨v, hv⟩ := lookup_isSome_of_mem_keys hp
    have hprD : (p, v) ∈ D := mem_of_lookup_some hv
    obtain ⟨hcur, -, -, -⟩ := hsound (p, v) hprD
    have hchain : Chain visited start v k := hch v hcur
    show Chain (D ++ visited) start p (k + 1)
    exact Chain.step (lookup_append_some hv) (Chain_lift hDfresh hchain)
  · show (D ++ visited).length = visited.length + ((D.map Prod.fst).reverse).length
    simp only [List.length_append, List.length_reverse, List.length_map]
    omega

end Day12

namespace Day12

/-- `Inv_step`, stated for a destructured frontier expansion. -/
theorem Inv_step2 (t : Topology) (nf : Cell → Cell → Bool) (start : Pos)
    (k : Nat) (visited vis2 : List (Pos × Pos)) (current new2 : List Pos)
    (hst : stepFrontier t nf start visited current = (vis2, new2))
    (hInv : Inv t nf start k visited current) :
    (∀ p, p ∈ new2 ↔ frontierSpec t nf start (k+1) p) ∧
    (∀ p, vis2.lookup p ≠ none ↔ (p ≠ start ∧ Rle t nf start (k+1) p)) ∧
    (∀ p ∈ new2, Chain vis2 start p (k+1)) ∧
    vis2.length = visited.length + new2.length := by
  have h := Inv_step t nf start k visited current hInv
  rw [hst] at h
  exact h

/-- Unfolding of one BFS round in terms of the destructured expansion. -/
theorem walkLoop_succ (t : Topology) (nf : Cell → Cell → Bool) (tp : Cell → Bool) (start : Pos)
    (f : Nat) (visited vis2 : List (Pos × Pos)) (current new2 : List Pos)
    (hst : stepFrontier t nf start visited current = (vis2, new2)) :
    walkLoop t nf tp start (f+1) visited current =
      match new2.find? (fun p => tp (t.at p)) with
      | some e => .ok (reconstruct vis2 start e)
      | none => if new2.isEmpty then .error .NoPathFound
                else walkLoop t nf tp start f vis2 new2 := by
  show (match (stepFrontier t nf start visited current).2.find? (fun p => tp (t.at p)) with
    | some e => Except.ok (reconstruct (stepFrontier t nf start visited current).1 start e)
    | none => if (stepFrontier t nf start visited current).2.isEmpty
        then Except.error Error.NoPathFound
        else walkLoop t nf tp start f (stepFrontier t nf start visited current).1
          (stepFrontier t nf start visited current).2) = _
  rw [hst]

/-- The central BFS lemma: under the loop invariant, with no goal reached
in the rounds so far and a start that is not itself a goal, an `ok` exit
returns a path whose step count is exactly the least number of admissible
moves from the start to any goal cell. -/
theorem walkLoop_ok_spec (t : Topology) (nf : Cell → Cell → Bool) (tp : Cell → Bool) (start : Pos)
    (hsg : tp (t.at start) = false) :
    ∀ (fuel k : Nat) (visited : List (Pos × Pos)) (current : List Pos) (path : List Pos),
    Inv t nf start k visited current →
    (∀ p, p ≠ start → Rle t nf start k p → tp (t.at p) = false) →
    walkLoop t nf tp start fuel visited current = .ok path →
    (∃ g, tp (t.at g) = true ∧ ReachN t nf start g (path.length - 1)) ∧
    (∀ n g, tp (t.at g) = true → ReachN t nf start g n → path.length - 1 ≤ n) := by
  intro fuel
  induction fuel with
  | zero =>
    intro k visited current path _ _ h
    exact Except.noConfusion h
  | succ f ih =>
    intro k visited current path hInv hNoGoal h
    rcases hpair : stepFrontier t nf start visited current with ⟨vis2, new2⟩
    obtain ⟨hfr2, hvis2, hch2, hlen2⟩ :=
      Inv_step2 t nf start k visited vis2 current new2 hpair hInv
    rw [walkLoop_succ t nf tp start f visited vis2 current new2 hpair] at h
    cases hfind : new2.find? (fun p => tp (t.at p)) with
    | some e =>
      rw [hfind] at h
      cases h
      have he_mem : e ∈ new2 := List.mem_of_find?_eq_some hfind
      have he_tp : tp (t.at e) = true := by simpa using List.find?_some hfind
      have he_spec := (hfr2 e).mp he_mem
      have he_chain := hch2 e he_mem
      have hstartlookup : vis2.lookup start = none := by
        cases hl : vis2.lookup start with
        | none => rfl
        | some v =>
          have := ((hvis2 start).mp (by rw [hl]; simp)).1
          exact absurd rfl this
      have hnew2len : 1 ≤ new2.length := by
        cases new2 with
        | nil => cases he_mem
        | cons a l => simp
      have hfuel : k + 1 ≤ vis2.length := by
        have hk := hInv.2.2.2
        omega
      have hplen : (reconstruct vis2 start e).length = (k + 1) + 1 := by
        rw [reconstruct,
          reconstructGo_length hstartlookup he_chain (vis2.length + 1) [e] (by omega)]
        simp only [List.length_cons, List.length_nil]
        omega
      constructor
      · refine ⟨e, he_tp, ?_⟩
        obtain ⟨hne, hRle, hnRle⟩ := he_spec
        obtain ⟨m, hm, hr⟩ := hRle
        have hmeq : m = k + 1 := by
          rcases Nat.lt_or_ge m (k+1) with h1 | h1
          · exact absurd ⟨m, by omega, hr⟩ hnRle
          · omega
        rw [hplen]
        simp only [Nat.add_sub_cancel]
        exact hmeq ▸ hr
      · intro n g hg hr
        rw [hplen]
        simp only [Nat.add_sub_cancel]
        by_contra hlt
        push_neg at hlt
        have hgs : g ≠ start := by
          rintro rfl
          rw [hsg] at hg
          cases hg
        have := hNoGoal g hgs ⟨n, by omega, hr⟩
        rw [this] at hg
        cases hg
    | none =>
      rw [hfind] at h
      cases hempty : new2.isEmpty with
      | true =>
        rw [hempty] at h
        simp at h
      | false =>
        rw [hempty] at h
        simp only [Bool.false_eq_true, if_false] at h
        have hnew2ne : new2 ≠ [] := by
          cases new2 with
          | nil => simp [List.isEmpty] at hempty
          | cons a l => simp
        have hnew2len : 1 ≤ new2.length := by
          cases new2 with
          | nil => exact absurd rfl hnew2ne
          | cons a l => simp
        have hInv2 : Inv t nf start (k+1) vis2 new2 := by
          refine ⟨hfr2, hvis2, hch2, ?_⟩
          have hk := hInv.2.2.2
          omega
        have hNoGoal2 : ∀ p, p ≠ start → Rle t nf start (k+1) p → tp (t.at p) = false := by
          intro p hps hR
          by_cases hRk : Rle t nf start k p
          · exact hNoGoal p hps hRk
          · have hpmem : p ∈ new2 := (hfr2 p).mpr ⟨hps, hR, hRk⟩
            have := List.find?_eq_none.mp hfind p hpmem
            simpa using this
        exact ih (k+1) vis2 new2 path hInv2 hNoGoal2 h

end Day12

namespace Day12

/-- BFS optimality at the `walk` level: when the start cell does not
itself satisfy the goal predicate, an `ok` path has exactly the least
number of admissible moves from the start to any goal cell. -/
theorem walk_ok_spec (t : Topology) (sf : Cell → Bool) (nf : Cell → Cell → Bool)
    (tp : Cell → Bool) (path : List Pos) (s : Pos)
    (hs : t.find sf = some s) (hsg : tp (t.at s) = false)
    (h : walk t sf nf tp = .ok path) :
    (∃ g, tp (t.at g) = true ∧ ReachN t nf s g (path.length - 1)) ∧
    (∀ n g, tp (t.at g) = true → ReachN t nf s g n → path.length - 1 ≤ n) := by
  unfold walk at h
  rw [hs] at h
  have hInv0 : Inv t nf s 0 [] [s] := by
    refine ⟨?_, ?_, ?_, by simp⟩
    · intro p
      constructor
      · intro hp
        have hps : p = s := by simpa using hp
        exact hps
      · intro hp
        have hps : p = s := hp
        simp [hps]
    · intro p
      constructor
      · intro hne
        exact absurd rfl hne
      · intro ⟨hps, hR⟩
        obtain ⟨m, hm, hr⟩ := hR
        have hm0 : m = 0 := by omega
        subst hm0
        exact absurd (ReachN_zero t nf s p hr) hps
    · intro p hp
      have hps : p = s := by simpa using hp
      subst hps
      exact Chain.base
  have hNoGoal0 : ∀ p, p ≠ s → Rle t nf s 0 p → tp (t.at p) = false := by
    intro p hps hR
    obtain ⟨m, hm, hr⟩ := hR
    have hm0 : m = 0 := by omega
    subst hm0
    exact absurd (ReachN_zero t nf s p hr) hps
  exact walkLoop_ok_spec t nf tp s hsg (t.rows * t.columns + 1) 0 [] [s] path hInv0 hNoGoal0 h

/-- Every `ok` exit of the BFS loop carries at least two positions: the
goal is discovered as a fresh neighbour distinct from the start, so the
reconstructed path holds the goal and at least its predecessor. -/
theorem walkLoop_ok_length (t : Topology) (nf : Cell → Cell → Bool) (tp : Cell → Bool)
    (start : Pos) : ∀ (fuel : Nat) (visited : List (Pos × Pos)) (current : List Pos)
    (path : List Pos),
    walkLoop t nf tp start fuel visited current = .ok path → 2 ≤ path.length := by
  intro fuel
  induction fuel with
  | zero =>
    intro visited current path h
    exact Except.noConfusion h
  | succ f ih =>
    intro visited current path h
    rcases hpair : stepFrontier t nf start visited current with ⟨vis2, new2⟩
    rw [walkLoop_succ t nf tp start f visited vis2 current new2 hpair] at h
    cases hfind : new2.find? (fun p => tp (t.at p)) with
    | some e =>
      rw [hfind] at h
      cases h
      have he_mem : e ∈ new2 := List.mem_of_find?_eq_some hfind
      obtain ⟨D, heq, hsound, -⟩ := frontierFold_spec t nf start current visited []
      have hst2 : stepFrontier t nf start visited current =
          (D ++ visited, (D.map Prod.fst).reverse) := by
        rw [stepFrontier, heq]
        simp
      rw [hpair] at hst2
      injection hst2 with h1 h2
      subst h1
      subst h2
      have he_keys : e ∈ D.map Prod.fst := List.mem_reverse.mp he_mem
      obtain ⟨v, hv⟩ := lookup_isSome_of_mem_keys he_keys
      have hprD : (e, v) ∈ D := mem_of_lookup_some hv
      have hne : e ≠ start := (hsound (e, v) hprD).2.1
      have hlook : (D ++ visited).lookup e = some v := lookup_append_some hv
      rw [reconstruct, reconstructGo, if_neg hne, hlook]
      calc 2 = ([e] ++ [v]).length := by simp
        _ ≤ _ := reconstructGo_length_ge (D ++ visited).length v ([e] ++ [v])
    | none =>
      rw [hfind] at h
      cases hempty : new2.isEmpty with
      | true =>
        rw [hempty] at h
        simp at h
      | false =>
        rw [hempty] at h
        simp only [Bool.false_eq_true, if_false] at h
        exact ih vis2 new2 path h

/-- When the start is the only in-bounds cell satisfying the goal
predicate, the loop can only exit with `NoPathFound`: the goal test is
never applied to the start, and every discovered cell is an in-bounds
non-start position. -/
theorem walkLoop_no_goal (t : Topology) (nf : Cell → Cell → Bool) (tp : Cell → Bool)
    (start : Pos) (honly : ∀ p, t.inBounds p → tp (t.at p) = true → p = start) :
    ∀ (fuel : Nat) (visited : List (Pos × Pos)) (current : List Pos),
    walkLoop t nf tp start fuel visited current = .error .NoPathFound := by
  intro fuel
  induction fuel with
  | zero => intro visited current; rfl
  | succ f ih =>
    intro visited current
    rcases hpair : stepFrontier t nf start visited current with ⟨vis2, new2⟩
    rw [walkLoop_succ t nf tp start f visited vis2 current new2 hpair]
    obtain ⟨D, heq, hsound, -⟩ := frontierFold_spec t nf start current visited []
    have hst2 : stepFrontier t nf start visited current =
        (D ++ visited, (D.map Prod.fst).reverse) := by
      rw [stepFrontier, heq]
      simp
    rw [hpair] at hst2
    injection hst2 with h1 h2
    subst h1
    subst h2
    have hfind : ((D.map Prod.fst).reverse).find? (fun p => tp (t.at p)) = none := by
      rw [List.find?_eq_none]
      intro p hp htp
      have he_keys : p ∈ D.map Prod.fst := List.mem_reverse.mp hp
      obtain ⟨v, hv⟩ := lookup_isSome_of_mem_keys he_keys
      have hprD : (p, v) ∈ D := mem_of_lookup_some hv
      obtain ⟨-, hne, -, c, hmem, -⟩ := hsound (p, v) hprD
      have hb : t.inBounds p := neighbours_inBounds t v p c hmem
      exact hne (honly p hb (by simpa using htp))
    rw [hfind]
    cases hempty : ((D.map Prod.fst).reverse).isEmpty with
    | true => simp
    | false =>
      simp only [Bool.false_eq_true, if_false]
      exact ih (D ++ visited) ((D.map Prod.fst).reverse)

/-- `walk` never returns a path of fewer than two positions. -/
theorem walk_ok_length (t : Topology) (sf : Cell → Bool) (nf : Cell → Cell → Bool)
    (tp : Cell → Bool) (path : List Pos) (h : walk t sf nf tp = .ok path) :
    2 ≤ path.length := by
  unfold walk at h
  cases hs : t.find sf with
  | none => rw [hs] at h; exact Except.noConfusion h
  | some s =>
    rw [hs] at h
    exact walkLoop_ok_length t nf tp s (t.rows * t.columns + 1) [] [s] path h

/-- `walk` answers `NoPathFound` when only the start satisfies the
goal. -/
theorem walk_only_goal_start (t : Topology) (sf : Cell → Bool) (nf : Cell → Cell → Bool)
    (tp : Cell → Bool) (s : Pos) (hs : t.find sf = some s)
    (honly : ∀ p, t.inBounds p → tp (t.at p) = true → p = s) :
    walk t sf nf tp = .error .NoPathFound := by
  unfold walk
  rw [hs]
  exact walkLoop_no_goal t nf tp s honly (t.rows * t.columns + 1) [] [s]

end Day12

namespace Day12

/-- A one-row grid `S` then height 1, used to instantiate the walk
theorems concretely. -/
def c1CexT : Topology := ⟨[[.Start, .Height 1]], 1, 2⟩

/-- A single-cell grid holding only the start. -/
def c9OnlyStartT : Topology := ⟨[[.Start]], 1, 1⟩

end Day12

/-- C1 (amended): whenever the BFS walk returns a path and the start cell
does not satisfy the goal predicate, the number of steps of the path
(positions minus one) is exactly the minimum number of
step-predicate-respecting 4-directional moves from the start to any goal
cell; on the documented example grid the shortest-ascent query returns 31
steps and the shortest-descent query 29. -/
theorem c1_walk_shortest_path (t : Day12.Topology) (sf : Day12.Cell → Bool)
    (nf : Day12.Cell → Day12.Cell → Bool) (tp : Day12.Cell → Bool)
    (path : List Day12.Pos) (s : Day12.Pos)
    (hs : t.find sf = some s) (hsg : tp (t.at s) = false)
    (h : Day12.walk t sf nf tp = .ok path) :
    ((∃ g, tp (t.at g) = true ∧ Day12.ReachN t nf s g (path.length - 1)) ∧
     (∀ n g, tp (t.at g) = true → Day12.ReachN t nf s g n → path.length - 1 ≤ n)) ∧
    (Day12.run_challenge1 Day12.day12ExampleText).map (fun p => p.length - 1) = .ok 31 ∧
    (Day12.run_challenge2 Day12.day12ExampleText).map (fun p => p.length - 1) = .ok 29 :=
  ⟨Day12.walk_ok_spec t sf nf tp path s hs hsg h, by rfl, by rfl⟩

/-- C1 counterexample: when the start cell itself satisfies the goal
predicate, the walk still returns a one-step path (the goal test is never
applied to the start), while the minimum number of moves to a goal cell
is 0 - so the path length is not the minimum over all goal cells. -/
theorem c1_counterexample :
    Day12.walk Day12.c1CexT Day12.Cell.is_start (fun _ _ => true) (fun _ => true) =
      .ok [⟨0, 0⟩, ⟨1, 0⟩] ∧
    (fun _ => true) (Day12.c1CexT.at ⟨0, 0⟩) = true ∧
    Day12.ReachN Day12.c1CexT (fun _ _ => true) ⟨0, 0⟩ ⟨0, 0⟩ 0 ∧
    ¬ (∀ n g, (fun _ => true) (Day12.c1CexT.at g) = true →
        Day12.ReachN Day12.c1CexT (fun _ _ => true) ⟨0, 0⟩ g n →
        ([(⟨0, 0⟩ : Day12.Pos), ⟨1, 0⟩].length - 1 : Nat) ≤ n) := by
  refine ⟨by rfl, rfl, Day12.ReachN.refl, ?_⟩
  intro hall
  have h0 := hall 0 ⟨0, 0⟩ rfl Day12.ReachN.refl
  simp only [List.length_cons, List.length_nil] at h0
  omega

/-- C1 witness: the optimality statement applied to the one-row grid with
goal `height = 1`, whose start is not a goal. -/
theorem c1_walk_shortest_path_witness :
    Day12.Topology.find Day12.c1CexT Day12.Cell.is_start = some ⟨0, 0⟩ ∧
    (fun c => c.height == 1) (Day12.c1CexT.at ⟨0, 0⟩) = false ∧
    Day12.walk Day12.c1CexT Day12.Cell.is_start (fun _ _ => true) (fun c => c.height == 1) =
      .ok [⟨0, 0⟩, ⟨1, 0⟩] ∧
    (((∃ g, (fun c => c.height == 1) (Day12.c1CexT.at g) = true ∧
        Day12.ReachN Day12.c1CexT (fun _ _ => true) ⟨0, 0⟩ g
          (([(⟨0, 0⟩ : Day12.Pos), ⟨1, 0⟩] : List Day12.Pos).length - 1)) ∧
      (∀ n g, (fun c => c.height == 1) (Day12.c1CexT.at g) = true →
        Day12.ReachN Day12.c1CexT (fun _ _ => true) ⟨0, 0⟩ g n →
        (([(⟨0, 0⟩ : Day12.Pos), ⟨1, 0⟩] : List Day12.Pos).length - 1) ≤ n)) ∧
     (Day12.run_challenge1 Day12.day12ExampleText).map (fun p => p.length - 1) = .ok 31 ∧
     (Day12.run_challenge2 Day12.day12ExampleText).map (fun p => p.length - 1) = .ok 29) :=
  ⟨by rfl, by rfl, by rfl,
    c1_walk_shortest_path Day12.c1CexT Day12.Cell.is_start (fun _ _ => true)
      (fun c => c.height == 1) [⟨0, 0⟩, ⟨1, 0⟩] ⟨0, 0⟩ (by rfl) (by rfl) (by rfl)⟩

/-- C9: the walk never returns a trivial path - an `ok` result always has
at least two positions, because the goal test is applied only to newly
discovered neighbours and never to the start cell; and when the start is
the only in-bounds cell satisfying the goal predicate, the walk answers
`NoPathFound` rather than a zero-length path. -/
theorem c9_no_trivial_path :
    (∀ (t : Day12.Topology) (sf : Day12.Cell → Bool) (nf : Day12.Cell → Day12.Cell → Bool)
      (tp : Day12.Cell → Bool) (path : List Day12.Pos),
      Day12.walk t sf nf tp = .ok path → 2 ≤ path.length) ∧
    (∀ (t : Day12.Topology) (sf : Day12.Cell → Bool) (nf : Day12.Cell → Day12.Cell → Bool)
      (tp : Day12.Cell → Bool) (s : Day12.Pos), t.find sf = some s →
      (∀ p, t.inBounds p → tp (t.at p) = true → p = s) →
      Day12.walk t sf nf tp = .error .NoPathFound) :=
  ⟨Day12.walk_ok_length, Day12.walk_only_goal_start⟩

/-- C9 witness: a successful walk on the one-row grid yields two
positions, and on the single-cell grid, where only the start satisfies
the (everywhere-true) goal predicate, the walk reports `NoPathFound`. -/
theorem c9_no_trivial_path_witness :
    Day12.walk Day12.c1CexT Day12.Cell.is_start (fun _ _ => true) (fun _ => true) =
      .ok [⟨0, 0⟩, ⟨1, 0⟩] ∧
    2 ≤ ([(⟨0, 0⟩ : Day12.Pos), ⟨1, 0⟩] : List Day12.Pos).length ∧
    Day12.Topology.find Day12.c9OnlyStartT Day12.Cell.is_start = some ⟨0, 0⟩ ∧
    Day12.walk Day12.c9OnlyStartT Day12.Cell.is_start (fun _ _ => true) (fun _ => true) =
      .error .NoPathFound :=
  ⟨by rfl,
   c9_no_trivial_path.1 Day12.c1CexT Day12.Cell.is_start (fun _ _ => true) (fun _ => true)
     [⟨0, 0⟩, ⟨1, 0⟩] (by rfl),
   by rfl,
   c9_no_trivial_path.2 Day12.c9OnlyStartT Day12.Cell.is_start (fun _ _ => true)
     (fun _ => true) ⟨0, 0⟩ (by rfl)
     (by
       intro p hb _
       obtain ⟨h1, h2⟩ := hb
       cases p with
       | mk x y =>
         have hx : x = 0 := by
           simpa [Day12.c9OnlyStartT] using h1
         have hy : y = 0 := by
           simpa [Day12.c9OnlyStartT] using h2
         rw [hx, hy])⟩
